import Mathlib

/-!
# STM32L4 mbed HAL: SPI master and UART serial drivers

A shallow embedding of `source/spi_api.c` and `source/serial_api.c`.

Conventions of the embedding.

* Constants that the C sources only name (they are declared by the vendor HAL
  and CMSIS headers, which are not part of the sources) and that are never
  inspected numerically are constructors of an enumeration carrying the C name.
* Registers, event masks and the UART handle state are inspected with `&`, `|`
  and `~` in the C code, so they are natural numbers with the bitwise
  operations of `Nat`; registers are 32 bits wide.
* `error(...)` and a failed `MBED_ASSERT` do not return: a function that can
  reach one of them returns `Except String _`.
* Calls into the vendor HAL (`HAL_SPI_Init`, `HAL_UART_Init`) are parameters of
  the functions that make them.  `HAL_UART_Init` may change the handle state
  and the registers; it does not change the `Init` member it is configured by.
* C `int` arguments (`hz`, `bits`, `mode`, `baudrate`, `data_bits`, `stop_bits`)
  are integers.
* Members of the vendor UART handle have the widths of the vendor header: the
  baud rate is a `uint32_t`, the transfer sizes and counts are `uint16_t`.  An
  assignment to one of them reduces the value modulo 2^32 or 2^16, and a
  decrement that can meet zero wraps modulo 2^16.
-/

/-- Result codes of the vendor HAL. -/
inductive HAL_StatusTypeDef
  | HAL_OK | HAL_ERROR | HAL_BUSY | HAL_TIMEOUT
  deriving DecidableEq, Repr

/-! ## SPI master driver (`spi_api.c`) -/

namespace Spi

inductive SPIName
  | SPI_1 | SPI_2 | SPI_3 | NC
  deriving DecidableEq, Repr

inductive SPI_DataSize
  | SPI_DATASIZE_8BIT | SPI_DATASIZE_16BIT
  deriving DecidableEq, Repr

inductive SPI_Polarity
  | SPI_POLARITY_LOW | SPI_POLARITY_HIGH
  deriving DecidableEq, Repr

inductive SPI_Phase
  | SPI_PHASE_1EDGE | SPI_PHASE_2EDGE
  deriving DecidableEq, Repr

inductive SPI_FirstBit
  | SPI_FIRSTBIT_MSB | SPI_FIRSTBIT_LSB
  deriving DecidableEq, Repr

inductive SPI_BaudRatePrescaler
  | SPI_BAUDRATEPRESCALER_2 | SPI_BAUDRATEPRESCALER_4
  | SPI_BAUDRATEPRESCALER_8 | SPI_BAUDRATEPRESCALER_16
  | SPI_BAUDRATEPRESCALER_32 | SPI_BAUDRATEPRESCALER_64
  | SPI_BAUDRATEPRESCALER_128 | SPI_BAUDRATEPRESCALER_256
  deriving DecidableEq, Repr

inductive SPI_Mode
  | SPI_MODE_SLAVE | SPI_MODE_MASTER
  deriving DecidableEq, Repr

inductive SPI_Direction
  | SPI_DIRECTION_2LINES | SPI_DIRECTION_2LINES_RXONLY | SPI_DIRECTION_1LINE
  deriving DecidableEq, Repr

inductive SPI_CRCCalculation
  | SPI_CRCCALCULATION_DISABLE | SPI_CRCCALCULATION_ENABLE
  deriving DecidableEq, Repr

inductive SPI_CRCLength
  | SPI_CRC_LENGTH_DATASIZE | SPI_CRC_LENGTH_8BIT | SPI_CRC_LENGTH_16BIT
  deriving DecidableEq, Repr

inductive SPI_TIMode
  | SPI_TIMODE_DISABLE | SPI_TIMODE_ENABLE
  deriving DecidableEq, Repr

inductive SPI_NSS
  | SPI_NSS_SOFT | SPI_NSS_HARD_INPUT | SPI_NSS_HARD_OUTPUT
  deriving DecidableEq, Repr

inductive SPI_NSSPMode
  | SPI_NSS_PULSE_DISABLE | SPI_NSS_PULSE_ENABLE
  deriving DecidableEq, Repr

/-- The bit order argument of `spi_format`. -/
inductive spi_bitorder_t
  | SPI_MSB | SPI_LSB
  deriving DecidableEq, Repr

open HAL_StatusTypeDef SPIName SPI_DataSize SPI_Polarity SPI_Phase SPI_FirstBit
open SPI_BaudRatePrescaler SPI_Mode SPI_Direction SPI_CRCCalculation SPI_CRCLength
open SPI_TIMode SPI_NSS SPI_NSSPMode spi_bitorder_t

/-- The port object `spi_t`: the SPI configuration descriptor. -/
structure spi_t where
  spi : SPIName
  bits : SPI_DataSize
  cpol : SPI_Polarity
  cpha : SPI_Phase
  br_presc : SPI_BaudRatePrescaler
  order : SPI_FirstBit
  pin_miso : Nat
  pin_mosi : Nat
  pin_sclk : Nat
  deriving DecidableEq, Repr

/-- The `Init` member of the HAL handle: what `HAL_SPI_Init` programs. -/
structure SPI_InitTypeDef where
  Mode : SPI_Mode
  Direction : SPI_Direction
  DataSize : SPI_DataSize
  CLKPolarity : SPI_Polarity
  CLKPhase : SPI_Phase
  NSS : SPI_NSS
  BaudRatePrescaler : SPI_BaudRatePrescaler
  FirstBit : SPI_FirstBit
  TIMode : SPI_TIMode
  CRCCalculation : SPI_CRCCalculation
  CRCPolynomial : Nat
  CRCLength : SPI_CRCLength
  NSSPMode : SPI_NSSPMode
  deriving DecidableEq, Repr

/-- The single shared `static SPI_HandleTypeDef SpiHandle`, together with the
peripheral-enable bit that `__HAL_SPI_ENABLE` and `__HAL_SPI_DISABLE` drive. -/
structure SPI_HandleTypeDef where
  Instance : SPIName
  Init : SPI_InitTypeDef
  SPE : Bool
  deriving DecidableEq, Repr

/-- The divider a prescaler selector stands for. -/
def SPI_BaudRatePrescaler.divisor : SPI_BaudRatePrescaler → Nat
  | SPI_BAUDRATEPRESCALER_2 => 2
  | SPI_BAUDRATEPRESCALER_4 => 4
  | SPI_BAUDRATEPRESCALER_8 => 8
  | SPI_BAUDRATEPRESCALER_16 => 16
  | SPI_BAUDRATEPRESCALER_32 => 32
  | SPI_BAUDRATEPRESCALER_64 => 64
  | SPI_BAUDRATEPRESCALER_128 => 128
  | SPI_BAUDRATEPRESCALER_256 => 256

/-- `static void init_spi(spi_t *obj)`.  `HAL_SPI_Init` is the vendor call; it
is handed the handle as filled in here and answers with a status. -/
def init_spi (HAL_SPI_Init : SPI_HandleTypeDef → HAL_StatusTypeDef)
    (obj : spi_t) (SpiHandle : SPI_HandleTypeDef) : Except String SPI_HandleTypeDef :=
  let h : SPI_HandleTypeDef :=
    { SpiHandle with
      Instance := obj.spi
      SPE := false
      Init :=
        { Mode := SPI_MODE_MASTER
          BaudRatePrescaler := obj.br_presc
          Direction := SPI_DIRECTION_2LINES
          CLKPhase := obj.cpha
          CLKPolarity := obj.cpol
          CRCCalculation := SPI_CRCCALCULATION_DISABLE
          CRCPolynomial := 7
          CRCLength := SPI_CRC_LENGTH_8BIT
          DataSize := obj.bits
          FirstBit := SPI_FIRSTBIT_MSB
          TIMode := SPI_TIMODE_DISABLE
          NSS := SPI_NSS_SOFT
          NSSPMode := SPI_NSS_PULSE_DISABLE } }
  if HAL_SPI_Init h ≠ HAL_OK then
    .error "Cannot initialize SPI"
  else
    .ok { h with SPE := true }

/-- `void spi_format(spi_t *obj, int bits, int mode, spi_bitorder_t order)`. -/
def spi_format (HAL_SPI_Init : SPI_HandleTypeDef → HAL_StatusTypeDef)
    (obj : spi_t) (SpiHandle : SPI_HandleTypeDef)
    (bits mode : Int) (order : spi_bitorder_t) :
    Except String (spi_t × SPI_HandleTypeDef) :=
  let obj := if bits = 16 then { obj with bits := SPI_DATASIZE_16BIT }
             else { obj with bits := SPI_DATASIZE_8BIT }
  let obj :=
    if mode = 0 then { obj with cpol := SPI_POLARITY_LOW, cpha := SPI_PHASE_1EDGE }
    else if mode = 1 then { obj with cpol := SPI_POLARITY_LOW, cpha := SPI_PHASE_2EDGE }
    else if mode = 2 then { obj with cpol := SPI_POLARITY_HIGH, cpha := SPI_PHASE_1EDGE }
    else { obj with cpol := SPI_POLARITY_HIGH, cpha := SPI_PHASE_2EDGE }
  let obj := if order = SPI_MSB then { obj with order := SPI_FIRSTBIT_MSB }
             else { obj with order := SPI_FIRSTBIT_LSB }
  (init_spi HAL_SPI_Init obj SpiHandle).map (fun h => (obj, h))

/-- `void spi_frequency(spi_t *obj, int hz)`; `SystemCoreClock` is the detected
core clock. -/
def spi_frequency (HAL_SPI_Init : SPI_HandleTypeDef → HAL_StatusTypeDef)
    (SystemCoreClock : Nat) (obj : spi_t) (SpiHandle : SPI_HandleTypeDef) (hz : Int) :
    Except String (spi_t × SPI_HandleTypeDef) :=
  let obj :=
    if SystemCoreClock = 80000000 then
      if hz < 600000 then { obj with br_presc := SPI_BAUDRATEPRESCALER_256 }
      else if hz ≥ 600000 ∧ hz < 1000000 then { obj with br_presc := SPI_BAUDRATEPRESCALER_128 }
      else if hz ≥ 1000000 ∧ hz < 2000000 then { obj with br_presc := SPI_BAUDRATEPRESCALER_64 }
      else if hz ≥ 2000000 ∧ hz < 5000000 then { obj with br_presc := SPI_BAUDRATEPRESCALER_32 }
      else if hz ≥ 5000000 ∧ hz < 10000000 then { obj with br_presc := SPI_BAUDRATEPRESCALER_16 }
      else if hz ≥ 10000000 ∧ hz < 20000000 then { obj with br_presc := SPI_BAUDRATEPRESCALER_8 }
      else if hz ≥ 20000000 ∧ hz < 40000000 then { obj with br_presc := SPI_BAUDRATEPRESCALER_4 }
      else { obj with br_presc := SPI_BAUDRATEPRESCALER_2 }
    else
      if hz < 350000 then { obj with br_presc := SPI_BAUDRATEPRESCALER_256 }
      else if hz ≥ 350000 ∧ hz < 750000 then { obj with br_presc := SPI_BAUDRATEPRESCALER_128 }
      else if hz ≥ 750000 ∧ hz < 1000000 then { obj with br_presc := SPI_BAUDRATEPRESCALER_64 }
      else if hz ≥ 1000000 ∧ hz < 3000000 then { obj with br_presc := SPI_BAUDRATEPRESCALER_32 }
      else if hz ≥ 3000000 ∧ hz < 6000000 then { obj with br_presc := SPI_BAUDRATEPRESCALER_16 }
      else if hz ≥ 6000000 ∧ hz < 12000000 then { obj with br_presc := SPI_BAUDRATEPRESCALER_8 }
      else if hz ≥ 12000000 ∧ hz < 24000000 then { obj with br_presc := SPI_BAUDRATEPRESCALER_4 }
      else { obj with br_presc := SPI_BAUDRATEPRESCALER_2 }
  (init_spi HAL_SPI_Init obj SpiHandle).map (fun h => (obj, h))

/-- A vendor initialization that accepts every configuration. -/
def halSpiAccepts : SPI_HandleTypeDef → HAL_StatusTypeDef := fun _ => HAL_OK

/-- The descriptor and handle as `spi_init` leaves them on `SPI_1`. -/
def objAfterInit : spi_t :=
  { spi := SPI_1, bits := SPI_DATASIZE_8BIT, cpol := SPI_POLARITY_LOW, cpha := SPI_PHASE_1EDGE
    br_presc := SPI_BAUDRATEPRESCALER_256, order := SPI_FIRSTBIT_MSB
    pin_miso := 6, pin_mosi := 7, pin_sclk := 5 }

def handleAfterInit : SPI_HandleTypeDef :=
  { Instance := SPI_1
    SPE := true
    Init :=
      { Mode := SPI_MODE_MASTER, Direction := SPI_DIRECTION_2LINES
        DataSize := SPI_DATASIZE_8BIT, CLKPolarity := SPI_POLARITY_LOW
        CLKPhase := SPI_PHASE_1EDGE, NSS := SPI_NSS_SOFT
        BaudRatePrescaler := SPI_BAUDRATEPRESCALER_256, FirstBit := SPI_FIRSTBIT_MSB
        TIMode := SPI_TIMODE_DISABLE, CRCCalculation := SPI_CRCCALCULATION_DISABLE
        CRCPolynomial := 7, CRCLength := SPI_CRC_LENGTH_8BIT
        NSSPMode := SPI_NSS_PULSE_DISABLE } }

/-! ### Clock rates -/

/-- The bit rate a prescaler gives at a core clock: the clock divided by the
divider. -/
def rate (SystemCoreClock : Nat) (p : SPI_BaudRatePrescaler) : Int :=
  ((SystemCoreClock / p.divisor : Nat) : Int)

/-- The wording of the specification: `p` is the supported prescaler whose rate
is nearest to `hz`, no other one being closer. -/
def nearestRate (SystemCoreClock : Nat) (hz : Int) (p : SPI_BaudRatePrescaler) : Prop :=
  ∀ q : SPI_BaudRatePrescaler, |hz - rate SystemCoreClock p| ≤ |hz - rate SystemCoreClock q|

/-! ### Blocking transfer -/

/-- The status flags and the data register of the peripheral behind
`obj->spi`.  `TXDR` is the element last stored to the data register, `RXDR`
the element its receive side holds. -/
structure SPI_TypeDef where
  TXE : Bool
  RXNE : Bool
  BSY : Bool
  TXDR : Nat
  RXDR : Nat
  deriving DecidableEq, Repr

/-- What the blocking transfer works on: the shared handle and the registers. -/
structure SpiState where
  SpiHandle : SPI_HandleTypeDef
  regs : SPI_TypeDef
  deriving DecidableEq, Repr

/-- What the peripheral does to its registers between two accesses of the
driver. -/
abbrev SpiPeripheral := SPI_TypeDef → SPI_TypeDef

/-- `static inline int ssp_readable(spi_t *obj)`. -/
def ssp_readable (obj : spi_t) (s : SpiState) : SpiState × Int :=
  let s := { s with SpiHandle := { s.SpiHandle with Instance := obj.spi } }
  (s, if s.regs.RXNE then 1 else 0)

/-- `static inline int ssp_writeable(spi_t *obj)`. -/
def ssp_writeable (obj : spi_t) (s : SpiState) : SpiState × Int :=
  let s := { s with SpiHandle := { s.SpiHandle with Instance := obj.spi } }
  (s, if s.regs.TXE then 1 else 0)

/-- `static inline int ssp_busy(spi_t *obj)`. -/
def ssp_busy (obj : spi_t) (s : SpiState) : SpiState × Int :=
  let s := { s with SpiHandle := { s.SpiHandle with Instance := obj.spi } }
  (s, if s.regs.BSY then 1 else 0)

/-- The loop `while (!ssp_writeable(obj));`: at most `fuel` polls, the
peripheral running between two polls.  `none` when the flag did not come up
within the polls allowed. -/
def wait_writeable (hw : SpiPeripheral) (obj : spi_t) : Nat → SpiState → Option SpiState
  | 0, _ => none
  | fuel + 1, s =>
    let r := ssp_writeable obj s
    if r.2 ≠ 0 then some r.1
    else wait_writeable hw obj fuel { r.1 with regs := hw r.1.regs }

/-- The loop `while (!ssp_readable(obj));`, likewise. -/
def wait_readable (hw : SpiPeripheral) (obj : spi_t) : Nat → SpiState → Option SpiState
  | 0, _ => none
  | fuel + 1, s =>
    let r := ssp_readable obj s
    if r.2 ≠ 0 then some r.1
    else wait_readable hw obj fuel { r.1 with regs := hw r.1.regs }

/-- `static inline void ssp_write(spi_t *obj, int value)`.  A store to the data
register fills the transmit buffer, so the transmit-empty flag goes low. -/
def ssp_write (hw : SpiPeripheral) (fuel : Nat) (obj : spi_t) (s : SpiState) (value : Int) :
    Option SpiState :=
  (wait_writeable hw obj fuel s).map fun s =>
    if obj.bits = SPI_DATASIZE_8BIT then
      { s with regs := { s.regs with TXDR := (value % 256).toNat, TXE := false } }
    else
      { s with regs := { s.regs with TXDR := (value % 65536).toNat, TXE := false } }

/-- `static inline int ssp_read(spi_t *obj)`.  A load from the data register
empties the receive buffer, so the receive-not-empty flag goes low; the 8-bit
access reads the low byte of the register. -/
def ssp_read (hw : SpiPeripheral) (fuel : Nat) (obj : spi_t) (s : SpiState) :
    Option (SpiState × Int) :=
  (wait_readable hw obj fuel s).map fun s =>
    if obj.bits = SPI_DATASIZE_8BIT then
      ({ s with regs := { s.regs with RXNE := false } }, ((s.regs.RXDR % 256 : Nat) : Int))
    else
      ({ s with regs := { s.regs with RXNE := false } }, ((s.regs.RXDR : Nat) : Int))

/-- `int spi_master_write(spi_t *obj, int value)`. -/
def spi_master_write (hw : SpiPeripheral) (fuel : Nat) (obj : spi_t) (s : SpiState)
    (value : Int) : Option (SpiState × Int) :=
  (ssp_write hw fuel obj s value).bind fun s => ssp_read hw fuel obj s

/-- `int spi_busy(spi_t *obj)`. -/
def spi_busy (obj : spi_t) (s : SpiState) : SpiState × Int :=
  ssp_busy obj s

/-- A peripheral wired in loopback: once an element has been stored, it is
shifted out and the element shifted in is that same element. -/
def loopback : SpiPeripheral := fun r =>
  if r.TXE then r else { r with RXDR := r.TXDR, RXNE := true, TXE := true, BSY := false }

/-- An idle peripheral: transmit buffer empty, nothing received. -/
def idleRegs : SPI_TypeDef :=
  { TXE := true, RXNE := false, BSY := false, TXDR := 0, RXDR := 0 }

end Spi

/-! ## UART serial driver (`serial_api.c`) -/

namespace Serial

open HAL_StatusTypeDef

inductive UARTName
  | UART_1 | UART_2 | UART_3 | UART_4 | UART_5 | LPUART_1 | NC
  deriving DecidableEq, Repr

/-- Pin identifiers are numbers; `NC` is the not-connected sentinel. -/
abbrev PinName := Nat

def PinName.NC : PinName := 0xFFFFFFFF

inductive SerialParity
  | ParityNone | ParityOdd | ParityEven | ParityForced1 | ParityForced0
  deriving DecidableEq, Repr

inductive SerialIrq
  | RxIrq | TxIrq
  deriving DecidableEq, Repr

inductive UART_WordLength
  | UART_WORDLENGTH_7B | UART_WORDLENGTH_8B | UART_WORDLENGTH_9B
  deriving DecidableEq, Repr

inductive UART_StopBits
  | UART_STOPBITS_1 | UART_STOPBITS_1_5 | UART_STOPBITS_2
  deriving DecidableEq, Repr

inductive UART_Parity
  | UART_PARITY_NONE | UART_PARITY_EVEN | UART_PARITY_ODD
  deriving DecidableEq, Repr

inductive UART_Mode
  | UART_MODE_RX | UART_MODE_TX | UART_MODE_TX_RX
  deriving DecidableEq, Repr

inductive UART_HwFlowCtl
  | UART_HWCONTROL_NONE | UART_HWCONTROL_RTS | UART_HWCONTROL_CTS | UART_HWCONTROL_RTS_CTS
  deriving DecidableEq, Repr

inductive UART_OverSampling
  | UART_OVERSAMPLING_16 | UART_OVERSAMPLING_8
  deriving DecidableEq, Repr

inductive UART_OneBitSampling
  | UART_ONE_BIT_SAMPLE_DISABLE | UART_ONE_BIT_SAMPLE_ENABLE
  deriving DecidableEq, Repr

/-- Interrupt sources named by the `__HAL_UART_ENABLE_IT` and
`__HAL_UART_DISABLE_IT` calls of the driver. -/
inductive UART_IT
  | UART_IT_RXNE | UART_IT_TC | UART_IT_TXE
  deriving DecidableEq, Repr

open UARTName SerialParity SerialIrq UART_WordLength UART_StopBits UART_Parity UART_Mode
open UART_HwFlowCtl UART_OverSampling UART_OneBitSampling UART_IT

/-! ### Register bits, handle states and event bits

The numeric values are those of the device header, the vendor HAL and the mbed
serial API header. -/

def USART_CR1_RXNEIE : Nat := 0x20
def USART_CR1_TCIE : Nat := 0x40
def USART_CR1_TXEIE : Nat := 0x80
def USART_CR1_PEIE : Nat := 0x100
def USART_CR3_EIE : Nat := 0x1

def USART_ISR_PE : Nat := 0x1
def USART_ISR_FE : Nat := 0x2
def USART_ISR_NE : Nat := 0x4
def USART_ISR_ORE : Nat := 0x8
def USART_ISR_RXNE : Nat := 0x20
def USART_ISR_TC : Nat := 0x40
def USART_ISR_TXE : Nat := 0x80

def UART_FLAG_TXE : Nat := 0x80
def UART_FLAG_TC : Nat := 0x40
def UART_FLAG_RXNE : Nat := 0x20

def HAL_UART_STATE_RESET : Nat := 0x00
def HAL_UART_STATE_READY : Nat := 0x01
def HAL_UART_STATE_BUSY : Nat := 0x02
def HAL_UART_STATE_BUSY_TX : Nat := 0x12
def HAL_UART_STATE_BUSY_RX : Nat := 0x22
def HAL_UART_STATE_BUSY_TX_RX : Nat := 0x32
def HAL_UART_STATE_TIMEOUT : Nat := 0x03
def HAL_UART_STATE_ERROR : Nat := 0x04

def SERIAL_EVENT_TX_MASK : Nat := 0x00FC
def SERIAL_EVENT_RX_MASK : Nat := 0x3F00
def SERIAL_EVENT_TX_COMPLETE : Nat := 0x4
def SERIAL_EVENT_RX_COMPLETE : Nat := 0x100
def SERIAL_EVENT_RX_OVERRUN_ERROR : Nat := 0x200
def SERIAL_EVENT_RX_FRAMING_ERROR : Nat := 0x400
def SERIAL_EVENT_RX_PARITY_ERROR : Nat := 0x800
def SERIAL_EVENT_RX_CHARACTER_MATCH : Nat := 0x2000
def SERIAL_RESERVED_CHAR_MATCH : Nat := 255

/-- The C statement `r &= ~m` on a 32-bit register. -/
def clearBits (r m : Nat) : Nat := r &&& (0xFFFFFFFF ^^^ m)

/-- The `Init` member of the UART handle.  `BaudRate` is a `uint32_t`: the
values stored in it are reduced modulo 2^32. -/
structure UART_InitTypeDef where
  BaudRate : Int
  WordLength : UART_WordLength
  StopBits : UART_StopBits
  Parity : UART_Parity
  Mode : UART_Mode
  HwFlowCtl : UART_HwFlowCtl
  OverSampling : UART_OverSampling
  OneBitSampling : UART_OneBitSampling
  deriving DecidableEq, Repr

/-- One entry of `static UART_HandleTypeDef UartHandle[UART_NUM]`.  The buffer
pointers are byte addresses.  The transfer sizes and counts are `uint16_t`
members: the values stored in them are reduced modulo 2^16. -/
structure UART_HandleTypeDef where
  Instance : UARTName
  Init : UART_InitTypeDef
  pTxBuffPtr : Nat
  TxXferSize : Nat
  TxXferCount : Nat
  pRxBuffPtr : Nat
  RxXferSize : Nat
  RxXferCount : Nat
  State : Nat
  deriving DecidableEq, Repr

/-- The registers of the peripheral behind `handle->Instance`. -/
structure USART_TypeDef where
  CR1 : Nat
  CR3 : Nat
  ISR : Nat
  RDR : Nat
  TDR : Nat
  deriving DecidableEq, Repr

/-- The transfer-buffer descriptor embedded in a port object. -/
structure buffer_s where
  buffer : Nat
  length : Nat
  pos : Nat
  width : Nat
  deriving DecidableEq, Repr

structure serial_s where
  module : Nat
  pin_tx : PinName
  pin_rx : PinName
  event : Nat
  char_match : Nat
  deriving DecidableEq, Repr

/-- The port object `serial_t`. -/
structure serial_t where
  serial : serial_s
  tx_buff : buffer_s
  rx_buff : buffer_s
  deriving DecidableEq, Repr

/-- Build- and board-dependent constants: the interrupt line and trampoline
address of each module index (0 where the instance does not exist), the
standard-I/O pin pair and the console baud rate, a configuration constant in
the range of the `uint32_t` member it is stored to. -/
structure Target where
  UartIRQs : Nat → Nat
  uart_irq_vectors : Nat → Nat
  STDIO_UART_TX : PinName
  STDIO_UART_RX : PinName
  YOTTA_CFG_MBED_OS_STDIO_DEFAULT_BAUD : Int

/-- Everything a call on the port object `obj` can read or write: the object,
the entry `UartHandle[obj->serial.module]`, the registers of that entry's
peripheral, the callback registration of that module, byte-addressed memory,
and the interrupt controller.  `tdrWrites` lists the values written to the
transmit data register, oldest first, and `callbacks` the invocations of the
registered callback, oldest first. -/
structure SerialState where
  obj : serial_t
  handle : UART_HandleTypeDef
  regs : USART_TypeDef
  irq_handler : Nat
  serial_irq_id : Nat
  mem : Nat → Nat
  vector : Nat → Nat
  irqEnabled : Nat → Bool
  tdrWrites : List Nat
  callbacks : List (Nat × Nat × SerialIrq)

/-- The vendor call `HAL_UART_Init(handle)`: it reads the handle and the
registers and answers with a status, the new `State` of the handle and the
registers as it programs them. -/
abbrev HalUartInit := UART_HandleTypeDef → USART_TypeDef → HAL_StatusTypeDef × Nat × USART_TypeDef

/-- Run `HAL_UART_Init(handle)` on the state; the returned status is kept next
to the state so that a caller can use or discard it. -/
def HAL_UART_Init (hal : HalUartInit) (s : SerialState) : HAL_StatusTypeDef × SerialState :=
  let r := hal s.handle s.regs
  (r.1, { s with handle := { s.handle with State := r.2.1 }, regs := r.2.2 })

def vIRQ_SetVector (s : SerialState) (irq_n v : Nat) : SerialState :=
  { s with vector := fun n => if n = irq_n then v else s.vector n }

def vIRQ_EnableIRQ (s : SerialState) (irq_n : Nat) : SerialState :=
  { s with irqEnabled := fun n => if n = irq_n then true else s.irqEnabled n }

def vIRQ_DisableIRQ (s : SerialState) (irq_n : Nat) : SerialState :=
  { s with irqEnabled := fun n => if n = irq_n then false else s.irqEnabled n }

/-- The control-register-1 enable bit of an interrupt source. -/
def UART_IT.bit : UART_IT → Nat
  | UART_IT_RXNE => USART_CR1_RXNEIE
  | UART_IT_TC => USART_CR1_TCIE
  | UART_IT_TXE => USART_CR1_TXEIE

/-- Modelled from the spec: the vendor macro `__HAL_UART_ENABLE_IT`, which
enables the hardware interrupt of the named source. -/
def HAL_UART_ENABLE_IT (r : USART_TypeDef) (it : UART_IT) : USART_TypeDef :=
  { r with CR1 := r.CR1 ||| it.bit }

/-- Modelled from the spec: the vendor macro `__HAL_UART_DISABLE_IT`, which
disables the hardware interrupt of the named source. -/
def HAL_UART_DISABLE_IT (r : USART_TypeDef) (it : UART_IT) : USART_TypeDef :=
  { r with CR1 := clearBits r.CR1 it.bit }

/-- Modelled from the spec: the vendor macro `__HAL_UART_GET_FLAG`, the
instantaneous state of a status flag. -/
def HAL_UART_GET_FLAG (r : USART_TypeDef) (flag : Nat) : Bool :=
  r.ISR &&& flag == flag

/-- Modelled from the spec: the vendor macro `__HAL_UART_CLEAR_FLAG`, which
clears a status flag. -/
def HAL_UART_CLEAR_FLAG (r : USART_TypeDef) (flag : Nat) : USART_TypeDef :=
  { r with ISR := clearBits r.ISR flag }

/-- Modelled from the spec: the vendor macro `__HAL_UART_CLEAR_PEFLAG`, which
clears a pending parity-error flag. -/
def HAL_UART_CLEAR_PEFLAG (r : USART_TypeDef) : USART_TypeDef :=
  { r with ISR := clearBits r.ISR USART_ISR_PE }

/-! ### Initialization and configuration -/

/-- `void serial_init(serial_t *obj, PinName tx, PinName rx)`.  `instance` is
what `pinmap_merge` made of the two pins.  All six instances exist on the
target.  The state passed in is the one whose `handle` is the entry of the
module index that the `switch` assigns.  The status of `HAL_UART_Init` is
discarded, as in the C code. -/
def serial_init (T : Target) (hal : HalUartInit) (s : SerialState)
    (tx rx : PinName) (inst : UARTName) : Except String SerialState :=
  if inst = NC then
    .error "MBED_ASSERT(instance != (UARTName)NC)"
  else
    let module :=
      match inst with
      | UART_1 => 0
      | UART_2 => 1
      | UART_3 => 2
      | UART_4 => 3
      | UART_5 => 4
      | LPUART_1 => 5
      | NC => s.obj.serial.module
    let obj : serial_t :=
      { s.obj with serial := { s.obj.serial with module := module, pin_tx := tx, pin_rx := rx } }
    let handle : UART_HandleTypeDef :=
      { s.handle with
        Instance := inst
        Init :=
          { BaudRate := if inst ≠ LPUART_1 then 9600 else 38400
            WordLength := UART_WORDLENGTH_8B
            StopBits := UART_STOPBITS_1
            Parity := UART_PARITY_NONE
            Mode := if rx = PinName.NC then UART_MODE_TX
                    else if tx = PinName.NC then UART_MODE_RX
                    else UART_MODE_TX_RX
            HwFlowCtl := UART_HWCONTROL_NONE
            OverSampling := UART_OVERSAMPLING_16
            OneBitSampling := UART_ONE_BIT_SAMPLE_ENABLE }
        TxXferCount := 0
        RxXferCount := 0 }
    let handle : UART_HandleTypeDef :=
      if tx = T.STDIO_UART_TX ∧ rx = T.STDIO_UART_RX then
        { handle with
          Init := { handle.Init with BaudRate := T.YOTTA_CFG_MBED_OS_STDIO_DEFAULT_BAUD } }
      else handle
    .ok (HAL_UART_Init hal { s with obj := obj, handle := handle }).2

/-- `void serial_baud(serial_t *obj, int baudrate)`.  The assignment
`handle->Init.BaudRate = baudrate` converts the `int` to the `uint32_t`
member. -/
def serial_baud (hal : HalUartInit) (s : SerialState) (baudrate : Int) :
    Except String SerialState :=
  if s.handle.Instance = LPUART_1 ∧ baudrate < 38400 then
    .error "The minimum baud rate is 38400 for LPUART_1 running at 80 MHz"
  else
    let s :=
      { s with
        handle := { s.handle with
                    Init := { s.handle.Init with BaudRate := baudrate % 4294967296 } } }
    .ok (HAL_UART_Init hal s).2

/-- `void serial_format(serial_t *obj, int data_bits, SerialParity parity, int stop_bits)`. -/
def serial_format (hal : HalUartInit) (s : SerialState)
    (data_bits : Int) (parity : SerialParity) (stop_bits : Int) : SerialState :=
  let init := s.handle.Init
  let init :=
    if data_bits > 8 then { init with WordLength := UART_WORDLENGTH_9B }
    else { init with WordLength := UART_WORDLENGTH_8B }
  let init :=
    match parity with
    | ParityOdd | ParityForced0 => { init with Parity := UART_PARITY_ODD }
    | ParityEven | ParityForced1 => { init with Parity := UART_PARITY_EVEN }
    | _ => { init with Parity := UART_PARITY_NONE }
  let init :=
    if stop_bits = 2 then { init with StopBits := UART_STOPBITS_2 }
    else { init with StopBits := UART_STOPBITS_1 }
  (HAL_UART_Init hal { s with handle := { s.handle with Init := init } }).2

/-! ### Interrupt registration -/

/-- `static void uart_irq(uint8_t id)` on the module of the state. -/
def uart_irq (s : SerialState) : SerialState :=
  if s.serial_irq_id ≠ 0 then
    let s :=
      if HAL_UART_GET_FLAG s.regs UART_FLAG_TC ∧ s.handle.Instance ≠ UART_1 then
        { s with
          callbacks := s.callbacks ++ [(s.irq_handler, s.serial_irq_id, TxIrq)]
          regs := HAL_UART_CLEAR_FLAG s.regs UART_FLAG_TC }
      else s
    if HAL_UART_GET_FLAG s.regs UART_FLAG_RXNE then
      { s with
        callbacks := s.callbacks ++ [(s.irq_handler, s.serial_irq_id, RxIrq)]
        regs := HAL_UART_CLEAR_FLAG s.regs UART_FLAG_RXNE }
    else s
  else s

/-- `void serial_irq_handler(serial_t *obj, uart_irq_handler handler, uint32_t id)`. -/
def serial_irq_handler (s : SerialState) (handler id : Nat) : SerialState :=
  { s with irq_handler := handler, serial_irq_id := id }

/-- `void serial_irq_set(serial_t *obj, SerialIrq irq, uint32_t enable)`. -/
def serial_irq_set (T : Target) (s : SerialState) (irq : SerialIrq) (enable : Nat) :
    SerialState :=
  let irq_n := T.UartIRQs s.obj.serial.module
  let vector := T.uart_irq_vectors s.obj.serial.module
  if irq_n = 0 ∨ vector = 0 then s
  else if enable ≠ 0 then
    let s :=
      if irq = RxIrq then { s with regs := HAL_UART_ENABLE_IT s.regs UART_IT_RXNE }
      else { s with regs := HAL_UART_ENABLE_IT s.regs UART_IT_TC }
    let s := vIRQ_SetVector s irq_n vector
    vIRQ_EnableIRQ s irq_n
  else
    if irq = RxIrq then
      let s := { s with regs := HAL_UART_DISABLE_IT s.regs UART_IT_RXNE }
      let all_disabled : Bool := s.regs.CR1 &&& USART_CR1_TXEIE == 0
      if all_disabled then vIRQ_DisableIRQ s irq_n else s
    else
      let s := { s with regs := HAL_UART_DISABLE_IT s.regs UART_IT_TXE }
      let all_disabled : Bool := s.regs.CR1 &&& USART_CR1_RXNEIE == 0
      if all_disabled then vIRQ_DisableIRQ s irq_n else s

/-! ### Asynchronous transfer -/

/-- `int serial_tx_asynch(obj, tx, tx_length, tx_width, handler, event, hint)`;
`tx` is the address of the buffer, 0 for `NULL`.  The `size_t` length is
truncated to 16 bits when it is assigned to `TxXferSize` and `TxXferCount`, and
the unguarded `handle->TxXferCount--` wraps from 0 to 65535. -/
def serial_tx_asynch (T : Target) (s : SerialState)
    (tx tx_length tx_width handler event hint : Nat) : SerialState × Nat :=
  let _hint := hint
  let use_tx : Bool := tx ≠ 0 ∧ tx_length > 0
  let irq_n := T.UartIRQs s.obj.serial.module
  if !use_tx || irq_n = 0 then (s, 0)
  else
    let obj : serial_t :=
      { s.obj with
        tx_buff := { buffer := tx, length := tx_length, pos := 0, width := tx_width }
        serial :=
          { s.obj.serial with
            event := clearBits s.obj.serial.event SERIAL_EVENT_TX_MASK
                       ||| (event &&& SERIAL_EVENT_TX_MASK) } }
    let s := { s with obj := obj }
    let s := vIRQ_SetVector s irq_n handler
    let s := vIRQ_EnableIRQ s irq_n
    let handle : UART_HandleTypeDef :=
      { s.handle with
        pTxBuffPtr := tx
        TxXferSize := tx_length % 65536
        TxXferCount := tx_length % 65536 }
    let handle : UART_HandleTypeDef :=
      if handle.State = HAL_UART_STATE_BUSY_RX then
        { handle with State := HAL_UART_STATE_BUSY_TX_RX }
      else
        { handle with State := HAL_UART_STATE_BUSY_TX }
    let s := { s with handle := handle }
    let s :=
      if HAL_UART_GET_FLAG s.regs UART_FLAG_TXE then
        { s with
          regs := { s.regs with TDR := s.mem s.handle.pTxBuffPtr % 256 }
          tdrWrites := s.tdrWrites ++ [s.mem s.handle.pTxBuffPtr % 256]
          handle :=
            { s.handle with
              pTxBuffPtr := s.handle.pTxBuffPtr + 1
              TxXferCount := (s.handle.TxXferCount + 65535) % 65536 } }
      else s
    let s :=
      if s.handle.TxXferCount ≠ 0 then
        { s with regs := { s.regs with CR1 := s.regs.CR1 ||| USART_CR1_TXEIE } }
      else
        { s with regs := { s.regs with CR1 := s.regs.CR1 ||| USART_CR1_TCIE } }
    (s, tx_length)

/-- `void serial_rx_asynch(obj, rx, rx_length, rx_width, handler, event, char_match, hint)`;
`rx` is the address of the buffer, 0 for `NULL`.  The `size_t` length is
truncated to 16 bits when it is assigned to `RxXferSize` and `RxXferCount`. -/
def serial_rx_asynch (T : Target) (s : SerialState)
    (rx rx_length rx_width handler event char_match hint : Nat) : SerialState :=
  let _hint := hint
  let use_rx : Bool := rx ≠ 0 ∧ rx_length > 0
  let irq_n := T.UartIRQs s.obj.serial.module
  if !use_rx || irq_n = 0 then s
  else
    let obj : serial_t :=
      { s.obj with
        rx_buff := { buffer := rx, length := rx_length, pos := 0, width := rx_width }
        serial :=
          { s.obj.serial with
            event := clearBits s.obj.serial.event SERIAL_EVENT_RX_MASK
                       ||| (event &&& SERIAL_EVENT_RX_MASK)
            char_match := char_match } }
    let s := { s with obj := obj }
    let s := vIRQ_SetVector s irq_n handler
    let s := vIRQ_EnableIRQ s irq_n
    let handle : UART_HandleTypeDef :=
      { s.handle with
        pRxBuffPtr := rx
        RxXferSize := rx_length % 65536
        RxXferCount := rx_length % 65536 }
    let handle : UART_HandleTypeDef :=
      if handle.State = HAL_UART_STATE_BUSY_TX then
        { handle with State := HAL_UART_STATE_BUSY_TX_RX }
      else
        { handle with State := HAL_UART_STATE_BUSY_RX }
    let s := { s with handle := handle, regs := HAL_UART_CLEAR_PEFLAG s.regs }
    { s with
      regs :=
        { s.regs with
          CR1 := s.regs.CR1 ||| (USART_CR1_RXNEIE ||| USART_CR1_PEIE)
          CR3 := s.regs.CR3 ||| USART_CR3_EIE } }

/-- The error part of `serial_irq_handler_asynch`: the event bits of the
parity, framing or noise, and overrun flags of `status`. -/
def irq_error_events (status : Nat) : Nat :=
  let event := 0
  let event := if status &&& USART_ISR_PE ≠ 0 then event ||| SERIAL_EVENT_RX_PARITY_ERROR else event
  let event :=
    if status &&& (USART_ISR_NE ||| USART_ISR_FE) ≠ 0 then event ||| SERIAL_EVENT_RX_FRAMING_ERROR
    else event
  if status &&& USART_ISR_ORE ≠ 0 then event ||| SERIAL_EVENT_RX_OVERRUN_ERROR else event

/-- The transmit part of `serial_irq_handler_asynch`: the `if ... else if ...`
on transmit-complete and transmit-register-empty.  The decrement
`--handle->TxXferCount` runs under the test that the count is not zero, so it
does not wrap. -/
def irq_tx_part (status : Nat) (s : SerialState) (event : Nat) : SerialState × Nat :=
  if status &&& USART_ISR_TC ≠ 0 ∧ s.handle.State &&& 0x10 ≠ 0 ∧ s.handle.TxXferCount = 0 then
    let s := { s with regs := { s.regs with CR1 := clearBits s.regs.CR1 USART_CR1_TCIE } }
    let event := event ||| SERIAL_EVENT_TX_COMPLETE
    if s.handle.State = HAL_UART_STATE_BUSY_TX_RX then
      ({ s with handle := { s.handle with State := HAL_UART_STATE_BUSY_RX } }, event)
    else
      ({ s with handle := { s.handle with State := HAL_UART_STATE_READY } }, event)
  else if status &&& USART_ISR_TXE ≠ 0 ∧ s.handle.TxXferCount ≠ 0 then
    let s := { s with handle := { s.handle with TxXferCount := s.handle.TxXferCount - 1 } }
    let s :=
      if s.handle.TxXferCount = 0 then
        { s with
          regs := { s.regs with
                    CR1 := clearBits s.regs.CR1 USART_CR1_TXEIE ||| USART_CR1_TCIE } }
      else s
    ({ s with
       regs := { s.regs with TDR := s.mem s.handle.pTxBuffPtr % 256 }
       tdrWrites := s.tdrWrites ++ [s.mem s.handle.pTxBuffPtr % 256]
       handle := { s.handle with pTxBuffPtr := s.handle.pTxBuffPtr + 1 }
       obj := { s.obj with tx_buff := { s.obj.tx_buff with pos := s.obj.tx_buff.pos + 1 } } },
     event)
  else (s, event)

/-- The receive part of `serial_irq_handler_asynch`.  The decrement
`--handle->RxXferCount` runs under the test that the count is not zero, so it
does not wrap. -/
def irq_rx_part (status data : Nat) (s : SerialState) (event : Nat) : SerialState × Nat :=
  if status &&& USART_ISR_RXNE ≠ 0 ∧ s.handle.RxXferCount ≠ 0 then
    let s :=
      { s with
        mem := fun a => if a = s.handle.pRxBuffPtr then data % 256 else s.mem a
        handle := { s.handle with pRxBuffPtr := s.handle.pRxBuffPtr + 1 }
        obj := { s.obj with rx_buff := { s.obj.rx_buff with pos := s.obj.rx_buff.pos + 1 } } }
    let event :=
      if s.obj.serial.char_match ≠ SERIAL_RESERVED_CHAR_MATCH
          ∧ data % 256 = s.obj.serial.char_match then
        event ||| SERIAL_EVENT_RX_CHARACTER_MATCH
      else event
    let s := { s with handle := { s.handle with RxXferCount := s.handle.RxXferCount - 1 } }
    if s.handle.RxXferCount = 0 then
      let s :=
        { s with
          regs :=
            { s.regs with
              CR1 := clearBits s.regs.CR1 (USART_CR1_RXNEIE ||| USART_CR1_PEIE)
              CR3 := clearBits s.regs.CR3 USART_CR3_EIE } }
      let event := event ||| SERIAL_EVENT_RX_COMPLETE
      if s.handle.State = HAL_UART_STATE_BUSY_TX_RX then
        ({ s with handle := { s.handle with State := HAL_UART_STATE_BUSY_TX } }, event)
      else
        ({ s with handle := { s.handle with State := HAL_UART_STATE_READY } }, event)
    else (s, event)
  else (s, event)

/-- `int serial_irq_handler_asynch(serial_t *obj)`: status and data are read
once from the registers, then the three parts run in order and the
accumulated events are masked with the event mask of the port. -/
def serial_irq_handler_asynch (s : SerialState) : SerialState × Nat :=
  let status := s.regs.ISR
  let data := s.regs.RDR
  let event := irq_error_events status
  let r := irq_tx_part status s event
  let r := irq_rx_part status data r.1 r.2
  (r.1, r.2 &&& r.1.obj.serial.event)

/-- `void serial_rx_abort_asynch(serial_t *obj)`. -/
def serial_rx_abort_asynch (s : SerialState) : SerialState :=
  let regs :=
    { s.regs with
      CR1 := clearBits s.regs.CR1 (USART_CR1_RXNEIE ||| USART_CR1_PEIE)
      CR3 := clearBits s.regs.CR3 USART_CR3_EIE }
  let regs := HAL_UART_CLEAR_PEFLAG regs
  let handle := { s.handle with RxXferCount := 0 }
  if handle.State = HAL_UART_STATE_BUSY_TX_RX then
    { s with regs := regs, handle := { handle with State := HAL_UART_STATE_BUSY_TX } }
  else
    { s with regs := regs, handle := { handle with State := HAL_UART_STATE_READY } }

/-- `void serial_tx_abort_asynch(serial_t *obj)`. -/
def serial_tx_abort_asynch (s : SerialState) : SerialState :=
  let regs := { s.regs with CR1 := clearBits s.regs.CR1 (USART_CR1_TCIE ||| USART_CR1_TXEIE) }
  let regs := HAL_UART_CLEAR_PEFLAG regs
  let handle := { s.handle with TxXferCount := 0 }
  if handle.State = HAL_UART_STATE_BUSY_TX_RX then
    { s with regs := regs, handle := { handle with State := HAL_UART_STATE_BUSY_RX } }
  else
    { s with regs := regs, handle := { handle with State := HAL_UART_STATE_READY } }

/-- `uint8_t serial_tx_active(serial_t *obj)`. -/
def serial_tx_active (s : SerialState) : Nat :=
  let state := s.handle.State
  if state = HAL_UART_STATE_RESET ∨ state = HAL_UART_STATE_READY ∨ state = HAL_UART_STATE_ERROR
      ∨ state = HAL_UART_STATE_TIMEOUT ∨ state = HAL_UART_STATE_BUSY_RX then 0
  else 1

/-- `uint8_t serial_rx_active(serial_t *obj)`. -/
def serial_rx_active (s : SerialState) : Nat :=
  let state := s.handle.State
  if state = HAL_UART_STATE_RESET ∨ state = HAL_UART_STATE_READY ∨ state = HAL_UART_STATE_ERROR
      ∨ state = HAL_UART_STATE_TIMEOUT ∨ state = HAL_UART_STATE_BUSY_TX then 0
  else 1

/-! ### Running the driver against the hardware -/

/-- One interrupt service: the peripheral presents `status` in its status
register and `data` in its receive data register, and
`serial_irq_handler_asynch` runs. -/
def service (s : SerialState) (status data : Nat) : SerialState × Nat :=
  serial_irq_handler_asynch { s with regs := { s.regs with ISR := status, RDR := data } }

/-- Successive interrupt services, one per `(status, data)` reading; the final
state and the results of the calls in order. -/
def serviceAll : SerialState → List (Nat × Nat) → SerialState × List Nat
  | s, [] => (s, [])
  | s, rd :: rest =>
    let r := service s rd.1 rd.2
    let q := serviceAll r.1 rest
    (q.1, r.2 :: q.2)

/-- The `n` bytes of memory that start at address `a`, lowest address first. -/
def readBuffer (mem : Nat → Nat) : Nat → Nat → List Nat
  | _, 0 => []
  | a, n + 1 => mem a :: readBuffer mem (a + 1) n

/-! ### Progress of a transmit -/

/-- A target on which the first two instances have an interrupt line and a
trampoline. -/
def sampleTarget : Target :=
  { UartIRQs := fun m => if m = 0 then 37 else if m = 1 then 38 else 0
    uart_irq_vectors := fun m => if m = 0 then 0x08001000 else if m = 1 then 0x08001010 else 0
    STDIO_UART_TX := 2
    STDIO_UART_RX := 3
    YOTTA_CFG_MBED_OS_STDIO_DEFAULT_BAUD := 115200 }

/-- A vendor initialization that succeeds and leaves the handle ready. -/
def halUartOk : HalUartInit := fun _ r => (HAL_OK, HAL_UART_STATE_READY, r)

/-- A vendor initialization that reports failure. -/
def halUartFails : HalUartInit := fun h r => (HAL_ERROR, h.State, r)

/-- The vendor initialization `hal` made to report the status `st`, its effect
on the handle state and the registers unchanged. -/
def withStatus (hal : HalUartInit) (st : HAL_StatusTypeDef) : HalUartInit :=
  fun h r => (st, (hal h r).2)

/-- The state of module 1 (`UART_2`) before any call: zeroed statics, all
interrupt enables clear. -/
def resetState : SerialState :=
  { obj :=
      { serial := { module := 1, pin_tx := 2, pin_rx := 3, event := 0, char_match := 0 }
        tx_buff := { buffer := 0, length := 0, pos := 0, width := 0 }
        rx_buff := { buffer := 0, length := 0, pos := 0, width := 0 } }
    handle :=
      { Instance := UART_2
        Init :=
          { BaudRate := 0, WordLength := UART_WORDLENGTH_8B, StopBits := UART_STOPBITS_1
            Parity := UART_PARITY_NONE, Mode := UART_MODE_TX_RX
            HwFlowCtl := UART_HWCONTROL_NONE, OverSampling := UART_OVERSAMPLING_16
            OneBitSampling := UART_ONE_BIT_SAMPLE_DISABLE }
        pTxBuffPtr := 0, TxXferSize := 0, TxXferCount := 0
        pRxBuffPtr := 0, RxXferSize := 0, RxXferCount := 0
        State := HAL_UART_STATE_RESET }
    regs := { CR1 := 0, CR3 := 0, ISR := 0, RDR := 0, TDR := 0 }
    irq_handler := 0
    serial_irq_id := 0
    mem := fun _ => 0
    vector := fun _ => 0
    irqEnabled := fun _ => false
    tdrWrites := []
    callbacks := [] }

/-- The same module with the handle in the given state. -/
def stateWith (st : Nat) : SerialState :=
  { resetState with handle := { resetState.handle with State := st } }

/-- A port whose memory holds the bytes 0x48, 0x69, 0x21 at 0x20000000, ready,
with the transmit-empty flag as given. -/
def sendingState (txe : Bool) : SerialState :=
  { stateWith HAL_UART_STATE_READY with
    regs := { resetState.regs with ISR := if txe then USART_ISR_TXE else 0 }
    mem := fun a => if a = 0x20000000 then 0x48 else if a = 0x20000001 then 0x69
                    else if a = 0x20000002 then 0x21 else 0 }

/-- A port in the middle of a three-byte receive, subscribed to the
character-match and receive-complete events, matching the byte 0x0A. -/
def receivingState : SerialState :=
  { resetState with
    obj := { resetState.obj with
             serial := { resetState.obj.serial with
                         event := SERIAL_EVENT_RX_CHARACTER_MATCH ||| SERIAL_EVENT_RX_COMPLETE
                         char_match := 0x0A } }
    handle := { resetState.handle with
                pRxBuffPtr := 0x20000100, RxXferSize := 3, RxXferCount := 3
                State := HAL_UART_STATE_BUSY_RX } }

/-- The port of `sendingState` in the middle of a four-byte receive into
0x20000100, three bytes still to come, subscribed to the receive-complete
event. -/
def duplexState (txe : Bool) : SerialState :=
  { sendingState txe with
    obj := { (sendingState txe).obj with
             serial := { (sendingState txe).obj.serial with event := SERIAL_EVENT_RX_COMPLETE }
             rx_buff := { buffer := 0x20000100, length := 4, pos := 1, width := 8 } }
    handle := { (sendingState txe).handle with
                pRxBuffPtr := 0x20000101, RxXferSize := 4, RxXferCount := 3
                State := HAL_UART_STATE_BUSY_RX } }

/-- The port of `sendingState` in the middle of the transmit of its three
bytes, the first one written and two still to come. -/
def transmittingState : SerialState :=
  { sendingState false with
    handle := { (sendingState false).handle with
                pTxBuffPtr := 0x20000001, TxXferSize := 3, TxXferCount := 2
                State := HAL_UART_STATE_BUSY_TX }
    regs := { (sendingState false).regs with CR1 := USART_CR1_TXEIE }
    tdrWrites := [0x48] }

end Serial

/-! ## Bit-level facts used below -/

theorem and_and_const (r a b c : Nat) (h : a &&& b = c) : (r &&& a) &&& b = r &&& c := by
  rw [Nat.and_assoc, h]

theorem and_right_comm3 (a b c : Nat) : a &&& b &&& c = a &&& c &&& b := by
  rw [Nat.and_assoc, Nat.and_comm b c, ← Nat.and_assoc]

theorem and_two_pow_ne_zero (x i : Nat) : x &&& 2 ^ i ≠ 0 ↔ x.testBit i = true := by
  rw [Nat.and_two_pow]
  cases x.testBit i <;> simp

theorem and_two_pow_eq_zero (x i : Nat) : x &&& 2 ^ i = 0 ↔ x.testBit i = false := by
  rw [Nat.and_two_pow]
  cases x.testBit i <;> simp

/-! ## Properties of the SPI driver -/

namespace Spi

open HAL_StatusTypeDef SPIName SPI_DataSize SPI_Polarity SPI_Phase SPI_FirstBit
open SPI_BaudRatePrescaler spi_bitorder_t

/-- C1, as stated, fails: at a core clock of 48 MHz a request of 500,000 Hz
does not store the divide-by-64 prescaler. -/
theorem spi_frequency_48M_500k_not_presc_64 :
    ∃ r, spi_frequency halSpiAccepts 48000000 objAfterInit handleAfterInit 500000 = .ok r
      ∧ r.1.br_presc ≠ SPI_BAUDRATEPRESCALER_64 :=
  ⟨_, rfl, by decide⟩

/-- C1, amended: at a core clock of 48 MHz, `spi_frequency` called with
500,000 Hz returns with the divide-by-128 prescaler (375 kHz) stored in the
descriptor of the port, every other field of the descriptor unchanged, and
hands that prescaler to the re-initialization. -/
theorem spi_frequency_48M_500k_presc_128
    (hal : SPI_HandleTypeDef → HAL_StatusTypeDef) (obj : spi_t) (h : SPI_HandleTypeDef)
    (hok : ∀ x, hal x = HAL_OK) :
    ∃ h', spi_frequency hal 48000000 obj h 500000
        = .ok ({ obj with br_presc := SPI_BAUDRATEPRESCALER_128 }, h')
      ∧ h'.Init.BaudRatePrescaler = SPI_BAUDRATEPRESCALER_128
      ∧ 48000000 / SPI_BAUDRATEPRESCALER_128.divisor = 375000 := by
  simp [spi_frequency, init_spi, hok, Except.map, SPI_BaudRatePrescaler.divisor]

theorem spi_frequency_48M_500k_presc_128_witness :
    ∃ h', spi_frequency halSpiAccepts 48000000 objAfterInit handleAfterInit 500000
        = .ok ({ objAfterInit with br_presc := SPI_BAUDRATEPRESCALER_128 }, h')
      ∧ h'.Init.BaudRatePrescaler = SPI_BAUDRATEPRESCALER_128
      ∧ 48000000 / SPI_BAUDRATEPRESCALER_128.divisor = 375000 :=
  spi_frequency_48M_500k_presc_128 halSpiAccepts objAfterInit handleAfterInit (fun _ => rfl)

/-- C2, the code at the failing input: `spi_format` asked for
least-significant-bit-first records that order in the descriptor, but the
re-initialization it runs hands most-significant-bit-first to the hardware,
for every descriptor, handle, width and mode. -/
theorem spi_format_lsb_hands_msb_to_hardware
    (obj : spi_t) (h : SPI_HandleTypeDef) (bits mode : Int) :
    ∃ r, spi_format halSpiAccepts obj h bits mode SPI_LSB = .ok r
      ∧ r.1.order = SPI_FIRSTBIT_LSB
      ∧ r.2.Init.FirstBit = SPI_FIRSTBIT_MSB := by
  simp [spi_format, init_spi, halSpiAccepts, Except.map]

end Spi

/-! ## Properties of the UART driver -/

namespace Serial

open HAL_StatusTypeDef UARTName SerialParity SerialIrq UART_WordLength UART_StopBits
open UART_Parity UART_Mode UART_IT

/-- C3, as stated, fails: the forced-to-1 parity value stores even parity, not
odd parity. -/
theorem serial_format_forced1_not_odd :
    (serial_format halUartOk resetState 8 ParityForced1 1).handle.Init.Parity
      ≠ UART_PARITY_ODD := by
  decide

/-- C3, amended: for every UART `serial_format` call, the parity values odd and
forced-to-0 both store odd parity, even and forced-to-1 both store even parity,
and none stores no parity. -/
theorem serial_format_parity (hal : HalUartInit) (s : SerialState) (data_bits stop_bits : Int) :
    (serial_format hal s data_bits ParityOdd stop_bits).handle.Init.Parity = UART_PARITY_ODD
    ∧ (serial_format hal s data_bits ParityForced0 stop_bits).handle.Init.Parity = UART_PARITY_ODD
    ∧ (serial_format hal s data_bits ParityEven stop_bits).handle.Init.Parity = UART_PARITY_EVEN
    ∧ (serial_format hal s data_bits ParityForced1 stop_bits).handle.Init.Parity = UART_PARITY_EVEN
    ∧ (serial_format hal s data_bits ParityNone stop_bits).handle.Init.Parity = UART_PARITY_NONE := by
  refine ⟨?_, ?_, ?_, ?_, ?_⟩ <;>
    simp only [serial_format, HAL_UART_Init] <;> split_ifs <;> rfl

/-- C4, the code at the failing input: with a receive in flight and no
transmit (state Busy-Receive), `serial_rx_active` reports 1 before
`serial_tx_abort_asynch` and 0 after it, although the abort leaves the receive
count and the receive interrupt enable as they were. -/
theorem tx_abort_clears_rx_active (s : SerialState) :
    let s0 := { s with handle := { s.handle with State := HAL_UART_STATE_BUSY_RX } }
    serial_rx_active s0 = 1
    ∧ serial_rx_active (serial_tx_abort_asynch s0) = 0
    ∧ (serial_tx_abort_asynch s0).handle.RxXferCount = s.handle.RxXferCount
    ∧ (serial_tx_abort_asynch s0).regs.CR1 &&& USART_CR1_RXNEIE
        = s.regs.CR1 &&& USART_CR1_RXNEIE := by
  refine ⟨rfl, rfl, rfl, ?_⟩
  show ((s.regs.CR1 &&& (0xFFFFFFFF ^^^ (USART_CR1_TCIE ||| USART_CR1_TXEIE)))
      &&& USART_CR1_RXNEIE) = _
  exact and_and_const _ _ _ _ rfl

/-- C5: for every prior state of the instance, whatever the value of its state
field, `serial_tx_active` called right after `serial_tx_abort_asynch` reports
0. -/
theorem tx_active_after_tx_abort (s : SerialState) :
    serial_tx_active (serial_tx_abort_asynch s) = 0 := by
  by_cases h : s.handle.State = HAL_UART_STATE_BUSY_TX_RX <;>
    simp [serial_tx_abort_asynch, serial_tx_active, h, HAL_UART_STATE_READY]

/-! ### `serial_irq_set`, case by case -/

theorem irq_set_obj (T : Target) (s : SerialState) (irq : SerialIrq) (enable : Nat) :
    (serial_irq_set T s irq enable).obj = s.obj := by
  unfold serial_irq_set vIRQ_SetVector vIRQ_EnableIRQ vIRQ_DisableIRQ
  dsimp only
  split_ifs <;> rfl

theorem irq_set_enable_CR1 (T : Target) (s : SerialState) (irq : SerialIrq) (enable : Nat)
    (hirq : T.UartIRQs s.obj.serial.module ≠ 0)
    (hvec : T.uart_irq_vectors s.obj.serial.module ≠ 0) (hen : enable ≠ 0) :
    (serial_irq_set T s irq enable).regs.CR1
      = s.regs.CR1 ||| (if irq = RxIrq then USART_CR1_RXNEIE else USART_CR1_TCIE) := by
  unfold serial_irq_set vIRQ_SetVector vIRQ_EnableIRQ HAL_UART_ENABLE_IT
  dsimp only
  rw [if_neg (by simp [hirq, hvec]), if_pos hen]
  split_ifs <;> rfl

theorem irq_set_disable_CR1 (T : Target) (s : SerialState) (irq : SerialIrq)
    (hirq : T.UartIRQs s.obj.serial.module ≠ 0)
    (hvec : T.uart_irq_vectors s.obj.serial.module ≠ 0) :
    (serial_irq_set T s irq 0).regs.CR1
      = clearBits s.regs.CR1 (if irq = RxIrq then USART_CR1_RXNEIE else USART_CR1_TXEIE) := by
  unfold serial_irq_set vIRQ_DisableIRQ HAL_UART_DISABLE_IT
  dsimp only
  rw [if_neg (by simp [hirq, hvec]), if_neg (by simp)]
  split_ifs <;> rfl

theorem irq_set_disable_rx_line (T : Target) (s : SerialState)
    (hirq : T.UartIRQs s.obj.serial.module ≠ 0)
    (hvec : T.uart_irq_vectors s.obj.serial.module ≠ 0) :
    (serial_irq_set T s RxIrq 0).irqEnabled (T.UartIRQs s.obj.serial.module)
      = if clearBits s.regs.CR1 USART_CR1_RXNEIE &&& USART_CR1_TXEIE = 0 then false
        else s.irqEnabled (T.UartIRQs s.obj.serial.module) := by
  unfold serial_irq_set vIRQ_DisableIRQ HAL_UART_DISABLE_IT
  dsimp only
  rw [if_neg (by simp [hirq, hvec]), if_neg (by simp), if_pos rfl]
  split_ifs <;> simp_all [UART_IT.bit]

theorem irq_set_enable_line (T : Target) (s : SerialState) (irq : SerialIrq) (enable : Nat)
    (hirq : T.UartIRQs s.obj.serial.module ≠ 0)
    (hvec : T.uart_irq_vectors s.obj.serial.module ≠ 0) (hen : enable ≠ 0) :
    (serial_irq_set T s irq enable).irqEnabled (T.UartIRQs s.obj.serial.module) = true := by
  unfold serial_irq_set vIRQ_SetVector vIRQ_EnableIRQ
  dsimp only
  rw [if_neg (by simp [hirq, hvec]), if_pos hen]
  simp

/-- C7, the code at the failing input: on a port with a valid interrupt line
and trampoline, enabling and then disabling the transmit direction leaves the
transmit-complete interrupt enabled; the disable branch clears the
transmit-register-empty enable instead. -/
theorem irq_set_tx_enable_disable_leaves_tcie (T : Target) (s : SerialState)
    (hirq : T.UartIRQs s.obj.serial.module ≠ 0)
    (hvec : T.uart_irq_vectors s.obj.serial.module ≠ 0) :
    (serial_irq_set T (serial_irq_set T s TxIrq 1) TxIrq 0).regs.CR1 &&& USART_CR1_TCIE ≠ 0 := by
  have hobj := irq_set_obj T s TxIrq 1
  rw [irq_set_disable_CR1 T _ TxIrq (by rw [hobj]; exact hirq) (by rw [hobj]; exact hvec),
    irq_set_enable_CR1 T s TxIrq 1 hirq hvec (by decide)]
  rw [if_neg (by decide), if_neg (by decide), clearBits,
    and_and_const _ _ _ (2 ^ 6) rfl, and_two_pow_ne_zero, Nat.testBit_or]
  simp only [USART_CR1_TCIE, Bool.or_eq_true]
  right
  decide

theorem irq_set_tx_enable_disable_leaves_tcie_witness :
    (serial_irq_set sampleTarget (serial_irq_set sampleTarget resetState TxIrq 1) TxIrq 0).regs.CR1
      &&& USART_CR1_TCIE ≠ 0 :=
  irq_set_tx_enable_disable_leaves_tcie sampleTarget resetState (by decide) (by decide)

/-- C8, the code at the failing input: on a port with a valid interrupt line
whose transmit-register-empty enable is clear, after `serial_irq_set` has
enabled receive and then transmit, disabling receive disables the interrupt
line at the controller although the transmit-complete interrupt that
`serial_irq_set` enabled is still enabled; the disable branch looks at the
transmit-register-empty enable instead. -/
theorem irq_set_rx_disable_drops_line_with_tx_enabled (T : Target) (s : SerialState)
    (hirq : T.UartIRQs s.obj.serial.module ≠ 0)
    (hvec : T.uart_irq_vectors s.obj.serial.module ≠ 0)
    (htxe : s.regs.CR1 &&& USART_CR1_TXEIE = 0) :
    (serial_irq_set T (serial_irq_set T s RxIrq 1) TxIrq 1).irqEnabled
        (T.UartIRQs s.obj.serial.module) = true
    ∧ (serial_irq_set T (serial_irq_set T (serial_irq_set T s RxIrq 1) TxIrq 1) RxIrq 0).regs.CR1
        &&& USART_CR1_TCIE ≠ 0
    ∧ (serial_irq_set T (serial_irq_set T (serial_irq_set T s RxIrq 1) TxIrq 1) RxIrq 0).irqEnabled
        (T.UartIRQs s.obj.serial.module) = false := by
  have hobj1 := irq_set_obj T s RxIrq 1
  have hobj2 := irq_set_obj T (serial_irq_set T s RxIrq 1) TxIrq 1
  have hirq1 : T.UartIRQs (serial_irq_set T s RxIrq 1).obj.serial.module ≠ 0 := by
    rw [hobj1]; exact hirq
  have hvec1 : T.uart_irq_vectors (serial_irq_set T s RxIrq 1).obj.serial.module ≠ 0 := by
    rw [hobj1]; exact hvec
  have hirq2 : T.UartIRQs
      (serial_irq_set T (serial_irq_set T s RxIrq 1) TxIrq 1).obj.serial.module ≠ 0 := by
    rw [hobj2]; exact hirq1
  have hvec2 : T.uart_irq_vectors
      (serial_irq_set T (serial_irq_set T s RxIrq 1) TxIrq 1).obj.serial.module ≠ 0 := by
    rw [hobj2]; exact hvec1
  have hcr2 : (serial_irq_set T (serial_irq_set T s RxIrq 1) TxIrq 1).regs.CR1
      = (s.regs.CR1 ||| USART_CR1_RXNEIE) ||| USART_CR1_TCIE := by
    rw [irq_set_enable_CR1 T _ TxIrq 1 hirq1 hvec1 (by decide),
      irq_set_enable_CR1 T s RxIrq 1 hirq hvec (by decide)]
    rfl
  have hbit7 : s.regs.CR1.testBit 7 = false := (and_two_pow_eq_zero _ 7).1 htxe
  have hm : T.UartIRQs s.obj.serial.module
      = T.UartIRQs (serial_irq_set T s RxIrq 1).obj.serial.module := by rw [hobj1]
  have hm2 : T.UartIRQs s.obj.serial.module
      = T.UartIRQs (serial_irq_set T (serial_irq_set T s RxIrq 1) TxIrq 1).obj.serial.module := by
    rw [hobj2, hobj1]
  refine ⟨?_, ?_, ?_⟩
  · rw [hm]
    exact irq_set_enable_line T _ TxIrq 1 hirq1 hvec1 (by decide)
  · rw [irq_set_disable_CR1 T _ RxIrq hirq2 hvec2, hcr2, if_pos rfl, clearBits,
      and_and_const _ _ _ (2 ^ 6) rfl, and_two_pow_ne_zero, Nat.testBit_or]
    simp only [USART_CR1_TCIE, Bool.or_eq_true]
    right
    decide
  · rw [hm2, irq_set_disable_rx_line T _ hirq2 hvec2, hcr2, if_pos]
    rw [clearBits, and_and_const _ _ _ (2 ^ 7) rfl, and_two_pow_eq_zero, Nat.testBit_or,
      Nat.testBit_or, hbit7]
    decide

theorem irq_set_rx_disable_drops_line_with_tx_enabled_witness :
    (serial_irq_set sampleTarget (serial_irq_set sampleTarget resetState RxIrq 1) TxIrq 1).irqEnabled
        (sampleTarget.UartIRQs resetState.obj.serial.module) = true
    ∧ (serial_irq_set sampleTarget
        (serial_irq_set sampleTarget (serial_irq_set sampleTarget resetState RxIrq 1) TxIrq 1)
        RxIrq 0).regs.CR1 &&& USART_CR1_TCIE ≠ 0
    ∧ (serial_irq_set sampleTarget
        (serial_irq_set sampleTarget (serial_irq_set sampleTarget resetState RxIrq 1) TxIrq 1)
        RxIrq 0).irqEnabled (sampleTarget.UartIRQs resetState.obj.serial.module) = false :=
  irq_set_rx_disable_drops_line_with_tx_enabled sampleTarget resetState
    (by decide) (by decide) (by decide)

/-- C9, at a failing input: with a hardware layer whose UART initialization
reports failure, `serial_init` returns normally where the claim has it end in
the fatal error. -/
theorem serial_init_returns_when_hal_fails :
    ∃ s', serial_init sampleTarget halUartFails resetState 2 3 UART_2 = .ok s' :=
  ⟨_, rfl⟩

/-- C9, the defect in general: `serial_init`, `serial_baud` and
`serial_format` discard the status of the UART initialization call of the
hardware layer.  They do the same whatever status it reports, so when it
reports failure they return normally wherever they return at all
(`serial_init` unless the pins do not resolve to an instance, `serial_baud`
unless the instance is the low-power UART and the rate is below 38400,
`serial_format` always), where the claim has them end in the fatal error.  The
SPI driver of the same sources does check the status of its initialization
call: `init_spi` ends in the fatal error when that call reports failure. -/
theorem hal_uart_init_status_discarded (T : Target) (hal : HalUartInit) (st : HAL_StatusTypeDef)
    (s : SerialState) (tx rx : PinName) (inst : UARTName)
    (baudrate data_bits stop_bits : Int) (parity : SerialParity)
    (spiObj : Spi.spi_t) (spiHandle : Spi.SPI_HandleTypeDef) :
    serial_init T (withStatus hal st) s tx rx inst = serial_init T hal s tx rx inst
    ∧ serial_baud (withStatus hal st) s baudrate = serial_baud hal s baudrate
    ∧ serial_format (withStatus hal st) s data_bits parity stop_bits
        = serial_format hal s data_bits parity stop_bits
    ∧ (inst = NC ∨ ∃ s', serial_init T (withStatus hal HAL_ERROR) s tx rx inst = .ok s')
    ∧ ((s.handle.Instance = LPUART_1 ∧ baudrate < 38400)
        ∨ ∃ s', serial_baud (withStatus hal HAL_ERROR) s baudrate = .ok s')
    ∧ Spi.init_spi (fun _ => HAL_ERROR) spiObj spiHandle = .error "Cannot initialize SPI" := by
  refine ⟨rfl, rfl, rfl, ?_, ?_, rfl⟩
  · by_cases h : inst = NC
    · exact Or.inl h
    · exact Or.inr ⟨_, by unfold serial_init; rw [if_neg h]⟩
  · by_cases h : s.handle.Instance = LPUART_1 ∧ baudrate < 38400
    · exact Or.inl h
    · exact Or.inr ⟨_, by unfold serial_baud; rw [if_neg h]⟩

/-- C10, as stated, fails: on `UART_2` the requested rate -1 makes
`serial_baud` return normally with the stored baud rate 4294967295, which is
not the requested rate. -/
theorem serial_baud_negative_rate_not_stored :
    resetState.handle.Instance = UART_2
    ∧ ∃ s', serial_baud halUartOk resetState (-1) = .ok s'
        ∧ s'.handle.Init.BaudRate = 4294967295
        ∧ s'.handle.Init.BaudRate ≠ -1 :=
  ⟨rfl, _, rfl, by decide, by decide⟩

/-- C10, amended: `serial_baud` ends in the fatal error exactly when the port
is on the low-power UART and the requested rate is below 38400.  In every
other case it returns normally and the stored baud rate is
the requested rate converted to the unsigned 32-bit member, that is, the
requested rate modulo 2^32: it is the requested rate itself exactly when the
rate is not negative and below 2^32 (every rate of at least 38400 on the
low-power UART, every non-negative rate on the other instances), and the
requested rate plus 2^32 for a negative `int` rate. -/
theorem serial_baud_fatal_iff (hal : HalUartInit) (s : SerialState) (baudrate : Int) :
    ((s.handle.Instance = LPUART_1 ∧ baudrate < 38400)
        ∧ ∃ msg, serial_baud hal s baudrate = .error msg)
    ∨ (¬ (s.handle.Instance = LPUART_1 ∧ baudrate < 38400)
        ∧ ∃ s', serial_baud hal s baudrate = .ok s'
            ∧ s'.handle.Init.BaudRate = baudrate % 4294967296
            ∧ (s'.handle.Init.BaudRate = baudrate ↔ (0 ≤ baudrate ∧ baudrate < 4294967296))
            ∧ ((-2147483648 ≤ baudrate ∧ baudrate < 0)
                → s'.handle.Init.BaudRate = baudrate + 4294967296)) := by
  by_cases h : s.handle.Instance = LPUART_1 ∧ baudrate < 38400
  · exact Or.inl ⟨h, _, by unfold serial_baud; rw [if_pos h]⟩
  · refine Or.inr ⟨h, _, by unfold serial_baud; rw [if_neg h], rfl, ?_, ?_⟩
    · show baudrate % 4294967296 = baudrate ↔ _
      constructor
      · intro he
        constructor <;> omega
      · intro hb
        omega
    · intro hb
      show baudrate % 4294967296 = _
      omega

/-! ### Starting a transmit -/

theorem tx_asynch_start (T : Target) (s : SerialState)
    (tx tx_length tx_width handler event hint : Nat)
    (htx : tx ≠ 0) (hlen : 1 ≤ tx_length) (hirq : T.UartIRQs s.obj.serial.module ≠ 0) :
    (serial_tx_asynch T s tx tx_length tx_width handler event hint).2 = tx_length
    ∧ (serial_tx_asynch T s tx tx_length tx_width handler event hint).1.handle.TxXferCount
        = (if HAL_UART_GET_FLAG s.regs UART_FLAG_TXE then (tx_length % 65536 + 65535) % 65536
           else tx_length % 65536)
    ∧ (serial_tx_asynch T s tx tx_length tx_width handler event hint).1.handle.State
        = (if s.handle.State = HAL_UART_STATE_BUSY_RX then HAL_UART_STATE_BUSY_TX_RX
           else HAL_UART_STATE_BUSY_TX)
    ∧ (serial_tx_asynch T s tx tx_length tx_width handler event hint).1.obj.serial.event
        = clearBits s.obj.serial.event SERIAL_EVENT_TX_MASK ||| (event &&& SERIAL_EVENT_TX_MASK) := by
  have hg : (!(decide (tx ≠ 0 ∧ tx_length > 0)) || decide (T.UartIRQs s.obj.serial.module = 0))
      = false := by
    simp [htx, hirq]; omega
  unfold serial_tx_asynch vIRQ_SetVector vIRQ_EnableIRQ
  dsimp only
  rw [hg]
  simp only [Bool.false_eq_true, if_false]
  refine ⟨trivial, ?_, ?_, ?_⟩
  · by_cases hf : HAL_UART_GET_FLAG s.regs UART_FLAG_TXE = true
    · simp only [hf, if_true]
      split_ifs <;> rfl
    · simp only [hf, Bool.false_eq_true, if_false]
      split_ifs <;> rfl
  · by_cases hf : HAL_UART_GET_FLAG s.regs UART_FLAG_TXE = true
    · simp only [hf, if_true]
      split_ifs <;> rfl
    · simp only [hf, Bool.false_eq_true, if_false]
      split_ifs <;> rfl
  · by_cases hf : HAL_UART_GET_FLAG s.regs UART_FLAG_TXE = true
    · simp only [hf, if_true]
      split_ifs <;> rfl
    · simp only [hf, Bool.false_eq_true, if_false]
      split_ifs <;> rfl

/-! ### Sequences of interrupt services -/

theorem serviceAll_append (s : SerialState) (a b : List (Nat × Nat)) :
    serviceAll s (a ++ b)
      = ((serviceAll (serviceAll s a).1 b).1,
         (serviceAll s a).2 ++ (serviceAll (serviceAll s a).1 b).2) := by
  induction a generalizing s with
  | nil => rfl
  | cons rd rest ih =>
    show ((serviceAll (service s rd.1 rd.2).1 (rest ++ b)).1,
        (service s rd.1 rd.2).2 :: (serviceAll (service s rd.1 rd.2).1 (rest ++ b)).2) = _
    rw [ih]
    rfl

end Serial

/-! ## Further properties of the SPI driver -/

namespace Spi

open HAL_StatusTypeDef SPIName SPI_DataSize SPI_Polarity SPI_Phase SPI_FirstBit
open SPI_BaudRatePrescaler spi_bitorder_t

/-- With a vendor initialization that succeeds, `spi_frequency` returns, and
what it returns is the descriptor with only the prescaler replaced. -/
theorem spi_frequency_returns (hal : SPI_HandleTypeDef → HAL_StatusTypeDef)
    (clk : Nat) (obj : spi_t) (h : SPI_HandleTypeDef) (hz : Int) (hok : ∀ x, hal x = HAL_OK) :
    ∃ r, spi_frequency hal clk obj h hz = .ok r
      ∧ r.1 = { obj with br_presc := r.1.br_presc }
      ∧ r.2.Init.BaudRatePrescaler = r.1.br_presc := by
  unfold spi_frequency init_spi
  simp only [hok, ne_eq, not_true_eq_false, if_false, Except.map]
  refine ⟨_, rfl, ?_, rfl⟩
  dsimp only
  split_ifs <;> rfl

/-- C11, as stated, fails: at 80 MHz a request of 1,900,000 Hz selects
divide-by-64 (1.25 MHz, 650 kHz away) although divide-by-32 gives 2.5 MHz,
600 kHz away. -/
theorem spi_frequency_80M_1900k_not_nearest :
    ∃ r, spi_frequency halSpiAccepts 80000000 objAfterInit handleAfterInit 1900000 = .ok r
      ∧ ¬ nearestRate 80000000 1900000 r.1.br_presc := by
  refine ⟨_, rfl, ?_⟩
  intro hn
  have h32 := hn SPI_BAUDRATEPRESCALER_32
  revert h32
  decide

/-- The 80 MHz table, read off the result of `spi_frequency`. -/
theorem spi_frequency_table_80M (hal : SPI_HandleTypeDef → HAL_StatusTypeDef)
    (obj : spi_t) (h : SPI_HandleTypeDef) (hz : Int) (r : spi_t × SPI_HandleTypeDef)
    (hr : spi_frequency hal 80000000 obj h hz = .ok r) :
    (hz < 600000 ∧ r.1.br_presc = SPI_BAUDRATEPRESCALER_256)
    ∨ (600000 ≤ hz ∧ hz < 1000000 ∧ r.1.br_presc = SPI_BAUDRATEPRESCALER_128)
    ∨ (1000000 ≤ hz ∧ hz < 2000000 ∧ r.1.br_presc = SPI_BAUDRATEPRESCALER_64)
    ∨ (2000000 ≤ hz ∧ hz < 5000000 ∧ r.1.br_presc = SPI_BAUDRATEPRESCALER_32)
    ∨ (5000000 ≤ hz ∧ hz < 10000000 ∧ r.1.br_presc = SPI_BAUDRATEPRESCALER_16)
    ∨ (10000000 ≤ hz ∧ hz < 20000000 ∧ r.1.br_presc = SPI_BAUDRATEPRESCALER_8)
    ∨ (20000000 ≤ hz ∧ hz < 40000000 ∧ r.1.br_presc = SPI_BAUDRATEPRESCALER_4)
    ∨ (40000000 ≤ hz ∧ r.1.br_presc = SPI_BAUDRATEPRESCALER_2) := by
  unfold spi_frequency init_spi at hr
  simp only [if_pos, Except.map] at hr
  split at hr
  · cases hr
  · cases hr
    dsimp only
    split_ifs <;> simp only [true_and, and_true] <;> omega

/-- The 48 MHz table, which every core clock other than 80 MHz uses, read off
the result of `spi_frequency`. -/
theorem spi_frequency_table_48M (hal : SPI_HandleTypeDef → HAL_StatusTypeDef)
    (clk : Nat) (obj : spi_t) (h : SPI_HandleTypeDef) (hz : Int) (r : spi_t × SPI_HandleTypeDef)
    (hclk : clk ≠ 80000000) (hr : spi_frequency hal clk obj h hz = .ok r) :
    (hz < 350000 ∧ r.1.br_presc = SPI_BAUDRATEPRESCALER_256)
    ∨ (350000 ≤ hz ∧ hz < 750000 ∧ r.1.br_presc = SPI_BAUDRATEPRESCALER_128)
    ∨ (750000 ≤ hz ∧ hz < 1000000 ∧ r.1.br_presc = SPI_BAUDRATEPRESCALER_64)
    ∨ (1000000 ≤ hz ∧ hz < 3000000 ∧ r.1.br_presc = SPI_BAUDRATEPRESCALER_32)
    ∨ (3000000 ≤ hz ∧ hz < 6000000 ∧ r.1.br_presc = SPI_BAUDRATEPRESCALER_16)
    ∨ (6000000 ≤ hz ∧ hz < 12000000 ∧ r.1.br_presc = SPI_BAUDRATEPRESCALER_8)
    ∨ (12000000 ≤ hz ∧ hz < 24000000 ∧ r.1.br_presc = SPI_BAUDRATEPRESCALER_4)
    ∨ (24000000 ≤ hz ∧ r.1.br_presc = SPI_BAUDRATEPRESCALER_2) := by
  unfold spi_frequency init_spi at hr
  simp only [if_neg hclk, Except.map] at hr
  split at hr
  · cases hr
  · cases hr
    dsimp only
    split_ifs <;> simp only [true_and, and_true] <;> omega

/-- The rates of the eight prescalers at 80 MHz. -/
theorem rate_80M (q : SPI_BaudRatePrescaler) :
    rate 80000000 q = 40000000 ∨ rate 80000000 q = 20000000 ∨ rate 80000000 q = 10000000
    ∨ rate 80000000 q = 5000000 ∨ rate 80000000 q = 2500000 ∨ rate 80000000 q = 1250000
    ∨ rate 80000000 q = 625000 ∨ rate 80000000 q = 312500 := by
  cases q <;> decide

/-- The rates of the eight prescalers at 48 MHz. -/
theorem rate_48M (q : SPI_BaudRatePrescaler) :
    rate 48000000 q = 24000000 ∨ rate 48000000 q = 12000000 ∨ rate 48000000 q = 6000000
    ∨ rate 48000000 q = 3000000 ∨ rate 48000000 q = 1500000 ∨ rate 48000000 q = 750000
    ∨ rate 48000000 q = 375000 ∨ rate 48000000 q = 187500 := by
  cases q <;> decide

/-- C11, amended: for every requested hz and either core clock (80 MHz or
48 MHz), `spi_frequency` returns with a prescaler whose rate is a neighbour of
hz among the eight supported rates: no supported rate lies strictly between
hz and the selected rate.  When hz is itself one of the eight supported rates,
that rate is selected.  (Of the two neighbours it is not always the nearer
one.) -/
theorem spi_frequency_selects_neighbour (hal : SPI_HandleTypeDef → HAL_StatusTypeDef)
    (clk : Nat) (obj : spi_t) (h : SPI_HandleTypeDef) (hz : Int)
    (hok : ∀ x, hal x = HAL_OK) (hclk : clk = 80000000 ∨ clk = 48000000) :
    ∃ r, spi_frequency hal clk obj h hz = .ok r
      ∧ (∀ q : SPI_BaudRatePrescaler,
          ¬ (hz < rate clk q ∧ rate clk q < rate clk r.1.br_presc)
          ∧ ¬ (rate clk r.1.br_presc < rate clk q ∧ rate clk q < hz))
      ∧ (∀ q : SPI_BaudRatePrescaler, hz = rate clk q → rate clk r.1.br_presc = hz) := by
  obtain ⟨r, hr, -, -⟩ := spi_frequency_returns hal clk obj h hz hok
  refine ⟨r, hr, ?_⟩
  rcases hclk with hc | hc <;> subst hc
  · have ht := spi_frequency_table_80M hal obj h hz r hr
    refine ⟨fun q => ?_, fun q => ?_⟩
    · have hq := rate_80M q
      rcases ht with ⟨a, b⟩ | ⟨a, a', b⟩ | ⟨a, a', b⟩ | ⟨a, a', b⟩ | ⟨a, a', b⟩ | ⟨a, a', b⟩
        | ⟨a, a', b⟩ | ⟨a, b⟩ <;> rw [b] <;>
        simp only [rate, SPI_BaudRatePrescaler.divisor] at hq ⊢ <;> omega
    · have hq := rate_80M q
      rcases ht with ⟨a, b⟩ | ⟨a, a', b⟩ | ⟨a, a', b⟩ | ⟨a, a', b⟩ | ⟨a, a', b⟩ | ⟨a, a', b⟩
        | ⟨a, a', b⟩ | ⟨a, b⟩ <;> rw [b] <;>
        simp only [rate, SPI_BaudRatePrescaler.divisor] at hq ⊢ <;> omega
  · have ht := spi_frequency_table_48M hal 48000000 obj h hz r (by decide) hr
    refine ⟨fun q => ?_, fun q => ?_⟩
    · have hq := rate_48M q
      rcases ht with ⟨a, b⟩ | ⟨a, a', b⟩ | ⟨a, a', b⟩ | ⟨a, a', b⟩ | ⟨a, a', b⟩ | ⟨a, a', b⟩
        | ⟨a, a', b⟩ | ⟨a, b⟩ <;> rw [b] <;>
        simp only [rate, SPI_BaudRatePrescaler.divisor] at hq ⊢ <;> omega
    · have hq := rate_48M q
      rcases ht with ⟨a, b⟩ | ⟨a, a', b⟩ | ⟨a, a', b⟩ | ⟨a, a', b⟩ | ⟨a, a', b⟩ | ⟨a, a', b⟩
        | ⟨a, a', b⟩ | ⟨a, b⟩ <;> rw [b] <;>
        simp only [rate, SPI_BaudRatePrescaler.divisor] at hq ⊢ <;> omega

theorem spi_frequency_selects_neighbour_witness :
    ∃ r, spi_frequency halSpiAccepts 80000000 objAfterInit handleAfterInit 1900000 = .ok r
      ∧ (∀ q : SPI_BaudRatePrescaler,
          ¬ ((1900000 : Int) < rate 80000000 q ∧ rate 80000000 q < rate 80000000 r.1.br_presc)
          ∧ ¬ (rate 80000000 r.1.br_presc < rate 80000000 q ∧ rate 80000000 q < 1900000))
      ∧ (∀ q : SPI_BaudRatePrescaler,
          (1900000 : Int) = rate 80000000 q → rate 80000000 r.1.br_presc = 1900000) :=
  spi_frequency_selects_neighbour halSpiAccepts 80000000 objAfterInit handleAfterInit 1900000
    (fun _ => rfl) (Or.inl rfl)

/-- C12: with a detected core clock of 80,000,000 Hz, `spi_frequency` returns
with divide-by-64 stored for hz = 1,500,000, with divide-by-32 stored for
hz = 3,000,000, and with divide-by-2 stored for every hz >= 40,000,000. -/
theorem spi_frequency_80M_points (hal : SPI_HandleTypeDef → HAL_StatusTypeDef)
    (obj : spi_t) (h : SPI_HandleTypeDef) (hz : Int)
    (hok : ∀ x, hal x = HAL_OK) (hhz : 40000000 ≤ hz) :
    (∃ r, spi_frequency hal 80000000 obj h 1500000 = .ok r
        ∧ r.1 = { obj with br_presc := SPI_BAUDRATEPRESCALER_64 })
    ∧ (∃ r, spi_frequency hal 80000000 obj h 3000000 = .ok r
        ∧ r.1 = { obj with br_presc := SPI_BAUDRATEPRESCALER_32 })
    ∧ (∃ r, spi_frequency hal 80000000 obj h hz = .ok r
        ∧ r.1 = { obj with br_presc := SPI_BAUDRATEPRESCALER_2 }) := by
  refine ⟨?_, ?_, ?_⟩
  · obtain ⟨r, hr, hd, -⟩ := spi_frequency_returns hal 80000000 obj h 1500000 hok
    refine ⟨r, hr, ?_⟩
    have ht := spi_frequency_table_80M hal obj h 1500000 r hr
    have hp : r.1.br_presc = SPI_BAUDRATEPRESCALER_64 := by
      rcases ht with ⟨a, b⟩ | ⟨a, a', b⟩ | ⟨a, a', b⟩ | ⟨a, a', b⟩ | ⟨a, a', b⟩
        | ⟨a, a', b⟩ | ⟨a, a', b⟩ | ⟨a, b⟩ <;> first | exact b | (exfalso; omega)
    rw [hd, hp]
  · obtain ⟨r, hr, hd, -⟩ := spi_frequency_returns hal 80000000 obj h 3000000 hok
    refine ⟨r, hr, ?_⟩
    have ht := spi_frequency_table_80M hal obj h 3000000 r hr
    have hp : r.1.br_presc = SPI_BAUDRATEPRESCALER_32 := by
      rcases ht with ⟨a, b⟩ | ⟨a, a', b⟩ | ⟨a, a', b⟩ | ⟨a, a', b⟩ | ⟨a, a', b⟩
        | ⟨a, a', b⟩ | ⟨a, a', b⟩ | ⟨a, b⟩ <;> first | exact b | (exfalso; omega)
    rw [hd, hp]
  · obtain ⟨r, hr, hd, -⟩ := spi_frequency_returns hal 80000000 obj h hz hok
    refine ⟨r, hr, ?_⟩
    have ht := spi_frequency_table_80M hal obj h hz r hr
    have hp : r.1.br_presc = SPI_BAUDRATEPRESCALER_2 := by
      rcases ht with ⟨a, b⟩ | ⟨a, a', b⟩ | ⟨a, a', b⟩ | ⟨a, a', b⟩ | ⟨a, a', b⟩
        | ⟨a, a', b⟩ | ⟨a, a', b⟩ | ⟨a, b⟩ <;> first | exact b | (exfalso; omega)
    rw [hd, hp]

theorem spi_frequency_80M_points_witness :
    (∃ r, spi_frequency halSpiAccepts 80000000 objAfterInit handleAfterInit 1500000 = .ok r
        ∧ r.1 = { objAfterInit with br_presc := SPI_BAUDRATEPRESCALER_64 })
    ∧ (∃ r, spi_frequency halSpiAccepts 80000000 objAfterInit handleAfterInit 3000000 = .ok r
        ∧ r.1 = { objAfterInit with br_presc := SPI_BAUDRATEPRESCALER_32 })
    ∧ (∃ r, spi_frequency halSpiAccepts 80000000 objAfterInit handleAfterInit 40000000 = .ok r
        ∧ r.1 = { objAfterInit with br_presc := SPI_BAUDRATEPRESCALER_2 }) :=
  spi_frequency_80M_points halSpiAccepts objAfterInit handleAfterInit 40000000
    (fun _ => rfl) (by decide)

/-- C13: with a detected core clock of 48,000,000 Hz, `spi_frequency` returns
with divide-by-256 stored for every hz below 350,000, zero and negative
requests included, and with divide-by-2 stored for every hz at or above
24,000,000. -/
theorem spi_frequency_48M_ends (hal : SPI_HandleTypeDef → HAL_StatusTypeDef)
    (obj : spi_t) (h : SPI_HandleTypeDef) (lo hi : Int)
    (hok : ∀ x, hal x = HAL_OK) (hlo : lo < 350000) (hhi : 24000000 ≤ hi) :
    (∃ r, spi_frequency hal 48000000 obj h lo = .ok r
        ∧ r.1 = { obj with br_presc := SPI_BAUDRATEPRESCALER_256 })
    ∧ (∃ r, spi_frequency hal 48000000 obj h hi = .ok r
        ∧ r.1 = { obj with br_presc := SPI_BAUDRATEPRESCALER_2 }) := by
  refine ⟨?_, ?_⟩
  · obtain ⟨r, hr, hd, -⟩ := spi_frequency_returns hal 48000000 obj h lo hok
    refine ⟨r, hr, ?_⟩
    have ht := spi_frequency_table_48M hal 48000000 obj h lo r (by decide) hr
    have hp : r.1.br_presc = SPI_BAUDRATEPRESCALER_256 := by
      rcases ht with ⟨a, b⟩ | ⟨a, a', b⟩ | ⟨a, a', b⟩ | ⟨a, a', b⟩ | ⟨a, a', b⟩
        | ⟨a, a', b⟩ | ⟨a, a', b⟩ | ⟨a, b⟩ <;> first | exact b | (exfalso; omega)
    rw [hd, hp]
  · obtain ⟨r, hr, hd, -⟩ := spi_frequency_returns hal 48000000 obj h hi hok
    refine ⟨r, hr, ?_⟩
    have ht := spi_frequency_table_48M hal 48000000 obj h hi r (by decide) hr
    have hp : r.1.br_presc = SPI_BAUDRATEPRESCALER_2 := by
      rcases ht with ⟨a, b⟩ | ⟨a, a', b⟩ | ⟨a, a', b⟩ | ⟨a, a', b⟩ | ⟨a, a', b⟩
        | ⟨a, a', b⟩ | ⟨a, a', b⟩ | ⟨a, b⟩ <;> first | exact b | (exfalso; omega)
    rw [hd, hp]

theorem spi_frequency_48M_ends_witness :
    (∃ r, spi_frequency halSpiAccepts 48000000 objAfterInit handleAfterInit (-5) = .ok r
        ∧ r.1 = { objAfterInit with br_presc := SPI_BAUDRATEPRESCALER_256 })
    ∧ (∃ r, spi_frequency halSpiAccepts 48000000 objAfterInit handleAfterInit 24000000 = .ok r
        ∧ r.1 = { objAfterInit with br_presc := SPI_BAUDRATEPRESCALER_2 }) :=
  spi_frequency_48M_ends halSpiAccepts objAfterInit handleAfterInit (-5) 24000000
    (fun _ => rfl) (by decide) (by decide)

/-- C19: for every `spi_format` call (the re-initialization succeeding), the
stored data size is 16-bit if and only if `bits` equals 16 and 8-bit otherwise;
mode 0 stores idle-low/first-edge, mode 1 idle-low/second-edge, mode 2
idle-high/first-edge, and every other mode value idle-high/second-edge. -/
theorem spi_format_stores (hal : SPI_HandleTypeDef → HAL_StatusTypeDef)
    (obj : spi_t) (h : SPI_HandleTypeDef) (bits mode : Int) (order : spi_bitorder_t)
    (hok : ∀ x, hal x = HAL_OK) :
    ∃ r, spi_format hal obj h bits mode order = .ok r
      ∧ (r.1.bits = SPI_DATASIZE_16BIT ↔ bits = 16)
      ∧ (r.1.bits = SPI_DATASIZE_8BIT ↔ bits ≠ 16)
      ∧ (r.1.cpol, r.1.cpha)
          = (if mode = 0 then (SPI_POLARITY_LOW, SPI_PHASE_1EDGE)
             else if mode = 1 then (SPI_POLARITY_LOW, SPI_PHASE_2EDGE)
             else if mode = 2 then (SPI_POLARITY_HIGH, SPI_PHASE_1EDGE)
             else (SPI_POLARITY_HIGH, SPI_PHASE_2EDGE)) := by
  unfold spi_format init_spi
  simp only [hok, ne_eq, not_true_eq_false, if_false, Except.map]
  refine ⟨_, rfl, ?_, ?_, ?_⟩
  · by_cases hb : bits = 16 <;> by_cases ho : order = SPI_MSB <;>
      by_cases h0 : mode = 0 <;> by_cases h1 : mode = 1 <;> by_cases h2 : mode = 2 <;>
      simp [hb, ho, h0, h1, h2]
  · by_cases hb : bits = 16 <;> by_cases ho : order = SPI_MSB <;>
      by_cases h0 : mode = 0 <;> by_cases h1 : mode = 1 <;> by_cases h2 : mode = 2 <;>
      simp [hb, ho, h0, h1, h2]
  · by_cases hb : bits = 16 <;> by_cases ho : order = SPI_MSB <;>
      by_cases h0 : mode = 0 <;> by_cases h1 : mode = 1 <;> by_cases h2 : mode = 2 <;>
      simp [hb, ho, h0, h1, h2]

theorem spi_format_stores_witness :
    ∃ r, spi_format halSpiAccepts objAfterInit handleAfterInit 16 (-1) SPI_LSB = .ok r
      ∧ (r.1.bits = SPI_DATASIZE_16BIT ↔ (16 : Int) = 16)
      ∧ (r.1.bits = SPI_DATASIZE_8BIT ↔ (16 : Int) ≠ 16)
      ∧ (r.1.cpol, r.1.cpha)
          = (if (-1 : Int) = 0 then (SPI_POLARITY_LOW, SPI_PHASE_1EDGE)
             else if (-1 : Int) = 1 then (SPI_POLARITY_LOW, SPI_PHASE_2EDGE)
             else if (-1 : Int) = 2 then (SPI_POLARITY_HIGH, SPI_PHASE_1EDGE)
             else (SPI_POLARITY_HIGH, SPI_PHASE_2EDGE)) :=
  spi_format_stores halSpiAccepts objAfterInit handleAfterInit 16 (-1) SPI_LSB (fun _ => rfl)

/-! ### Blocking transfer in loopback -/

/-- With the transmit buffer empty, `ssp_write` stores the masked element at
the first poll. -/
theorem ssp_write_idle (hw : SpiPeripheral) (n : Nat) (obj : spi_t) (s : SpiState) (v : Int)
    (htxe : s.regs.TXE = true) :
    ssp_write hw (n + 1) obj s v
      = some { SpiHandle := { s.SpiHandle with Instance := obj.spi }
               regs := { s.regs with
                         TXDR := if obj.bits = SPI_DATASIZE_8BIT then (v % 256).toNat
                                 else (v % 65536).toNat
                         TXE := false } } := by
  unfold ssp_write wait_writeable ssp_writeable
  by_cases hb : obj.bits = SPI_DATASIZE_8BIT <;> simp [htxe, hb]

/-- After a store, with nothing received yet, `ssp_read` in loopback finds the
stored element at the second poll. -/
theorem ssp_read_loopback (n : Nat) (obj : spi_t) (s : SpiState)
    (htxe : s.regs.TXE = false) (hrxne : s.regs.RXNE = false) :
    ∃ s', ssp_read loopback (n + 2) obj s
        = some (s', if obj.bits = SPI_DATASIZE_8BIT then ((s.regs.TXDR % 256 : Nat) : Int)
                    else ((s.regs.TXDR : Nat) : Int))
      ∧ s'.regs.TXDR = s.regs.TXDR := by
  unfold ssp_read wait_readable ssp_readable
  simp only [hrxne, Bool.false_eq_true, if_false, ne_eq, not_true_eq_false]
  unfold wait_readable ssp_readable loopback
  by_cases hb : obj.bits = SPI_DATASIZE_8BIT <;> simp [htxe, hb]

/-- C16: on an idle peripheral wired in loopback, with polls enough for the
transfer, `spi_master_write` returns.  Configured for 8 bits it stores only
`v mod 256` to the data register and returns `v mod 256`, for every `v`;
configured for 16 bits it stores and returns `v mod 65536`, so that every
16-bit value comes back unchanged. -/
theorem master_write_loopback (fuel : Nat) (obj : spi_t) (s : SpiState) (v : Int)
    (hfuel : 2 ≤ fuel) (htxe : s.regs.TXE = true) (hrxne : s.regs.RXNE = false) :
    (obj.bits = SPI_DATASIZE_8BIT →
        ∃ s', spi_master_write loopback fuel obj s v = some (s', v % 256)
          ∧ s'.regs.TXDR = (v % 256).toNat)
    ∧ (obj.bits = SPI_DATASIZE_16BIT →
        ∃ s', spi_master_write loopback fuel obj s v = some (s', v % 65536)
          ∧ s'.regs.TXDR = (v % 65536).toNat
          ∧ (0 ≤ v → v < 65536 → spi_master_write loopback fuel obj s v = some (s', v))) := by
  obtain ⟨n, rfl⟩ : ∃ n, fuel = n + 2 := ⟨fuel - 2, by omega⟩
  have hw := ssp_write_idle loopback (n + 1) obj s v htxe
  constructor
  · intro hb
    rw [if_pos hb] at hw
    obtain ⟨s', hs', ht⟩ := ssp_read_loopback n obj
      { SpiHandle := { s.SpiHandle with Instance := obj.spi }
        regs := { s.regs with TXDR := (v % 256).toNat, TXE := false } } rfl hrxne
    refine ⟨s', ?_, ht⟩
    unfold spi_master_write
    rw [hw, Option.some_bind, hs', if_pos hb]
    have h1 : (0 : Int) ≤ v % 256 := Int.emod_nonneg _ (by decide)
    have h2 : v % 256 < 256 := Int.emod_lt_of_pos _ (by decide)
    congr 2
    show (((v % 256).toNat % 256 : Nat) : Int) = v % 256
    omega
  · intro hb
    have hb8 : obj.bits ≠ SPI_DATASIZE_8BIT := by rw [hb]; decide
    rw [if_neg hb8] at hw
    obtain ⟨s', hs', ht⟩ := ssp_read_loopback n obj
      { SpiHandle := { s.SpiHandle with Instance := obj.spi }
        regs := { s.regs with TXDR := (v % 65536).toNat, TXE := false } } rfl hrxne
    have h1 : (0 : Int) ≤ v % 65536 := Int.emod_nonneg _ (by decide)
    have hret : spi_master_write loopback (n + 2) obj s v = some (s', v % 65536) := by
      unfold spi_master_write
      rw [hw, Option.some_bind, hs', if_neg hb8]
      congr 2
      show (((v % 65536).toNat : Nat) : Int) = v % 65536
      omega
    refine ⟨s', hret, ht, ?_⟩
    intro h0 hlt
    rw [hret, Int.emod_eq_of_lt h0 hlt]

theorem master_write_loopback_witness :
    (objAfterInit.bits = SPI_DATASIZE_8BIT →
        ∃ s', spi_master_write loopback 2 objAfterInit ⟨handleAfterInit, idleRegs⟩ 0x1234
            = some (s', 0x1234 % 256)
          ∧ s'.regs.TXDR = ((0x1234 : Int) % 256).toNat)
    ∧ (objAfterInit.bits = SPI_DATASIZE_16BIT →
        ∃ s', spi_master_write loopback 2 objAfterInit ⟨handleAfterInit, idleRegs⟩ 0x1234
            = some (s', 0x1234 % 65536)
          ∧ s'.regs.TXDR = ((0x1234 : Int) % 65536).toNat
          ∧ ((0 : Int) ≤ 0x1234 → (0x1234 : Int) < 65536 →
              spi_master_write loopback 2 objAfterInit ⟨handleAfterInit, idleRegs⟩ 0x1234
                = some (s', 0x1234))) :=
  master_write_loopback 2 objAfterInit ⟨handleAfterInit, idleRegs⟩ 0x1234
    (by decide) rfl rfl

end Spi

/-! ## Further properties of the UART driver -/

namespace Serial

open HAL_StatusTypeDef UARTName SerialParity SerialIrq UART_WordLength UART_StopBits
open UART_Parity UART_Mode UART_IT

/-- C15: `serial_tx_asynch` returns 0 and leaves the whole state as it was (the
handle with its busy state and remaining count, the transmit-buffer
descriptor and event mask of the port, the interrupt-enable bits, the
installed vector) whenever the buffer is null, the length is 0, or no valid
interrupt line belongs to the instance. -/
theorem tx_asynch_noop (T : Target) (s : SerialState)
    (tx tx_length tx_width handler event hint : Nat)
    (h : tx = 0 ∨ tx_length = 0 ∨ T.UartIRQs s.obj.serial.module = 0) :
    serial_tx_asynch T s tx tx_length tx_width handler event hint = (s, 0) := by
  have hg : (!(decide (tx ≠ 0 ∧ tx_length > 0)) || decide (T.UartIRQs s.obj.serial.module = 0))
      = true := by
    rcases h with h | h | h <;> simp [h]
  unfold serial_tx_asynch
  dsimp only
  rw [hg, if_pos rfl]

theorem tx_asynch_noop_witness :
    serial_tx_asynch sampleTarget (stateWith HAL_UART_STATE_BUSY_RX) 0x20000000 0 8 0x08002000
        SERIAL_EVENT_TX_COMPLETE 0
      = (stateWith HAL_UART_STATE_BUSY_RX, 0) :=
  tx_asynch_noop sampleTarget (stateWith HAL_UART_STATE_BUSY_RX) 0x20000000 0 8 0x08002000
    SERIAL_EVENT_TX_COMPLETE 0 (Or.inr (Or.inl rfl))

/-- C20: for every `serial_format` call and every prior configuration, the
stored word length is 9 bits if `data_bits` exceeds 8 and 8 bits otherwise. -/
theorem serial_format_word_length (hal : HalUartInit) (s : SerialState)
    (data_bits : Int) (parity : SerialParity) (stop_bits : Int) :
    (serial_format hal s data_bits parity stop_bits).handle.Init.WordLength
      = if data_bits > 8 then UART_WORDLENGTH_9B else UART_WORDLENGTH_8B := by
  unfold serial_format HAL_UART_Init
  cases parity <;> dsimp only <;> split_ifs <;> rfl

/-- The module index 0 is the one `serial_init` gives to `UART_1`. -/
theorem serial_init_module_zero (T : Target) (hal : HalUartInit) (s s' : SerialState)
    (tx rx : PinName) (inst : UARTName) (h : serial_init T hal s tx rx inst = .ok s') :
    s'.handle.Instance = inst ∧ (s'.obj.serial.module = 0 ↔ inst = UART_1) := by
  unfold serial_init at h
  split at h
  · cases h
  · rename_i hn
    cases h
    unfold HAL_UART_Init
    dsimp only
    constructor
    · split_ifs <;> rfl
    · cases inst <;> simp at hn ⊢

/-- C17, as stated, fails: a callback registered with the identifier 0 is not
invoked when the trampoline runs with receive-not-empty pending. -/
theorem uart_irq_id_zero_not_invoked :
    HAL_UART_GET_FLAG { resetState.regs with ISR := USART_ISR_RXNE } UART_FLAG_RXNE = true
    ∧ (uart_irq (serial_irq_handler
          { resetState with regs := { resetState.regs with ISR := USART_ISR_RXNE } }
          0x08003000 0)).callbacks = [] :=
  ⟨rfl, rfl⟩

/-- C17, amended: for every instance and every registered callback with a
nonzero identifier, the trampoline invokes the callback with the registered
identifier and the receive tag when it runs with receive-not-empty pending, and
with the registered identifier and the transmit tag when it runs with
transmit-complete pending on an instance other than `UART_1` (module index 0);
on `UART_1` it never invokes the callback with the transmit tag.  Those are all
the invocations it makes, the transmit one first. -/
theorem uart_irq_invokes (s : SerialState) (handler id : Nat) (hid : id ≠ 0) :
    (uart_irq (serial_irq_handler s handler id)).callbacks
      = s.callbacks
        ++ (if HAL_UART_GET_FLAG s.regs UART_FLAG_TC = true ∧ s.handle.Instance ≠ UART_1
            then [(handler, id, TxIrq)] else [])
        ++ (if HAL_UART_GET_FLAG s.regs UART_FLAG_RXNE = true
            then [(handler, id, RxIrq)] else []) := by
  have hclr : HAL_UART_GET_FLAG (HAL_UART_CLEAR_FLAG s.regs UART_FLAG_TC) UART_FLAG_RXNE
      = HAL_UART_GET_FLAG s.regs UART_FLAG_RXNE := by
    unfold HAL_UART_GET_FLAG HAL_UART_CLEAR_FLAG clearBits
    dsimp only
    rw [and_and_const s.regs.ISR (0xFFFFFFFF ^^^ UART_FLAG_TC) UART_FLAG_RXNE UART_FLAG_RXNE
      (by decide)]
  unfold uart_irq serial_irq_handler
  dsimp only
  rw [if_pos hid]
  by_cases htc : HAL_UART_GET_FLAG s.regs UART_FLAG_TC = true ∧ s.handle.Instance ≠ UART_1
  · rw [if_pos htc, if_pos htc]
    dsimp only
    rw [hclr]
    split_ifs <;> simp
  · rw [if_neg htc, if_neg htc]
    split_ifs <;> simp

theorem uart_irq_invokes_witness :
    (uart_irq (serial_irq_handler
        { resetState with regs := { resetState.regs with ISR := USART_ISR_RXNE ||| USART_ISR_TC } }
        0x08003000 7)).callbacks
      = resetState.callbacks
        ++ (if HAL_UART_GET_FLAG { resetState.regs with ISR := USART_ISR_RXNE ||| USART_ISR_TC }
                UART_FLAG_TC = true ∧ resetState.handle.Instance ≠ UART_1
            then [(0x08003000, 7, TxIrq)] else [])
        ++ (if HAL_UART_GET_FLAG { resetState.regs with ISR := USART_ISR_RXNE ||| USART_ISR_TC }
                UART_FLAG_RXNE = true
            then [(0x08003000, 7, RxIrq)] else []) :=
  uart_irq_invokes
    { resetState with regs := { resetState.regs with ISR := USART_ISR_RXNE ||| USART_ISR_TC } }
    0x08003000 7 (by decide)

/-! ### The events of one interrupt service -/

theorem irq_error_events_bits (status : Nat) :
    (irq_error_events status).testBit 11 = decide (status &&& USART_ISR_PE ≠ 0)
    ∧ (irq_error_events status).testBit 10
        = decide (status &&& (USART_ISR_NE ||| USART_ISR_FE) ≠ 0)
    ∧ (irq_error_events status).testBit 9 = decide (status &&& USART_ISR_ORE ≠ 0)
    ∧ (irq_error_events status).testBit 13 = false := by
  unfold irq_error_events
  dsimp only
  by_cases h1 : status &&& USART_ISR_PE = 0 <;>
    by_cases h2 : status &&& (USART_ISR_NE ||| USART_ISR_FE) = 0 <;>
    by_cases h3 : status &&& USART_ISR_ORE = 0 <;>
    simp only [h1, h2, h3, ne_eq, not_true_eq_false, not_false_eq_true, if_true, if_false,
      decide_True, decide_False] <;>
    decide

theorem irq_tx_part_event (status : Nat) (s : SerialState) (event : Nat) :
    ∃ t, (t = 0 ∨ t = SERIAL_EVENT_TX_COMPLETE) ∧ (irq_tx_part status s event).2 = event ||| t := by
  unfold irq_tx_part
  dsimp only
  split_ifs
  · exact ⟨_, Or.inr rfl, rfl⟩
  · exact ⟨_, Or.inr rfl, rfl⟩
  · exact ⟨0, Or.inl rfl, (Nat.or_zero _).symm⟩
  · exact ⟨0, Or.inl rfl, (Nat.or_zero _).symm⟩
  · exact ⟨0, Or.inl rfl, (Nat.or_zero _).symm⟩

theorem irq_tx_part_frame (status : Nat) (s : SerialState) (event : Nat) :
    (irq_tx_part status s event).1.obj.serial = s.obj.serial
    ∧ (irq_tx_part status s event).1.handle.RxXferCount = s.handle.RxXferCount
    ∧ (irq_tx_part status s event).1.handle.pRxBuffPtr = s.handle.pRxBuffPtr
    ∧ (irq_tx_part status s event).1.mem = s.mem := by
  unfold irq_tx_part
  dsimp only
  split_ifs <;> exact ⟨rfl, rfl, rfl, rfl⟩

theorem irq_rx_part_event (status data : Nat) (s : SerialState) (event : Nat) :
    (irq_rx_part status data s event).1.obj.serial = s.obj.serial
    ∧ ∃ m c, (m = 0 ∨ m = SERIAL_EVENT_RX_CHARACTER_MATCH)
        ∧ (c = 0 ∨ c = SERIAL_EVENT_RX_COMPLETE)
        ∧ (irq_rx_part status data s event).2 = (event ||| m) ||| c := by
  unfold irq_rx_part
  dsimp only
  split_ifs <;>
    first
    | exact ⟨rfl, SERIAL_EVENT_RX_CHARACTER_MATCH, SERIAL_EVENT_RX_COMPLETE,
        Or.inr rfl, Or.inr rfl, rfl⟩
    | exact ⟨rfl, SERIAL_EVENT_RX_CHARACTER_MATCH, 0, Or.inr rfl, Or.inl rfl,
        (Nat.or_zero _).symm⟩
    | exact ⟨rfl, 0, SERIAL_EVENT_RX_COMPLETE, Or.inl rfl, Or.inr rfl,
        congrArg (fun x => x ||| SERIAL_EVENT_RX_COMPLETE) (Nat.or_zero event).symm⟩
    | exact ⟨rfl, 0, 0, Or.inl rfl, Or.inl rfl,
        ((Nat.or_zero _).trans (Nat.or_zero _)).symm⟩

/-- The result of a service is the error events, joined with the
transmit-complete, character-match and receive-complete bits the transfer parts
add, masked with the event mask of the port, which the service leaves alone. -/
theorem irq_handler_result (s : SerialState) :
    (serial_irq_handler_asynch s).1.obj.serial = s.obj.serial
    ∧ ∃ t m c, (t = 0 ∨ t = SERIAL_EVENT_TX_COMPLETE)
        ∧ (m = 0 ∨ m = SERIAL_EVENT_RX_CHARACTER_MATCH)
        ∧ (c = 0 ∨ c = SERIAL_EVENT_RX_COMPLETE)
        ∧ (serial_irq_handler_asynch s).2
            = (((irq_error_events s.regs.ISR ||| t) ||| m) ||| c) &&& s.obj.serial.event := by
  obtain ⟨t, ht, et⟩ := irq_tx_part_event s.regs.ISR s (irq_error_events s.regs.ISR)
  obtain ⟨f1, -, -, -⟩ := irq_tx_part_frame s.regs.ISR s (irq_error_events s.regs.ISR)
  obtain ⟨g1, m, c, hm, hc, erx⟩ := irq_rx_part_event s.regs.ISR s.regs.RDR
    (irq_tx_part s.regs.ISR s (irq_error_events s.regs.ISR)).1
    (irq_tx_part s.regs.ISR s (irq_error_events s.regs.ISR)).2
  unfold serial_irq_handler_asynch
  dsimp only
  refine ⟨g1.trans f1, t, m, c, ht, hm, hc, ?_⟩
  rw [erx, g1, f1, et]

/-- The bits the transfer parts add are none of the three error bits. -/
theorem transfer_bits_not_error_bits (t m c k : Nat)
    (ht : t = 0 ∨ t = SERIAL_EVENT_TX_COMPLETE)
    (hm : m = 0 ∨ m = SERIAL_EVENT_RX_CHARACTER_MATCH)
    (hc : c = 0 ∨ c = SERIAL_EVENT_RX_COMPLETE)
    (hk : k = 9 ∨ k = 10 ∨ k = 11) :
    t.testBit k = false ∧ m.testBit k = false ∧ c.testBit k = false := by
  rcases hk with rfl | rfl | rfl <;> rcases ht with rfl | rfl <;> rcases hm with rfl | rfl <;>
    rcases hc with rfl | rfl <;> decide

/-- C18: for every `serial_irq_handler_asynch` call, the returned mask is the
accumulated events intersected with the event mask of the port, which the call
does not change: it never contains an unsubscribed bit, and it contains the
parity-error, the framing-error or the overrun-error bit exactly when that bit
is subscribed and the parity-error flag, the noise or framing flag, or the
overrun flag of the status register is set, whatever the state of the handle
and the remaining counts. -/
theorem irq_handler_result_masked (s : SerialState) :
    (serial_irq_handler_asynch s).1.obj.serial.event = s.obj.serial.event
    ∧ (∃ event, (serial_irq_handler_asynch s).2 = event &&& s.obj.serial.event)
    ∧ (∀ i, (serial_irq_handler_asynch s).2.testBit i = true
          → s.obj.serial.event.testBit i = true)
    ∧ ((serial_irq_handler_asynch s).2 &&& SERIAL_EVENT_RX_PARITY_ERROR ≠ 0
        ↔ (s.obj.serial.event &&& SERIAL_EVENT_RX_PARITY_ERROR ≠ 0
            ∧ s.regs.ISR &&& USART_ISR_PE ≠ 0))
    ∧ ((serial_irq_handler_asynch s).2 &&& SERIAL_EVENT_RX_FRAMING_ERROR ≠ 0
        ↔ (s.obj.serial.event &&& SERIAL_EVENT_RX_FRAMING_ERROR ≠ 0
            ∧ s.regs.ISR &&& (USART_ISR_NE ||| USART_ISR_FE) ≠ 0))
    ∧ ((serial_irq_handler_asynch s).2 &&& SERIAL_EVENT_RX_OVERRUN_ERROR ≠ 0
        ↔ (s.obj.serial.event &&& SERIAL_EVENT_RX_OVERRUN_ERROR ≠ 0
            ∧ s.regs.ISR &&& USART_ISR_ORE ≠ 0)) := by
  obtain ⟨hser, t, m, c, ht, hm, hc, hres⟩ := irq_handler_result s
  obtain ⟨b11, b10, b9, -⟩ := irq_error_events_bits s.regs.ISR
  refine ⟨by rw [hser], ⟨_, hres⟩, ?_, ?_, ?_, ?_⟩
  · intro i hi
    rw [hres, Nat.testBit_and] at hi
    exact (Bool.and_eq_true _ _ ▸ hi).2
  · show _ &&& 2 ^ 11 ≠ 0 ↔ (_ &&& 2 ^ 11 ≠ 0 ∧ _)
    rw [and_two_pow_ne_zero, and_two_pow_ne_zero, hres, Nat.testBit_and, Nat.testBit_or,
      Nat.testBit_or, Nat.testBit_or, b11]
    obtain ⟨tk, mk, ck⟩ := transfer_bits_not_error_bits t m c 11 ht hm hc (Or.inr (Or.inr rfl))
    rw [tk, mk, ck]
    simp [and_comm]
  · show _ &&& 2 ^ 10 ≠ 0 ↔ (_ &&& 2 ^ 10 ≠ 0 ∧ _)
    rw [and_two_pow_ne_zero, and_two_pow_ne_zero, hres, Nat.testBit_and, Nat.testBit_or,
      Nat.testBit_or, Nat.testBit_or, b10]
    obtain ⟨tk, mk, ck⟩ := transfer_bits_not_error_bits t m c 10 ht hm hc (Or.inr (Or.inl rfl))
    rw [tk, mk, ck]
    simp [and_comm]
  · show _ &&& 2 ^ 9 ≠ 0 ↔ (_ &&& 2 ^ 9 ≠ 0 ∧ _)
    rw [and_two_pow_ne_zero, and_two_pow_ne_zero, hres, Nat.testBit_and, Nat.testBit_or,
      Nat.testBit_or, Nat.testBit_or, b9]
    obtain ⟨tk, mk, ck⟩ := transfer_bits_not_error_bits t m c 9 ht hm hc (Or.inl rfl)
    rw [tk, mk, ck]
    simp [and_comm]

/-! ### Receiving with a character match -/

theorem irq_rx_part_store (status data : Nat) (s : SerialState) (event c : Nat)
    (hrx : status &&& USART_ISR_RXNE ≠ 0) (hc : s.handle.RxXferCount = c + 1) :
    (irq_rx_part status data s event).1.handle.RxXferCount = c
    ∧ (irq_rx_part status data s event).1.mem s.handle.pRxBuffPtr = data % 256
    ∧ ∃ x, (x = 0 ∨ x = SERIAL_EVENT_RX_COMPLETE)
        ∧ (irq_rx_part status data s event).2
            = (if s.obj.serial.char_match ≠ SERIAL_RESERVED_CHAR_MATCH
                  ∧ data % 256 = s.obj.serial.char_match
               then event ||| SERIAL_EVENT_RX_CHARACTER_MATCH else event) ||| x := by
  unfold irq_rx_part
  rw [if_pos ⟨hrx, by simp [hc]⟩]
  simp only [hc, Nat.add_sub_cancel]
  by_cases h0 : c = 0
  · simp only [h0, if_true]
    split_ifs <;> exact ⟨rfl, by simp, _, Or.inr rfl, rfl⟩
  · simp only [h0, if_false]
    exact ⟨trivial, by simp, 0, Or.inl rfl, (Nat.or_zero _).symm⟩

theorem service_rx (s : SerialState) (status data c : Nat)
    (hrx : status &&& USART_ISR_RXNE ≠ 0) (hc : s.handle.RxXferCount = c + 1) :
    (service s status data).1.handle.RxXferCount = c
    ∧ (service s status data).1.obj.serial = s.obj.serial
    ∧ (service s status data).1.mem s.handle.pRxBuffPtr = data % 256
    ∧ (service s status data).2.testBit 13
        = (decide (s.obj.serial.char_match ≠ SERIAL_RESERVED_CHAR_MATCH
              ∧ data % 256 = s.obj.serial.char_match)
            && s.obj.serial.event.testBit 13) := by
  obtain ⟨t, ht, et⟩ := irq_tx_part_event status
    { s with regs := { s.regs with ISR := status, RDR := data } } (irq_error_events status)
  obtain ⟨f1, f2, f3, f4⟩ := irq_tx_part_frame status
    { s with regs := { s.regs with ISR := status, RDR := data } } (irq_error_events status)
  obtain ⟨g1, -⟩ := irq_rx_part_event status data
    (irq_tx_part status { s with regs := { s.regs with ISR := status, RDR := data } }
      (irq_error_events status)).1
    (irq_tx_part status { s with regs := { s.regs with ISR := status, RDR := data } }
      (irq_error_events status)).2
  obtain ⟨k1, k2, x, hx, k3⟩ := irq_rx_part_store status data
    (irq_tx_part status { s with regs := { s.regs with ISR := status, RDR := data } }
      (irq_error_events status)).1
    (irq_tx_part status { s with regs := { s.regs with ISR := status, RDR := data } }
      (irq_error_events status)).2 c hrx (f2.trans hc)
  obtain ⟨-, -, -, e13⟩ := irq_error_events_bits status
  have t13 : t.testBit 13 = false := by rcases ht with rfl | rfl <;> decide
  have x13 : x.testBit 13 = false := by rcases hx with rfl | rfl <;> decide
  unfold service serial_irq_handler_asynch
  dsimp only
  refine ⟨k1, g1.trans f1, ?_, ?_⟩
  · rw [f3] at k2
    exact k2
  · rw [k3, g1, f1, et]
    dsimp only
    by_cases hcm : s.obj.serial.char_match ≠ SERIAL_RESERVED_CHAR_MATCH
        ∧ data % 256 = s.obj.serial.char_match
    · rw [if_pos hcm, Nat.testBit_and, Nat.testBit_or, Nat.testBit_or, Nat.testBit_or, e13,
        t13, x13]
      simp [hcm, SERIAL_EVENT_RX_CHARACTER_MATCH]
      intro _
      decide
    · rw [if_neg hcm, Nat.testBit_and, Nat.testBit_or, Nat.testBit_or, e13, t13, x13]
      simp [hcm]

theorem serviceAll_char_match (rds : List (Nat × Nat)) (s : SerialState) (cm : Nat)
    (hrx : ∀ rd ∈ rds, rd.1 &&& USART_ISR_RXNE ≠ 0)
    (hcnt : rds.length ≤ s.handle.RxXferCount)
    (hcm : s.obj.serial.char_match = cm)
    (hsub : s.obj.serial.event.testBit 13 = true) :
    List.Forall₂
      (fun e rd => e &&& SERIAL_EVENT_RX_CHARACTER_MATCH ≠ 0
        ↔ (cm ≠ SERIAL_RESERVED_CHAR_MATCH ∧ rd.2 % 256 = cm))
      (serviceAll s rds).2 rds := by
  induction rds generalizing s with
  | nil => exact List.Forall₂.nil
  | cons rd rest ih =>
    obtain ⟨c, hc⟩ : ∃ c, s.handle.RxXferCount = c + 1 :=
      ⟨s.handle.RxXferCount - 1, by simp only [List.length_cons] at hcnt; omega⟩
    obtain ⟨k1, k2, -, k4⟩ := service_rx s rd.1 rd.2 c (hrx rd (List.mem_cons_self _ _)) hc
    have hrest := ih (service s rd.1 rd.2).1
      (fun x hx => hrx x (List.mem_cons_of_mem _ hx))
      (by simp only [List.length_cons] at hcnt; omega)
      (by rw [k2]; exact hcm) (by rw [k2]; exact hsub)
    show List.Forall₂ _ ((service s rd.1 rd.2).2 :: (serviceAll (service s rd.1 rd.2).1 rest).2) _
    refine List.Forall₂.cons ?_ hrest
    show _ &&& 2 ^ 13 ≠ 0 ↔ _
    rw [and_two_pow_ne_zero, k4, hsub, hcm]
    simp

/-- C14: on a port subscribed to the character-match event, over any run of
`serial_irq_handler_asynch` calls that each store a received byte
(receive-not-empty set, elements remaining), the result of a call contains the
character-match bit if and only if the stored match byte is not the reserved
sentinel and equals the low 8 bits of the data received in that call.  So the
bit is reported once for each matching byte, and never when the match byte is
the sentinel. -/
theorem char_match_reported (s : SerialState) (rds : List (Nat × Nat))
    (hrx : ∀ rd ∈ rds, rd.1 &&& USART_ISR_RXNE ≠ 0)
    (hcnt : rds.length ≤ s.handle.RxXferCount)
    (hsub : s.obj.serial.event &&& SERIAL_EVENT_RX_CHARACTER_MATCH ≠ 0) :
    List.Forall₂
      (fun e rd => e &&& SERIAL_EVENT_RX_CHARACTER_MATCH ≠ 0
        ↔ (s.obj.serial.char_match ≠ SERIAL_RESERVED_CHAR_MATCH
            ∧ rd.2 % 256 = s.obj.serial.char_match))
      (serviceAll s rds).2 rds :=
  serviceAll_char_match rds s s.obj.serial.char_match hrx hcnt rfl
    ((and_two_pow_ne_zero _ 13).1 hsub)

theorem char_match_reported_witness :
    List.Forall₂
      (fun e rd => e &&& SERIAL_EVENT_RX_CHARACTER_MATCH ≠ 0
        ↔ (receivingState.obj.serial.char_match ≠ SERIAL_RESERVED_CHAR_MATCH
            ∧ rd.2 % 256 = receivingState.obj.serial.char_match))
      (serviceAll receivingState
        [(USART_ISR_RXNE, 0x41), (USART_ISR_RXNE, 0x0A), (USART_ISR_RXNE, 0x10A)]).2
      [(USART_ISR_RXNE, 0x41), (USART_ISR_RXNE, 0x0A), (USART_ISR_RXNE, 0x10A)] :=
  char_match_reported receivingState
    [(USART_ISR_RXNE, 0x41), (USART_ISR_RXNE, 0x0A), (USART_ISR_RXNE, 0x10A)]
    (by decide) (by decide) (by decide)

end Serial

/-! ## Initialization, start of a transfer, and the frequency table as a whole -/

namespace Serial

open HAL_StatusTypeDef UARTName SerialParity SerialIrq UART_WordLength UART_StopBits
open UART_Parity UART_Mode UART_IT UART_HwFlowCtl UART_OverSampling

/-- C21: after `serial_init` on pins that resolve to an instance, the call
returns and the stored configuration of the instance is 8 data bits, 1 stop
bit, no parity, no hardware flow control, 16x oversampling, zero remaining
transmit and receive counts, direction transmit-only if rx is not connected,
receive-only if only tx is not connected and full duplex otherwise, and baud
rate 9600 (38400 on the low-power instance) unless the pins are the
standard-I/O pair, in which case it is the configured console default. -/
theorem serial_init_defaults (T : Target) (hal : HalUartInit) (s : SerialState)
    (tx rx : PinName) (inst : UARTName) (hinst : inst ≠ NC) :
    ∃ s', serial_init T hal s tx rx inst = .ok s'
      ∧ s'.handle.Instance = inst
      ∧ s'.handle.Init.WordLength = UART_WORDLENGTH_8B
      ∧ s'.handle.Init.StopBits = UART_STOPBITS_1
      ∧ s'.handle.Init.Parity = UART_PARITY_NONE
      ∧ s'.handle.Init.HwFlowCtl = UART_HWCONTROL_NONE
      ∧ s'.handle.Init.OverSampling = UART_OVERSAMPLING_16
      ∧ s'.handle.TxXferCount = 0
      ∧ s'.handle.RxXferCount = 0
      ∧ s'.handle.Init.Mode
          = (if rx = PinName.NC then UART_MODE_TX
             else if tx = PinName.NC then UART_MODE_RX else UART_MODE_TX_RX)
      ∧ s'.handle.Init.BaudRate
          = (if tx = T.STDIO_UART_TX ∧ rx = T.STDIO_UART_RX
             then T.YOTTA_CFG_MBED_OS_STDIO_DEFAULT_BAUD
             else if inst = LPUART_1 then 38400 else 9600) := by
  unfold serial_init HAL_UART_Init
  rw [if_neg hinst]
  refine ⟨_, rfl, ?_⟩
  dsimp only
  by_cases hstd : tx = T.STDIO_UART_TX ∧ rx = T.STDIO_UART_RX
  · rw [if_pos hstd, if_pos hstd]
    exact ⟨rfl, rfl, rfl, rfl, rfl, rfl, rfl, rfl, rfl, rfl⟩
  · rw [if_neg hstd, if_neg hstd]
    refine ⟨rfl, rfl, rfl, rfl, rfl, rfl, rfl, rfl, rfl, ?_⟩
    by_cases hl : inst = LPUART_1 <;> simp [hl]

theorem serial_init_defaults_witness :
    ∃ s', serial_init sampleTarget halUartFails resetState 10 PinName.NC LPUART_1 = .ok s'
      ∧ s'.handle.Instance = LPUART_1
      ∧ s'.handle.Init.WordLength = UART_WORDLENGTH_8B
      ∧ s'.handle.Init.StopBits = UART_STOPBITS_1
      ∧ s'.handle.Init.Parity = UART_PARITY_NONE
      ∧ s'.handle.Init.HwFlowCtl = UART_HWCONTROL_NONE
      ∧ s'.handle.Init.OverSampling = UART_OVERSAMPLING_16
      ∧ s'.handle.TxXferCount = 0
      ∧ s'.handle.RxXferCount = 0
      ∧ s'.handle.Init.Mode
          = (if PinName.NC = PinName.NC then UART_MODE_TX
             else if (10 : PinName) = PinName.NC then UART_MODE_RX else UART_MODE_TX_RX)
      ∧ s'.handle.Init.BaudRate
          = (if (10 : PinName) = sampleTarget.STDIO_UART_TX
                ∧ PinName.NC = sampleTarget.STDIO_UART_RX
             then sampleTarget.YOTTA_CFG_MBED_OS_STDIO_DEFAULT_BAUD
             else if LPUART_1 = LPUART_1 then 38400 else 9600) :=
  serial_init_defaults sampleTarget halUartFails resetState 10 PinName.NC LPUART_1 (by decide)

end Serial

namespace Spi

open HAL_StatusTypeDef SPI_BaudRatePrescaler

/-- The 80 MHz table in terms of the divider selected. -/
theorem spi_frequency_divisor_80M (hal : SPI_HandleTypeDef → HAL_StatusTypeDef)
    (obj : spi_t) (h : SPI_HandleTypeDef) (hz : Int) (r : spi_t × SPI_HandleTypeDef)
    (hr : spi_frequency hal 80000000 obj h hz = .ok r) :
    (hz < 600000 ∧ r.1.br_presc.divisor = 256)
    ∨ (600000 ≤ hz ∧ hz < 1000000 ∧ r.1.br_presc.divisor = 128)
    ∨ (1000000 ≤ hz ∧ hz < 2000000 ∧ r.1.br_presc.divisor = 64)
    ∨ (2000000 ≤ hz ∧ hz < 5000000 ∧ r.1.br_presc.divisor = 32)
    ∨ (5000000 ≤ hz ∧ hz < 10000000 ∧ r.1.br_presc.divisor = 16)
    ∨ (10000000 ≤ hz ∧ hz < 20000000 ∧ r.1.br_presc.divisor = 8)
    ∨ (20000000 ≤ hz ∧ hz < 40000000 ∧ r.1.br_presc.divisor = 4)
    ∨ (40000000 ≤ hz ∧ r.1.br_presc.divisor = 2) := by
  rcases spi_frequency_table_80M hal obj h hz r hr with ⟨a, b⟩ | ⟨a, a', b⟩ | ⟨a, a', b⟩
    | ⟨a, a', b⟩ | ⟨a, a', b⟩ | ⟨a, a', b⟩ | ⟨a, a', b⟩ | ⟨a, b⟩ <;>
    simp [b, SPI_BaudRatePrescaler.divisor] <;> omega

/-- The 48 MHz table in terms of the divider selected. -/
theorem spi_frequency_divisor_48M (hal : SPI_HandleTypeDef → HAL_StatusTypeDef)
    (clk : Nat) (obj : spi_t) (h : SPI_HandleTypeDef) (hz : Int) (r : spi_t × SPI_HandleTypeDef)
    (hclk : clk ≠ 80000000) (hr : spi_frequency hal clk obj h hz = .ok r) :
    (hz < 350000 ∧ r.1.br_presc.divisor = 256)
    ∨ (350000 ≤ hz ∧ hz < 750000 ∧ r.1.br_presc.divisor = 128)
    ∨ (750000 ≤ hz ∧ hz < 1000000 ∧ r.1.br_presc.divisor = 64)
    ∨ (1000000 ≤ hz ∧ hz < 3000000 ∧ r.1.br_presc.divisor = 32)
    ∨ (3000000 ≤ hz ∧ hz < 6000000 ∧ r.1.br_presc.divisor = 16)
    ∨ (6000000 ≤ hz ∧ hz < 12000000 ∧ r.1.br_presc.divisor = 8)
    ∨ (12000000 ≤ hz ∧ hz < 24000000 ∧ r.1.br_presc.divisor = 4)
    ∨ (24000000 ≤ hz ∧ r.1.br_presc.divisor = 2) := by
  rcases spi_frequency_table_48M hal clk obj h hz r hclk hr with ⟨a, b⟩ | ⟨a, a', b⟩
    | ⟨a, a', b⟩ | ⟨a, a', b⟩ | ⟨a, a', b⟩ | ⟨a, a', b⟩ | ⟨a, a', b⟩ | ⟨a, b⟩ <;>
    simp [b, SPI_BaudRatePrescaler.divisor] <;> omega

/-- Every prescaler selector stands for one of the eight dividers. -/
theorem divisor_mem (p : SPI_BaudRatePrescaler) :
    p.divisor ∈ [2, 4, 8, 16, 32, 64, 128, 256] := by
  cases p <;> decide

/-- C26: for a fixed core clock, `spi_frequency` is total and monotone.  Every
integer hz, zero and negative values included, makes it return with exactly
one of the eight prescalers 2, 4, ..., 256 selected: the selection replaces the
prescaler of the descriptor, nothing else in it, and is the one handed to the
hardware.  For hz1 <= hz2 the divider selected for hz1 is greater than or equal
to the one selected for hz2.  The divider is the one the table of the core
clock gives for hz: at exactly 80,000,000 Hz the breakpoints are 600 kHz,
1 MHz, 2 MHz, 5 MHz, 10 MHz, 20 MHz and 40 MHz, and at every other core clock
they are those of the 48 MHz table, 350 kHz, 750 kHz, 1 MHz, 3 MHz, 6 MHz,
12 MHz and 24 MHz. -/
theorem spi_frequency_total_monotone (hal : SPI_HandleTypeDef → HAL_StatusTypeDef)
    (clk : Nat) (obj : spi_t) (h : SPI_HandleTypeDef) (hz1 hz2 : Int)
    (hok : ∀ x, hal x = HAL_OK) (hle : hz1 ≤ hz2) :
    ∃ r1 r2, spi_frequency hal clk obj h hz1 = .ok r1
      ∧ spi_frequency hal clk obj h hz2 = .ok r2
      ∧ r1.1 = { obj with br_presc := r1.1.br_presc }
      ∧ r1.2.Init.BaudRatePrescaler = r1.1.br_presc
      ∧ r1.1.br_presc.divisor ∈ [2, 4, 8, 16, 32, 64, 128, 256]
      ∧ r2.1.br_presc.divisor ≤ r1.1.br_presc.divisor
      ∧ (clk = 80000000 →
          (hz1 < 600000 ∧ r1.1.br_presc.divisor = 256)
          ∨ (600000 ≤ hz1 ∧ hz1 < 1000000 ∧ r1.1.br_presc.divisor = 128)
          ∨ (1000000 ≤ hz1 ∧ hz1 < 2000000 ∧ r1.1.br_presc.divisor = 64)
          ∨ (2000000 ≤ hz1 ∧ hz1 < 5000000 ∧ r1.1.br_presc.divisor = 32)
          ∨ (5000000 ≤ hz1 ∧ hz1 < 10000000 ∧ r1.1.br_presc.divisor = 16)
          ∨ (10000000 ≤ hz1 ∧ hz1 < 20000000 ∧ r1.1.br_presc.divisor = 8)
          ∨ (20000000 ≤ hz1 ∧ hz1 < 40000000 ∧ r1.1.br_presc.divisor = 4)
          ∨ (40000000 ≤ hz1 ∧ r1.1.br_presc.divisor = 2))
      ∧ (clk ≠ 80000000 →
          (hz1 < 350000 ∧ r1.1.br_presc.divisor = 256)
          ∨ (350000 ≤ hz1 ∧ hz1 < 750000 ∧ r1.1.br_presc.divisor = 128)
          ∨ (750000 ≤ hz1 ∧ hz1 < 1000000 ∧ r1.1.br_presc.divisor = 64)
          ∨ (1000000 ≤ hz1 ∧ hz1 < 3000000 ∧ r1.1.br_presc.divisor = 32)
          ∨ (3000000 ≤ hz1 ∧ hz1 < 6000000 ∧ r1.1.br_presc.divisor = 16)
          ∨ (6000000 ≤ hz1 ∧ hz1 < 12000000 ∧ r1.1.br_presc.divisor = 8)
          ∨ (12000000 ≤ hz1 ∧ hz1 < 24000000 ∧ r1.1.br_presc.divisor = 4)
          ∨ (24000000 ≤ hz1 ∧ r1.1.br_presc.divisor = 2)) := by
  obtain ⟨r1, hr1, hobj, hhw⟩ := spi_frequency_returns hal clk obj h hz1 hok
  obtain ⟨r2, hr2, -, -⟩ := spi_frequency_returns hal clk obj h hz2 hok
  refine ⟨r1, r2, hr1, hr2, hobj, hhw, divisor_mem _, ?_, ?_, ?_⟩
  · by_cases hc : clk = 80000000
    · subst hc
      have t1 := spi_frequency_divisor_80M hal obj h hz1 r1 hr1
      have t2 := spi_frequency_divisor_80M hal obj h hz2 r2 hr2
      omega
    · have t1 := spi_frequency_divisor_48M hal clk obj h hz1 r1 hc hr1
      have t2 := spi_frequency_divisor_48M hal clk obj h hz2 r2 hc hr2
      omega
  · intro hc
    subst hc
    exact spi_frequency_divisor_80M hal obj h hz1 r1 hr1
  · intro hc
    exact spi_frequency_divisor_48M hal clk obj h hz1 r1 hc hr1

theorem spi_frequency_total_monotone_witness :
    ∃ r1 r2, spi_frequency halSpiAccepts 72000000 objAfterInit handleAfterInit 500000 = .ok r1
      ∧ spi_frequency halSpiAccepts 72000000 objAfterInit handleAfterInit 900000 = .ok r2
      ∧ r1.1 = { objAfterInit with br_presc := r1.1.br_presc }
      ∧ r1.2.Init.BaudRatePrescaler = r1.1.br_presc
      ∧ r1.1.br_presc.divisor ∈ [2, 4, 8, 16, 32, 64, 128, 256]
      ∧ r2.1.br_presc.divisor ≤ r1.1.br_presc.divisor
      ∧ ((72000000 : Nat) = 80000000 →
          ((500000 : Int) < 600000 ∧ r1.1.br_presc.divisor = 256)
          ∨ ((600000 : Int) ≤ 500000 ∧ (500000 : Int) < 1000000 ∧ r1.1.br_presc.divisor = 128)
          ∨ ((1000000 : Int) ≤ 500000 ∧ (500000 : Int) < 2000000 ∧ r1.1.br_presc.divisor = 64)
          ∨ ((2000000 : Int) ≤ 500000 ∧ (500000 : Int) < 5000000 ∧ r1.1.br_presc.divisor = 32)
          ∨ ((5000000 : Int) ≤ 500000 ∧ (500000 : Int) < 10000000 ∧ r1.1.br_presc.divisor = 16)
          ∨ ((10000000 : Int) ≤ 500000 ∧ (500000 : Int) < 20000000 ∧ r1.1.br_presc.divisor = 8)
          ∨ ((20000000 : Int) ≤ 500000 ∧ (500000 : Int) < 40000000 ∧ r1.1.br_presc.divisor = 4)
          ∨ ((40000000 : Int) ≤ 500000 ∧ r1.1.br_presc.divisor = 2))
      ∧ ((72000000 : Nat) ≠ 80000000 →
          ((500000 : Int) < 350000 ∧ r1.1.br_presc.divisor = 256)
          ∨ ((350000 : Int) ≤ 500000 ∧ (500000 : Int) < 750000 ∧ r1.1.br_presc.divisor = 128)
          ∨ ((750000 : Int) ≤ 500000 ∧ (500000 : Int) < 1000000 ∧ r1.1.br_presc.divisor = 64)
          ∨ ((1000000 : Int) ≤ 500000 ∧ (500000 : Int) < 3000000 ∧ r1.1.br_presc.divisor = 32)
          ∨ ((3000000 : Int) ≤ 500000 ∧ (500000 : Int) < 6000000 ∧ r1.1.br_presc.divisor = 16)
          ∨ ((6000000 : Int) ≤ 500000 ∧ (500000 : Int) < 12000000 ∧ r1.1.br_presc.divisor = 8)
          ∨ ((12000000 : Int) ≤ 500000 ∧ (500000 : Int) < 24000000 ∧ r1.1.br_presc.divisor = 4)
          ∨ ((24000000 : Int) ≤ 500000 ∧ r1.1.br_presc.divisor = 2)) :=
  spi_frequency_total_monotone halSpiAccepts 72000000 objAfterInit handleAfterInit 500000 900000
    (fun _ => rfl) (by decide)

end Spi

/-! ## Asynchronous transfers from start to completion -/

namespace Serial

open HAL_StatusTypeDef UARTName SerialParity SerialIrq

/-! ### Starting a receive -/

theorem rx_asynch_start (T : Target) (s : SerialState)
    (rx rx_length rx_width handler event char_match hint : Nat)
    (hrx : rx ≠ 0) (hlen : 1 ≤ rx_length) (hirq : T.UartIRQs s.obj.serial.module ≠ 0) :
    (serial_rx_asynch T s rx rx_length rx_width handler event char_match hint).handle.State
        = (if s.handle.State = HAL_UART_STATE_BUSY_TX then HAL_UART_STATE_BUSY_TX_RX
           else HAL_UART_STATE_BUSY_RX)
    ∧ (serial_rx_asynch T s rx rx_length rx_width handler event char_match hint).handle.RxXferCount
        = rx_length % 65536
    ∧ (serial_rx_asynch T s rx rx_length rx_width handler event char_match hint).handle.pRxBuffPtr
        = rx
    ∧ (serial_rx_asynch T s rx rx_length rx_width handler event char_match hint).obj.rx_buff
        = { buffer := rx, length := rx_length, pos := 0, width := rx_width }
    ∧ (serial_rx_asynch T s rx rx_length rx_width handler event char_match hint).obj.serial.event
        = clearBits s.obj.serial.event SERIAL_EVENT_RX_MASK ||| (event &&& SERIAL_EVENT_RX_MASK)
    ∧ (serial_rx_asynch T s rx rx_length rx_width handler event char_match hint).handle.TxXferCount
        = s.handle.TxXferCount := by
  have hg : (!(decide (rx ≠ 0 ∧ rx_length > 0)) || decide (T.UartIRQs s.obj.serial.module = 0))
      = false := by
    simp [hrx, hirq]; omega
  unfold serial_rx_asynch vIRQ_SetVector vIRQ_EnableIRQ HAL_UART_CLEAR_PEFLAG
  dsimp only
  rw [hg]
  simp only [Bool.false_eq_true, if_false]
  refine ⟨?_, ?_, ?_, ?_, ?_, ?_⟩ <;> first | trivial | rfl | (split_ifs <;> rfl)

/-- C25, as stated, fails: from Busy-Transmit-And-Receive a successful
`serial_tx_asynch` leaves the state Busy-Transmit, so `serial_rx_active`
reports 1 before it and 0 after it. -/
theorem tx_start_clears_rx_active_from_busy_tx_rx :
    (serial_tx_asynch sampleTarget (stateWith HAL_UART_STATE_BUSY_TX_RX)
        0x20000000 4 8 0x08002000 SERIAL_EVENT_TX_COMPLETE 0).2 = 4
    ∧ serial_rx_active (stateWith HAL_UART_STATE_BUSY_TX_RX) = 1
    ∧ serial_rx_active (serial_tx_asynch sampleTarget (stateWith HAL_UART_STATE_BUSY_TX_RX)
        0x20000000 4 8 0x08002000 SERIAL_EVENT_TX_COMPLETE 0).1 = 0 :=
  ⟨rfl, rfl, rfl⟩

/-- C25, amended: for every prior state of the instance that does not report
both directions active (Reset, Ready, Error, Timeout, Busy-Transmit,
Busy-Receive), a successful start of one direction does not clear the active
indication of the other: after a successful `serial_tx_asynch`,
`serial_tx_active` reports 1 and `serial_rx_active` reports what it reported
before; after a successful `serial_rx_asynch`, `serial_rx_active` reports 1 and
`serial_tx_active` reports what it reported before. -/
theorem start_keeps_other_direction (T : Target) (s : SerialState)
    (buf len width handler event char_match hint : Nat)
    (hbuf : buf ≠ 0) (hlen : 1 ≤ len) (hirq : T.UartIRQs s.obj.serial.module ≠ 0)
    (hst : s.handle.State = HAL_UART_STATE_RESET ∨ s.handle.State = HAL_UART_STATE_READY
      ∨ s.handle.State = HAL_UART_STATE_ERROR ∨ s.handle.State = HAL_UART_STATE_TIMEOUT
      ∨ s.handle.State = HAL_UART_STATE_BUSY_TX ∨ s.handle.State = HAL_UART_STATE_BUSY_RX) :
    (serial_tx_asynch T s buf len width handler event hint).2 = len
    ∧ serial_tx_active (serial_tx_asynch T s buf len width handler event hint).1 = 1
    ∧ serial_rx_active (serial_tx_asynch T s buf len width handler event hint).1
        = serial_rx_active s
    ∧ serial_rx_active (serial_rx_asynch T s buf len width handler event char_match hint) = 1
    ∧ serial_tx_active (serial_rx_asynch T s buf len width handler event char_match hint)
        = serial_tx_active s := by
  obtain ⟨a1, -, a3, -⟩ := tx_asynch_start T s buf len width handler event hint hbuf hlen hirq
  obtain ⟨b1, -⟩ := rx_asynch_start T s buf len width handler event char_match hint hbuf hlen hirq
  refine ⟨a1, ?_, ?_, ?_, ?_⟩ <;> simp only [serial_tx_active, serial_rx_active]
  · rw [a3]
    rcases hst with h | h | h | h | h | h <;> rw [h] <;> decide
  · rw [a3]
    rcases hst with h | h | h | h | h | h <;> rw [h] <;> decide
  · rw [b1]
    rcases hst with h | h | h | h | h | h <;> rw [h] <;> decide
  · rw [b1]
    rcases hst with h | h | h | h | h | h <;> rw [h] <;> decide

theorem start_keeps_other_direction_witness :
    (serial_tx_asynch sampleTarget (stateWith HAL_UART_STATE_BUSY_RX)
        0x20000000 4 8 0x08002000 SERIAL_EVENT_TX_COMPLETE 0).2 = 4
    ∧ serial_tx_active (serial_tx_asynch sampleTarget (stateWith HAL_UART_STATE_BUSY_RX)
        0x20000000 4 8 0x08002000 SERIAL_EVENT_TX_COMPLETE 0).1 = 1
    ∧ serial_rx_active (serial_tx_asynch sampleTarget (stateWith HAL_UART_STATE_BUSY_RX)
        0x20000000 4 8 0x08002000 SERIAL_EVENT_TX_COMPLETE 0).1
        = serial_rx_active (stateWith HAL_UART_STATE_BUSY_RX)
    ∧ serial_rx_active (serial_rx_asynch sampleTarget (stateWith HAL_UART_STATE_BUSY_RX)
        0x20000000 4 8 0x08002000 SERIAL_EVENT_TX_COMPLETE 255 0) = 1
    ∧ serial_tx_active (serial_rx_asynch sampleTarget (stateWith HAL_UART_STATE_BUSY_RX)
        0x20000000 4 8 0x08002000 SERIAL_EVENT_TX_COMPLETE 255 0)
        = serial_tx_active (stateWith HAL_UART_STATE_BUSY_RX) :=
  start_keeps_other_direction sampleTarget (stateWith HAL_UART_STATE_BUSY_RX)
    0x20000000 4 8 0x08002000 SERIAL_EVENT_TX_COMPLETE 255 0
    (by decide) (by decide) (by decide) (Or.inr (Or.inr (Or.inr (Or.inr (Or.inr rfl)))))

/-! ### Asynchronous transfers, one interrupt service at a time -/

/-- The transmit part of a service, field by field.  It writes the next
element exactly when transmit-register-empty is set and elements remain, and
it completes the transmit exactly when transmit-complete is set, the state has
the transmit bit and no element remains. -/
theorem irq_tx_part_fields (status : Nat) (s : SerialState) (event : Nat) :
    (irq_tx_part status s event).1.handle.TxXferCount
        = (if status &&& USART_ISR_TXE ≠ 0 ∧ s.handle.TxXferCount ≠ 0
           then s.handle.TxXferCount - 1 else s.handle.TxXferCount)
    ∧ (irq_tx_part status s event).1.handle.pTxBuffPtr
        = (if status &&& USART_ISR_TXE ≠ 0 ∧ s.handle.TxXferCount ≠ 0
           then s.handle.pTxBuffPtr + 1 else s.handle.pTxBuffPtr)
    ∧ (irq_tx_part status s event).1.tdrWrites
        = (if status &&& USART_ISR_TXE ≠ 0 ∧ s.handle.TxXferCount ≠ 0
           then s.tdrWrites ++ [s.mem s.handle.pTxBuffPtr % 256] else s.tdrWrites)
    ∧ (irq_tx_part status s event).1.obj.tx_buff.pos
        = (if status &&& USART_ISR_TXE ≠ 0 ∧ s.handle.TxXferCount ≠ 0
           then s.obj.tx_buff.pos + 1 else s.obj.tx_buff.pos)
    ∧ (irq_tx_part status s event).1.handle.State
        = (if status &&& USART_ISR_TC ≠ 0 ∧ s.handle.State &&& 0x10 ≠ 0
              ∧ s.handle.TxXferCount = 0
           then (if s.handle.State = HAL_UART_STATE_BUSY_TX_RX then HAL_UART_STATE_BUSY_RX
                 else HAL_UART_STATE_READY)
           else s.handle.State)
    ∧ (irq_tx_part status s event).2
        = (if status &&& USART_ISR_TC ≠ 0 ∧ s.handle.State &&& 0x10 ≠ 0
              ∧ s.handle.TxXferCount = 0
           then event ||| SERIAL_EVENT_TX_COMPLETE else event) := by
  unfold irq_tx_part
  by_cases h1 : status &&& USART_ISR_TC ≠ 0 ∧ s.handle.State &&& 0x10 ≠ 0
      ∧ s.handle.TxXferCount = 0
  · have hw : ¬ (status &&& USART_ISR_TXE ≠ 0 ∧ s.handle.TxXferCount ≠ 0) :=
      fun h => h.2 h1.2.2
    rw [if_pos h1, if_pos h1, if_pos h1, if_neg hw, if_neg hw, if_neg hw, if_neg hw]
    dsimp only
    split_ifs <;> exact ⟨rfl, rfl, rfl, rfl, rfl, rfl⟩
  · rw [if_neg h1, if_neg h1, if_neg h1]
    by_cases hw : status &&& USART_ISR_TXE ≠ 0 ∧ s.handle.TxXferCount ≠ 0
    · rw [if_pos hw, if_pos hw, if_pos hw, if_pos hw, if_pos hw]
      dsimp only
      split_ifs <;> exact ⟨rfl, rfl, rfl, rfl, rfl, rfl⟩
    · rw [if_neg hw, if_neg hw, if_neg hw, if_neg hw, if_neg hw]
      exact ⟨rfl, rfl, rfl, rfl, rfl, rfl⟩

/-- The receive part of a service, field by field.  It stores the received
byte exactly when receive-not-empty is set and elements remain, and it
completes the receive when the element stored is the last one. -/
theorem irq_rx_part_fields (status data : Nat) (s : SerialState) (event : Nat) :
    (irq_rx_part status data s event).1.handle.RxXferCount
        = (if status &&& USART_ISR_RXNE ≠ 0 ∧ s.handle.RxXferCount ≠ 0
           then s.handle.RxXferCount - 1 else s.handle.RxXferCount)
    ∧ (irq_rx_part status data s event).1.handle.pRxBuffPtr
        = (if status &&& USART_ISR_RXNE ≠ 0 ∧ s.handle.RxXferCount ≠ 0
           then s.handle.pRxBuffPtr + 1 else s.handle.pRxBuffPtr)
    ∧ (irq_rx_part status data s event).1.mem
        = (if status &&& USART_ISR_RXNE ≠ 0 ∧ s.handle.RxXferCount ≠ 0
           then (fun a => if a = s.handle.pRxBuffPtr then data % 256 else s.mem a) else s.mem)
    ∧ (irq_rx_part status data s event).1.handle.State
        = (if (status &&& USART_ISR_RXNE ≠ 0 ∧ s.handle.RxXferCount ≠ 0)
              ∧ s.handle.RxXferCount - 1 = 0
           then (if s.handle.State = HAL_UART_STATE_BUSY_TX_RX then HAL_UART_STATE_BUSY_TX
                 else HAL_UART_STATE_READY)
           else s.handle.State)
    ∧ (irq_rx_part status data s event).1.handle.TxXferCount = s.handle.TxXferCount
    ∧ (irq_rx_part status data s event).1.handle.pTxBuffPtr = s.handle.pTxBuffPtr
    ∧ (irq_rx_part status data s event).1.tdrWrites = s.tdrWrites
    ∧ (irq_rx_part status data s event).1.obj.tx_buff = s.obj.tx_buff
    ∧ (irq_rx_part status data s event).2.testBit 2 = event.testBit 2
    ∧ (irq_rx_part status data s event).2.testBit 8
        = (decide ((status &&& USART_ISR_RXNE ≠ 0 ∧ s.handle.RxXferCount ≠ 0)
              ∧ s.handle.RxXferCount - 1 = 0) || event.testBit 8) := by
  have hcm2 : ∀ e : Nat, (e ||| SERIAL_EVENT_RX_CHARACTER_MATCH).testBit 2 = e.testBit 2 := by
    intro e
    rw [Nat.testBit_or, show SERIAL_EVENT_RX_CHARACTER_MATCH.testBit 2 = false by decide,
      Bool.or_false]
  have hcm8 : ∀ e : Nat, (e ||| SERIAL_EVENT_RX_CHARACTER_MATCH).testBit 8 = e.testBit 8 := by
    intro e
    rw [Nat.testBit_or, show SERIAL_EVENT_RX_CHARACTER_MATCH.testBit 8 = false by decide,
      Bool.or_false]
  have hrc2 : ∀ e : Nat, (e ||| SERIAL_EVENT_RX_COMPLETE).testBit 2 = e.testBit 2 := by
    intro e
    rw [Nat.testBit_or, show SERIAL_EVENT_RX_COMPLETE.testBit 2 = false by decide,
      Bool.or_false]
  have hrc8 : ∀ e : Nat, (e ||| SERIAL_EVENT_RX_COMPLETE).testBit 8 = true := by
    intro e
    rw [Nat.testBit_or, show SERIAL_EVENT_RX_COMPLETE.testBit 8 = true by decide,
      Bool.or_true]
  unfold irq_rx_part
  by_cases hr : status &&& USART_ISR_RXNE ≠ 0 ∧ s.handle.RxXferCount ≠ 0
  · rw [if_pos hr, if_pos hr, if_pos hr, if_pos hr]
    dsimp only
    by_cases h0 : s.handle.RxXferCount - 1 = 0
    · have hc : (status &&& USART_ISR_RXNE ≠ 0 ∧ s.handle.RxXferCount ≠ 0)
          ∧ s.handle.RxXferCount - 1 = 0 := ⟨hr, h0⟩
      rw [if_pos h0, if_pos hc, decide_eq_true hc, Bool.true_or]
      by_cases hs : s.handle.State = HAL_UART_STATE_BUSY_TX_RX
      · rw [if_pos hs, if_pos hs]
        dsimp only
        refine ⟨rfl, rfl, rfl, rfl, rfl, rfl, rfl, rfl, ?_, hrc8 _⟩
        rw [hrc2]
        split_ifs
        · exact hcm2 _
        · rfl
      · rw [if_neg hs, if_neg hs]
        dsimp only
        refine ⟨rfl, rfl, rfl, rfl, rfl, rfl, rfl, rfl, ?_, hrc8 _⟩
        rw [hrc2]
        split_ifs
        · exact hcm2 _
        · rfl
    · have hc : ¬ ((status &&& USART_ISR_RXNE ≠ 0 ∧ s.handle.RxXferCount ≠ 0)
          ∧ s.handle.RxXferCount - 1 = 0) := fun h => h0 h.2
      rw [if_neg h0, if_neg hc, decide_eq_false hc, Bool.false_or]
      dsimp only
      refine ⟨rfl, rfl, rfl, rfl, rfl, rfl, rfl, rfl, ?_, ?_⟩
      · split_ifs
        · exact hcm2 _
        · rfl
      · split_ifs
        · exact hcm8 _
        · rfl
  · have hc : ¬ ((status &&& USART_ISR_RXNE ≠ 0 ∧ s.handle.RxXferCount ≠ 0)
        ∧ s.handle.RxXferCount - 1 = 0) := fun h => hr h.1
    rw [if_neg hr, if_neg hr, if_neg hr, if_neg hr, if_neg hc, decide_eq_false hc, Bool.false_or]
    exact ⟨rfl, rfl, rfl, rfl, rfl, rfl, rfl, rfl, rfl, rfl⟩

theorem irq_error_events_bit2 (status : Nat) : (irq_error_events status).testBit 2 = false := by
  unfold irq_error_events
  dsimp only
  split_ifs <;> decide

theorem irq_error_events_bit8 (status : Nat) : (irq_error_events status).testBit 8 = false := by
  unfold irq_error_events
  dsimp only
  split_ifs <;> decide

/-- The transmit side of one service: the next element is written exactly when
the service finds transmit-register-empty set with elements remaining. -/
theorem service_tx_side (s : SerialState) (status data : Nat) :
    (service s status data).1.handle.TxXferCount
        = (if status &&& USART_ISR_TXE ≠ 0 ∧ s.handle.TxXferCount ≠ 0
           then s.handle.TxXferCount - 1 else s.handle.TxXferCount)
    ∧ (service s status data).1.handle.pTxBuffPtr
        = (if status &&& USART_ISR_TXE ≠ 0 ∧ s.handle.TxXferCount ≠ 0
           then s.handle.pTxBuffPtr + 1 else s.handle.pTxBuffPtr)
    ∧ (service s status data).1.tdrWrites
        = (if status &&& USART_ISR_TXE ≠ 0 ∧ s.handle.TxXferCount ≠ 0
           then s.tdrWrites ++ [s.mem s.handle.pTxBuffPtr % 256] else s.tdrWrites)
    ∧ (service s status data).1.obj.tx_buff.pos
        = (if status &&& USART_ISR_TXE ≠ 0 ∧ s.handle.TxXferCount ≠ 0
           then s.obj.tx_buff.pos + 1 else s.obj.tx_buff.pos) := by
  obtain ⟨t1, t2, t3, t4, -, -⟩ := irq_tx_part_fields status
    { s with regs := { s.regs with ISR := status, RDR := data } } (irq_error_events status)
  obtain ⟨-, -, -, -, r5, r6, r7, r8, -, -⟩ := irq_rx_part_fields status data
    (irq_tx_part status { s with regs := { s.regs with ISR := status, RDR := data } }
      (irq_error_events status)).1
    (irq_tx_part status { s with regs := { s.regs with ISR := status, RDR := data } }
      (irq_error_events status)).2
  refine ⟨r5.trans t1, r6.trans t2, r7.trans t3, ?_⟩
  show (irq_rx_part status data _ _).1.obj.tx_buff.pos = _
  rw [r8]
  exact t4

/-- The receive side of one service: the received byte is stored exactly when
the service finds receive-not-empty set with elements remaining. -/
theorem service_rx_side (s : SerialState) (status data : Nat) :
    (service s status data).1.handle.RxXferCount
        = (if status &&& USART_ISR_RXNE ≠ 0 ∧ s.handle.RxXferCount ≠ 0
           then s.handle.RxXferCount - 1 else s.handle.RxXferCount)
    ∧ (service s status data).1.handle.pRxBuffPtr
        = (if status &&& USART_ISR_RXNE ≠ 0 ∧ s.handle.RxXferCount ≠ 0
           then s.handle.pRxBuffPtr + 1 else s.handle.pRxBuffPtr)
    ∧ (service s status data).1.mem
        = (if status &&& USART_ISR_RXNE ≠ 0 ∧ s.handle.RxXferCount ≠ 0
           then (fun a => if a = s.handle.pRxBuffPtr then data % 256 else s.mem a) else s.mem)
    ∧ (service s status data).1.obj.serial = s.obj.serial := by
  obtain ⟨f1, f2, f3, f4⟩ := irq_tx_part_frame status
    { s with regs := { s.regs with ISR := status, RDR := data } } (irq_error_events status)
  obtain ⟨r1, r2, r3, -⟩ := irq_rx_part_fields status data
    (irq_tx_part status { s with regs := { s.regs with ISR := status, RDR := data } }
      (irq_error_events status)).1
    (irq_tx_part status { s with regs := { s.regs with ISR := status, RDR := data } }
      (irq_error_events status)).2
  obtain ⟨g1, -⟩ := irq_rx_part_event status data
    (irq_tx_part status { s with regs := { s.regs with ISR := status, RDR := data } }
      (irq_error_events status)).1
    (irq_tx_part status { s with regs := { s.regs with ISR := status, RDR := data } }
      (irq_error_events status)).2
  rw [f2] at r1
  rw [f2, f3] at r2
  rw [f2, f3, f4] at r3
  exact ⟨r1, r2, r3, g1.trans f1⟩

/-- The state of the handle after one service: the transmit part drops the
transmit bit when it completes the transmit, then the receive part drops the
receive bit when it stores the last element. -/
theorem service_state (s : SerialState) (status data : Nat) :
    (service s status data).1.handle.State
      = (if (status &&& USART_ISR_RXNE ≠ 0 ∧ s.handle.RxXferCount ≠ 0)
            ∧ s.handle.RxXferCount - 1 = 0
         then
           (if (if status &&& USART_ISR_TC ≠ 0 ∧ s.handle.State &&& 0x10 ≠ 0
                    ∧ s.handle.TxXferCount = 0
                then (if s.handle.State = HAL_UART_STATE_BUSY_TX_RX then HAL_UART_STATE_BUSY_RX
                      else HAL_UART_STATE_READY)
                else s.handle.State) = HAL_UART_STATE_BUSY_TX_RX
            then HAL_UART_STATE_BUSY_TX else HAL_UART_STATE_READY)
         else
           (if status &&& USART_ISR_TC ≠ 0 ∧ s.handle.State &&& 0x10 ≠ 0
                ∧ s.handle.TxXferCount = 0
            then (if s.handle.State = HAL_UART_STATE_BUSY_TX_RX then HAL_UART_STATE_BUSY_RX
                  else HAL_UART_STATE_READY)
            else s.handle.State)) := by
  obtain ⟨-, -, -, -, t5, -⟩ := irq_tx_part_fields status
    { s with regs := { s.regs with ISR := status, RDR := data } } (irq_error_events status)
  obtain ⟨-, f2, -, -⟩ := irq_tx_part_frame status
    { s with regs := { s.regs with ISR := status, RDR := data } } (irq_error_events status)
  obtain ⟨-, -, -, r4, -⟩ := irq_rx_part_fields status data
    (irq_tx_part status { s with regs := { s.regs with ISR := status, RDR := data } }
      (irq_error_events status)).1
    (irq_tx_part status { s with regs := { s.regs with ISR := status, RDR := data } }
      (irq_error_events status)).2
  rw [f2, t5] at r4
  exact r4

/-- The transfer bits of the result of one service: transmit-complete is
reported exactly when it is subscribed and the service completes the transmit,
receive-complete exactly when it is subscribed and the service stores the last
element. -/
theorem service_result_bits (s : SerialState) (status data : Nat) :
    (service s status data).2.testBit 2
        = (decide (status &&& USART_ISR_TC ≠ 0 ∧ s.handle.State &&& 0x10 ≠ 0
              ∧ s.handle.TxXferCount = 0) && s.obj.serial.event.testBit 2)
    ∧ (service s status data).2.testBit 8
        = (decide ((status &&& USART_ISR_RXNE ≠ 0 ∧ s.handle.RxXferCount ≠ 0)
              ∧ s.handle.RxXferCount - 1 = 0) && s.obj.serial.event.testBit 8) := by
  obtain ⟨-, -, -, -, -, t6⟩ := irq_tx_part_fields status
    { s with regs := { s.regs with ISR := status, RDR := data } } (irq_error_events status)
  obtain ⟨f1, f2, -, -⟩ := irq_tx_part_frame status
    { s with regs := { s.regs with ISR := status, RDR := data } } (irq_error_events status)
  obtain ⟨-, -, -, -, -, -, -, -, r9, r10⟩ := irq_rx_part_fields status data
    (irq_tx_part status { s with regs := { s.regs with ISR := status, RDR := data } }
      (irq_error_events status)).1
    (irq_tx_part status { s with regs := { s.regs with ISR := status, RDR := data } }
      (irq_error_events status)).2
  obtain ⟨g1, -⟩ := irq_rx_part_event status data
    (irq_tx_part status { s with regs := { s.regs with ISR := status, RDR := data } }
      (irq_error_events status)).1
    (irq_tx_part status { s with regs := { s.regs with ISR := status, RDR := data } }
      (irq_error_events status)).2
  have hres : (service s status data).2
      = (irq_rx_part status data
          (irq_tx_part status { s with regs := { s.regs with ISR := status, RDR := data } }
            (irq_error_events status)).1
          (irq_tx_part status { s with regs := { s.regs with ISR := status, RDR := data } }
            (irq_error_events status)).2).2 &&& s.obj.serial.event := by
    unfold service serial_irq_handler_asynch
    dsimp only
    rw [g1, f1]
  rw [f2] at r10
  rw [hres, Nat.testBit_and, Nat.testBit_and, r9, r10, t6]
  constructor
  · by_cases h1 : status &&& USART_ISR_TC ≠ 0 ∧ s.handle.State &&& 0x10 ≠ 0
        ∧ s.handle.TxXferCount = 0
    · rw [if_pos h1, decide_eq_true h1, Nat.testBit_or,
        show SERIAL_EVENT_TX_COMPLETE.testBit 2 = true by decide, Bool.or_true]
    · rw [if_neg h1, decide_eq_false h1, irq_error_events_bit2]
  · have h8 : (if status &&& USART_ISR_TC ≠ 0 ∧ s.handle.State &&& 0x10 ≠ 0
          ∧ s.handle.TxXferCount = 0
        then irq_error_events status ||| SERIAL_EVENT_TX_COMPLETE
        else irq_error_events status).testBit 8 = false := by
      split_ifs
      · rw [Nat.testBit_or, irq_error_events_bit8]
        decide
      · exact irq_error_events_bit8 status
    rw [h8, Bool.or_false]

/-! ### Asynchronous transmit from start to completion -/

/-- The remaining transmit count right after a start of at most 65535
elements: the length, less one when the transmit-empty flag was set and the
start wrote the first element itself. -/
theorem tx_asynch_start_count (T : Target) (s : SerialState)
    (tx N tx_width handler event hint : Nat)
    (htx : tx ≠ 0) (hN : 1 ≤ N) (h16 : N < 65536) (hirq : T.UartIRQs s.obj.serial.module ≠ 0) :
    (serial_tx_asynch T s tx N tx_width handler event hint).1.handle.TxXferCount
      = (if HAL_UART_GET_FLAG s.regs UART_FLAG_TXE then N - 1 else N) := by
  obtain ⟨-, a2, -, -⟩ := tx_asynch_start T s tx N tx_width handler event hint htx hN hirq
  rw [a2]
  by_cases hf : HAL_UART_GET_FLAG s.regs UART_FLAG_TXE = true
  · rw [if_pos hf, if_pos hf]
    omega
  · rw [if_neg hf, if_neg hf]
    omega

/-- What a successful start leaves alone or sets, apart from the count and the
state. -/
theorem tx_asynch_start_data (T : Target) (s : SerialState)
    (tx tx_length tx_width handler event hint : Nat)
    (htx : tx ≠ 0) (hlen : 1 ≤ tx_length) (hirq : T.UartIRQs s.obj.serial.module ≠ 0) :
    (serial_tx_asynch T s tx tx_length tx_width handler event hint).1.mem = s.mem
    ∧ (serial_tx_asynch T s tx tx_length tx_width handler event hint).1.handle.pTxBuffPtr
        = (if HAL_UART_GET_FLAG s.regs UART_FLAG_TXE then tx + 1 else tx)
    ∧ (serial_tx_asynch T s tx tx_length tx_width handler event hint).1.tdrWrites
        = (if HAL_UART_GET_FLAG s.regs UART_FLAG_TXE then s.tdrWrites ++ [s.mem tx % 256]
           else s.tdrWrites)
    ∧ (serial_tx_asynch T s tx tx_length tx_width handler event hint).1.obj.tx_buff
        = { buffer := tx, length := tx_length, pos := 0, width := tx_width }
    ∧ (serial_tx_asynch T s tx tx_length tx_width handler event hint).1.handle.RxXferCount
        = s.handle.RxXferCount
    ∧ (serial_tx_asynch T s tx tx_length tx_width handler event hint).1.handle.pRxBuffPtr
        = s.handle.pRxBuffPtr := by
  have hg : (!(decide (tx ≠ 0 ∧ tx_length > 0)) || decide (T.UartIRQs s.obj.serial.module = 0))
      = false := by
    simp [htx, hirq]; omega
  unfold serial_tx_asynch vIRQ_SetVector vIRQ_EnableIRQ
  dsimp only
  rw [hg]
  simp only [Bool.false_eq_true, if_false]
  by_cases hf : HAL_UART_GET_FLAG s.regs UART_FLAG_TXE = true
  · simp only [hf, if_true]
    refine ⟨?_, ?_, ?_, ?_, ?_, ?_⟩ <;> (split_ifs <;> rfl)
  · simp only [hf, Bool.false_eq_true, if_false]
    refine ⟨?_, ?_, ?_, ?_, ?_, ?_⟩ <;> (split_ifs <;> rfl)

/-- The services that find transmit-register-empty set while elements remain,
no receive completing during them: each consumes one element, the state stays
as it is and no result carries the transmit-complete bit. -/
theorem serviceAll_tx_phase (pre : List (Nat × Nat)) (s : SerialState) (c : Nat)
    (hc : s.handle.TxXferCount = pre.length + c)
    (hpre : ∀ rd ∈ pre, rd.1 &&& USART_ISR_TXE ≠ 0)
    (hrx : s.handle.RxXferCount = 0
      ∨ pre.countP (fun rd => decide (rd.1 &&& USART_ISR_RXNE ≠ 0)) < s.handle.RxXferCount) :
    (serviceAll s pre).1.handle.TxXferCount = c
    ∧ (serviceAll s pre).1.handle.State = s.handle.State
    ∧ (serviceAll s pre).1.obj.serial = s.obj.serial
    ∧ (serviceAll s pre).1.handle.RxXferCount
        = s.handle.RxXferCount - pre.countP (fun rd => decide (rd.1 &&& USART_ISR_RXNE ≠ 0))
    ∧ (serviceAll s pre).2.length = pre.length
    ∧ (∀ x ∈ (serviceAll s pre).2, x &&& SERIAL_EVENT_TX_COMPLETE = 0)
    ∧ (serviceAll s pre).1.tdrWrites.length = s.tdrWrites.length + pre.length
    ∧ (serviceAll s pre).1.obj.tx_buff.pos = s.obj.tx_buff.pos + pre.length := by
  induction pre generalizing s with
  | nil =>
    refine ⟨by simpa using hc, rfl, rfl, ?_, rfl, ?_, rfl, rfl⟩
    · simp [serviceAll]
    · simp [serviceAll]
  | cons rd rest ih =>
    have htxe := hpre rd (List.mem_cons_self _ _)
    have hcnt : s.handle.TxXferCount ≠ 0 := by
      rw [hc, List.length_cons]; omega
    obtain ⟨t1, -, t3, t4⟩ := service_tx_side s rd.1 rd.2
    obtain ⟨r1, -, -, r4⟩ := service_rx_side s rd.1 rd.2
    have hst := service_state s rd.1 rd.2
    obtain ⟨b2, -⟩ := service_result_bits s rd.1 rd.2
    have hT1 : ¬ (rd.1 &&& USART_ISR_TC ≠ 0 ∧ s.handle.State &&& 0x10 ≠ 0
        ∧ s.handle.TxXferCount = 0) := fun h => hcnt h.2.2
    rw [if_pos ⟨htxe, hcnt⟩] at t1 t3 t4
    rw [decide_eq_false hT1, Bool.false_and] at b2
    rw [List.countP_cons] at hrx ⊢
    have hdone : ¬ ((rd.1 &&& USART_ISR_RXNE ≠ 0 ∧ s.handle.RxXferCount ≠ 0)
        ∧ s.handle.RxXferCount - 1 = 0) := by
      rintro ⟨⟨h1, h2⟩, h3⟩
      rcases hrx with h | h
      · exact h2 h
      · rw [if_pos (decide_eq_true h1)] at h
        omega
    rw [if_neg hdone, if_neg hT1] at hst
    have hrx' : (service s rd.1 rd.2).1.handle.RxXferCount = 0
        ∨ rest.countP (fun rd => decide (rd.1 &&& USART_ISR_RXNE ≠ 0))
            < (service s rd.1 rd.2).1.handle.RxXferCount := by
      rw [r1]
      by_cases h1 : rd.1 &&& USART_ISR_RXNE ≠ 0
      · rw [if_pos (decide_eq_true h1)] at hrx
        rcases hrx with h | h
        · left
          rw [h]
          split_ifs <;> rfl
        · right
          rw [if_pos ⟨h1, by omega⟩]
          omega
      · rw [if_neg (show ¬ (decide (rd.1 &&& USART_ISR_RXNE ≠ 0) = true) by simpa using h1)]
          at hrx
        rw [if_neg (fun h => h1 h.1)]
        rcases hrx with h | h
        · exact Or.inl h
        · exact Or.inr (by omega)
    obtain ⟨j1, j2, j3, j4, j5, j6, j7, j8⟩ := ih (service s rd.1 rd.2).1
      (by rw [t1, hc, List.length_cons]; omega)
      (fun x hx => hpre x (List.mem_cons_of_mem _ hx)) hrx'
    refine ⟨j1, j2.trans hst, j3.trans r4, ?_, ?_, ?_, ?_, ?_⟩
    · show (serviceAll (service s rd.1 rd.2).1 rest).1.handle.RxXferCount = _
      rw [j4, r1]
      by_cases h1 : rd.1 &&& USART_ISR_RXNE ≠ 0
      · rw [if_pos (decide_eq_true h1)]
        split_ifs <;> omega
      · rw [if_neg (fun h => h1 h.1),
          if_neg (show ¬ (decide (rd.1 &&& USART_ISR_RXNE ≠ 0) = true) by simpa using h1)]
        omega
    · show ((service s rd.1 rd.2).2 :: (serviceAll (service s rd.1 rd.2).1 rest).2).length = _
      rw [List.length_cons, j5, List.length_cons]
    · intro x hx
      have hx' : x ∈ (service s rd.1 rd.2).2 :: (serviceAll (service s rd.1 rd.2).1 rest).2 := hx
      rcases List.mem_cons.1 hx' with h | h
      · rw [h]
        exact (and_two_pow_eq_zero _ 2).2 b2
      · exact j6 x h
    · show (serviceAll (service s rd.1 rd.2).1 rest).1.tdrWrites.length = _
      rw [j7, t3, List.length_append, List.length_singleton, List.length_cons]
      omega
    · show (serviceAll (service s rd.1 rd.2).1 rest).1.obj.tx_buff.pos = _
      rw [j8, t4, List.length_cons]
      omega

/-- The service that completes a transmit: it finds transmit-complete set with
no element remaining and the transmit bit in the state, and does not store the
last element of a receive.  It writes nothing, drops the transmit bit of the
state and reports transmit-complete when that event is subscribed. -/
theorem service_completes_tx (s : SerialState) (status data : Nat)
    (hc : s.handle.TxXferCount = 0) (htc : status &&& USART_ISR_TC ≠ 0)
    (hst : s.handle.State = HAL_UART_STATE_BUSY_TX ∨ s.handle.State = HAL_UART_STATE_BUSY_TX_RX)
    (hrx : ¬ ((status &&& USART_ISR_RXNE ≠ 0 ∧ s.handle.RxXferCount ≠ 0)
        ∧ s.handle.RxXferCount - 1 = 0)) :
    (service s status data).1.handle.State
        = (if s.handle.State = HAL_UART_STATE_BUSY_TX_RX then HAL_UART_STATE_BUSY_RX
           else HAL_UART_STATE_READY)
    ∧ (service s status data).2.testBit 2 = s.obj.serial.event.testBit 2
    ∧ (service s status data).1.tdrWrites = s.tdrWrites
    ∧ (service s status data).1.obj.tx_buff.pos = s.obj.tx_buff.pos
    ∧ (service s status data).1.handle.TxXferCount = 0 := by
  have h10 : s.handle.State &&& 0x10 ≠ 0 := by
    rcases hst with h | h <;> rw [h] <;> decide
  obtain ⟨t1, -, t3, t4⟩ := service_tx_side s status data
  have hs := service_state s status data
  obtain ⟨b2, -⟩ := service_result_bits s status data
  have hw : ¬ (status &&& USART_ISR_TXE ≠ 0 ∧ s.handle.TxXferCount ≠ 0) := fun h => h.2 hc
  rw [if_neg hw] at t1 t3 t4
  rw [if_neg hrx, if_pos ⟨htc, h10, hc⟩] at hs
  rw [decide_eq_true (show _ ∧ _ ∧ _ from ⟨htc, h10, hc⟩), Bool.true_and] at b2
  exact ⟨hs, b2, t3, t4, t1.trans hc⟩

/-- C6, as stated, fails: a one-element transmit started from Ready while the
transmit-empty flag is clear has its element consumed by the first service,
which finds transmit-register-empty (and transmit-complete) set; after that
one call the state is Busy-Transmit, not Ready, and the result carries no
transmit-complete bit. -/
theorem tx_async_not_complete_after_N_services :
    (serviceAll
        (serial_tx_asynch sampleTarget (stateWith HAL_UART_STATE_READY)
          0x20000000 1 8 0x08002000 SERIAL_EVENT_TX_COMPLETE 0).1
        [(USART_ISR_TXE ||| USART_ISR_TC, 0)]).1.handle.State = HAL_UART_STATE_BUSY_TX
    ∧ (serviceAll
        (serial_tx_asynch sampleTarget (stateWith HAL_UART_STATE_READY)
          0x20000000 1 8 0x08002000 SERIAL_EVENT_TX_COMPLETE 0).1
        [(USART_ISR_TXE ||| USART_ISR_TC, 0)]).2 = [0]
    ∧ (serviceAll
        (serial_tx_asynch sampleTarget (stateWith HAL_UART_STATE_READY)
          0x20000000 1 8 0x08002000 SERIAL_EVENT_TX_COMPLETE 0).1
        [(USART_ISR_TXE ||| USART_ISR_TC, 0)]).1.tdrWrites.length = 1 :=
  ⟨rfl, rfl, rfl⟩

/-- C6, why the amended claim stops at 65535 elements: the remaining count is
a 16-bit value, so a transmit of 65536 elements started from Ready while the
transmit-empty flag is clear has nothing remaining from the start; the first
service, finding transmit-complete set, reports transmit-complete and returns
the state to Ready with nothing written. -/
theorem tx_async_65536_completes_at_once :
    (serviceAll
        (serial_tx_asynch sampleTarget (stateWith HAL_UART_STATE_READY)
          0x20000000 65536 8 0x08002000 SERIAL_EVENT_TX_COMPLETE 0).1
        [(USART_ISR_TC, 0)]).2 = [SERIAL_EVENT_TX_COMPLETE]
    ∧ (serviceAll
        (serial_tx_asynch sampleTarget (stateWith HAL_UART_STATE_READY)
          0x20000000 65536 8 0x08002000 SERIAL_EVENT_TX_COMPLETE 0).1
        [(USART_ISR_TC, 0)]).1.handle.State = HAL_UART_STATE_READY
    ∧ (serviceAll
        (serial_tx_asynch sampleTarget (stateWith HAL_UART_STATE_READY)
          0x20000000 65536 8 0x08002000 SERIAL_EVENT_TX_COMPLETE 0).1
        [(USART_ISR_TC, 0)]).1.tdrWrites = [] :=
  ⟨rfl, rfl, rfl⟩

/-- C6, why the amended claim excludes a receive that completes during the
calls: a one-element transmit started from Busy-Receive with one element of
the receive outstanding, the transmit-empty flag set, is completed by a
service that finds transmit-complete and receive-not-empty set; that service
stores the last received element too, and the state ends at Ready, not at
Busy-Receive. -/
theorem tx_async_receive_completes_meanwhile :
    (serviceAll
        (serial_tx_asynch sampleTarget
          { duplexState true with
            handle := { (duplexState true).handle with RxXferCount := 1 } }
          0x20000000 1 8 0x08002000 SERIAL_EVENT_TX_COMPLETE 0).1
        [(USART_ISR_TC ||| USART_ISR_RXNE, 0x41)]).1.handle.State = HAL_UART_STATE_READY
    ∧ (duplexState true).handle.State = HAL_UART_STATE_BUSY_RX :=
  ⟨rfl, rfl⟩

/-- C6, amended: for every N from 1 to 65535 (the remaining count is a 16-bit
value), after `serial_tx_asynch` of an N-element buffer with the
transmit-complete event subscribed, started from Ready or from Busy-Receive,
let the services that follow each find transmit-register-empty set while
elements remain and let one more find transmit-complete set, no receive
completing during these calls (the receive count is zero, or it exceeds the
number of the calls that find receive-not-empty set).  The services with
elements remaining are N - 1 when the transmit-empty flag was set at the start
(the first element is then written by the start itself) and N when it was
clear, so the transfer completes on call N in the first case and on call N + 1
in the second.  After the completing call the state is the one the transmit
was started from (Ready or Busy-Receive), and the transmit-complete bit is in
the result of that call and of no earlier call. -/
theorem tx_async_completes (T : Target) (s : SerialState)
    (tx N tx_width handler event hint : Nat) (pre : List (Nat × Nat)) (last : Nat × Nat)
    (htx : tx ≠ 0) (hN : 1 ≤ N) (h16 : N < 65536) (hirq : T.UartIRQs s.obj.serial.module ≠ 0)
    (hev : event &&& SERIAL_EVENT_TX_COMPLETE ≠ 0)
    (hst : s.handle.State = HAL_UART_STATE_READY ∨ s.handle.State = HAL_UART_STATE_BUSY_RX)
    (hlen : pre.length = if HAL_UART_GET_FLAG s.regs UART_FLAG_TXE then N - 1 else N)
    (hpre : ∀ rd ∈ pre, rd.1 &&& USART_ISR_TXE ≠ 0)
    (hlast : last.1 &&& USART_ISR_TC ≠ 0)
    (hrx : s.handle.RxXferCount = 0
      ∨ (pre ++ [last]).countP (fun rd => decide (rd.1 &&& USART_ISR_RXNE ≠ 0))
          < s.handle.RxXferCount) :
    (serviceAll (serial_tx_asynch T s tx N tx_width handler event hint).1
        (pre ++ [last])).1.handle.State = s.handle.State
    ∧ ∃ evs e,
        (serviceAll (serial_tx_asynch T s tx N tx_width handler event hint).1
          (pre ++ [last])).2 = evs ++ [e]
        ∧ evs.length = pre.length
        ∧ (∀ x ∈ evs, x &&& SERIAL_EVENT_TX_COMPLETE = 0)
        ∧ e &&& SERIAL_EVENT_TX_COMPLETE ≠ 0 := by
  obtain ⟨_, -, a3, a4⟩ := tx_asynch_start T s tx N tx_width handler event hint htx hN hirq
  have a2 := tx_asynch_start_count T s tx N tx_width handler event hint htx hN h16 hirq
  obtain ⟨-, -, -, -, m5, -⟩ :=
    tx_asynch_start_data T s tx N tx_width handler event hint htx hN hirq
  rw [List.countP_append] at hrx
  obtain ⟨b1, b2, b3, b4, b5, b6, -, -⟩ := serviceAll_tx_phase pre
    (serial_tx_asynch T s tx N tx_width handler event hint).1 0
    (by rw [a2, hlen, Nat.add_zero])
    hpre
    (by rw [m5]; rcases hrx with h | h
        · exact Or.inl h
        · exact Or.inr (by omega))
  have hsub : (serviceAll (serial_tx_asynch T s tx N tx_width handler event hint).1
      pre).1.obj.serial.event.testBit 2 = true := by
    have he : event.testBit 2 = true := (and_two_pow_ne_zero _ 2).1 hev
    rw [b3, a4, Nat.testBit_or, Nat.testBit_and, he]
    simp only [SERIAL_EVENT_TX_MASK, Bool.true_and, Bool.or_eq_true]
    right
    decide
  have hbusy : (serviceAll (serial_tx_asynch T s tx N tx_width handler event hint).1
        pre).1.handle.State = HAL_UART_STATE_BUSY_TX
      ∨ (serviceAll (serial_tx_asynch T s tx N tx_width handler event hint).1
        pre).1.handle.State = HAL_UART_STATE_BUSY_TX_RX := by
    rw [b2, a3]
    rcases hst with h | h <;> rw [h]
    · exact Or.inl rfl
    · exact Or.inr rfl
  have hnot : ¬ ((last.1 &&& USART_ISR_RXNE ≠ 0
        ∧ (serviceAll (serial_tx_asynch T s tx N tx_width handler event hint).1
            pre).1.handle.RxXferCount ≠ 0)
      ∧ (serviceAll (serial_tx_asynch T s tx N tx_width handler event hint).1
            pre).1.handle.RxXferCount - 1 = 0) := by
    rw [b4, m5]
    rintro ⟨⟨h1, h2⟩, h3⟩
    rcases hrx with h | h
    · rw [h] at h2
      exact h2 (Nat.zero_sub _)
    · simp only [List.countP_cons, List.countP_nil, decide_eq_true h1, if_true] at h
      omega
  obtain ⟨c1, c2, -, -, -⟩ := service_completes_tx _ last.1 last.2 b1 hlast hbusy hnot
  rw [serviceAll_append]
  refine ⟨?_, _, _, rfl, b5, b6, ?_⟩
  · show (service _ last.1 last.2).1.handle.State = _
    rw [c1, b2, a3]
    rcases hst with h | h <;> rw [h] <;> rfl
  · show _ &&& 2 ^ 2 ≠ 0
    rw [and_two_pow_ne_zero]
    show (service _ last.1 last.2).2.testBit 2 = true
    rw [c2, hsub]

theorem tx_async_completes_witness :
    (serviceAll (serial_tx_asynch sampleTarget (duplexState true)
          0x20000000 2 8 0x08002000 SERIAL_EVENT_TX_COMPLETE 0).1
        ([(USART_ISR_TXE ||| USART_ISR_RXNE, 0x41)]
          ++ [(USART_ISR_TC ||| USART_ISR_RXNE, 0x42)])).1.handle.State
      = (duplexState true).handle.State
    ∧ ∃ evs e,
        (serviceAll (serial_tx_asynch sampleTarget (duplexState true)
          0x20000000 2 8 0x08002000 SERIAL_EVENT_TX_COMPLETE 0).1
          ([(USART_ISR_TXE ||| USART_ISR_RXNE, 0x41)]
            ++ [(USART_ISR_TC ||| USART_ISR_RXNE, 0x42)])).2 = evs ++ [e]
        ∧ evs.length = [(USART_ISR_TXE ||| USART_ISR_RXNE, 0x41)].length
        ∧ (∀ x ∈ evs, x &&& SERIAL_EVENT_TX_COMPLETE = 0)
        ∧ e &&& SERIAL_EVENT_TX_COMPLETE ≠ 0 :=
  tx_async_completes sampleTarget (duplexState true)
    0x20000000 2 8 0x08002000 SERIAL_EVENT_TX_COMPLETE 0
    [(USART_ISR_TXE ||| USART_ISR_RXNE, 0x41)] (USART_ISR_TC ||| USART_ISR_RXNE, 0x42)
    (by decide) (by decide) (by decide) (by decide) (by decide) (Or.inr rfl) (by decide)
    (by decide) (by decide) (Or.inr (by decide))

/-- C22, the code at the failing input: when the transmit-empty flag is set at
the start, `serial_tx_asynch` writes the first element to the transmit data
register and leaves the position at 0, so the position stays one behind the
number of elements written; at the completion of an N-element transfer, N at
most 65535, all N elements have been written and the position is N - 1. -/
theorem tx_eager_write_not_counted (T : Target) (s : SerialState)
    (tx N tx_width handler event hint : Nat) (pre : List (Nat × Nat)) (last : Nat × Nat)
    (htx : tx ≠ 0) (hN : 1 ≤ N) (h16 : N < 65536) (hirq : T.UartIRQs s.obj.serial.module ≠ 0)
    (heager : HAL_UART_GET_FLAG s.regs UART_FLAG_TXE = true)
    (hlen : pre.length = N - 1)
    (hpre : ∀ rd ∈ pre, rd.1 &&& USART_ISR_TXE ≠ 0 ∧ rd.1 &&& USART_ISR_RXNE = 0)
    (hlast : last.1 &&& USART_ISR_TC ≠ 0 ∧ last.1 &&& USART_ISR_RXNE = 0) :
    (serial_tx_asynch T s tx N tx_width handler event hint).1.tdrWrites
      = s.tdrWrites ++ [s.mem tx % 256]
    ∧ (serial_tx_asynch T s tx N tx_width handler event hint).1.obj.tx_buff.pos = 0
    ∧ (serviceAll (serial_tx_asynch T s tx N tx_width handler event hint).1
        (pre ++ [last])).1.tdrWrites.length = s.tdrWrites.length + N
    ∧ (serviceAll (serial_tx_asynch T s tx N tx_width handler event hint).1
        (pre ++ [last])).1.obj.tx_buff.pos = N - 1 := by
  obtain ⟨_, -, a3, -⟩ := tx_asynch_start T s tx N tx_width handler event hint htx hN hirq
  have a2 := tx_asynch_start_count T s tx N tx_width handler event hint htx hN h16 hirq
  obtain ⟨-, -, m3, m4, -, -⟩ :=
    tx_asynch_start_data T s tx N tx_width handler event hint htx hN hirq
  have hcount : pre.countP (fun rd => decide (rd.1 &&& USART_ISR_RXNE ≠ 0)) = 0 := by
    rw [List.countP_eq_zero]
    intro rd hrd
    simp [(hpre rd hrd).2]
  obtain ⟨b1, b2, -, -, -, -, b7, b8⟩ := serviceAll_tx_phase pre
    (serial_tx_asynch T s tx N tx_width handler event hint).1 0
    (by rw [a2, if_pos heager, hlen, Nat.add_zero])
    (fun rd hrd => (hpre rd hrd).1)
    (by rw [hcount]; omega)
  have hbusy : (serviceAll (serial_tx_asynch T s tx N tx_width handler event hint).1
        pre).1.handle.State = HAL_UART_STATE_BUSY_TX
      ∨ (serviceAll (serial_tx_asynch T s tx N tx_width handler event hint).1
        pre).1.handle.State = HAL_UART_STATE_BUSY_TX_RX := by
    rw [b2, a3]
    split_ifs
    · exact Or.inr rfl
    · exact Or.inl rfl
  obtain ⟨-, -, c3, c4, -⟩ := service_completes_tx _ last.1 last.2 b1 hlast.1 hbusy
    (fun h => h.1.1 hlast.2)
  rw [serviceAll_append]
  refine ⟨by rw [m3, if_pos heager], by rw [m4], ?_, ?_⟩
  · show (service _ last.1 last.2).1.tdrWrites.length = _
    rw [c3, b7, m3, if_pos heager, List.length_append, List.length_singleton, hlen]
    omega
  · show (service _ last.1 last.2).1.obj.tx_buff.pos = _
    rw [c4, b8, m4, hlen]
    simp

theorem tx_eager_write_not_counted_witness :
    (serial_tx_asynch sampleTarget
        { stateWith HAL_UART_STATE_READY with
          regs := { resetState.regs with ISR := USART_ISR_TXE } }
        0x20000000 2 8 0x08002000 SERIAL_EVENT_TX_COMPLETE 0).1.tdrWrites
      = ({ stateWith HAL_UART_STATE_READY with
          regs := { resetState.regs with ISR := USART_ISR_TXE } } : SerialState).tdrWrites
        ++ [({ stateWith HAL_UART_STATE_READY with
          regs := { resetState.regs with ISR := USART_ISR_TXE } } : SerialState).mem 0x20000000
            % 256]
    ∧ (serial_tx_asynch sampleTarget
        { stateWith HAL_UART_STATE_READY with
          regs := { resetState.regs with ISR := USART_ISR_TXE } }
        0x20000000 2 8 0x08002000 SERIAL_EVENT_TX_COMPLETE 0).1.obj.tx_buff.pos = 0
    ∧ (serviceAll (serial_tx_asynch sampleTarget
        { stateWith HAL_UART_STATE_READY with
          regs := { resetState.regs with ISR := USART_ISR_TXE } }
        0x20000000 2 8 0x08002000 SERIAL_EVENT_TX_COMPLETE 0).1
        ([(USART_ISR_TXE, 0)] ++ [(USART_ISR_TC, 0)])).1.tdrWrites.length
      = ({ stateWith HAL_UART_STATE_READY with
          regs := { resetState.regs with ISR := USART_ISR_TXE } } : SerialState).tdrWrites.length
        + 2
    ∧ (serviceAll (serial_tx_asynch sampleTarget
        { stateWith HAL_UART_STATE_READY with
          regs := { resetState.regs with ISR := USART_ISR_TXE } }
        0x20000000 2 8 0x08002000 SERIAL_EVENT_TX_COMPLETE 0).1
        ([(USART_ISR_TXE, 0)] ++ [(USART_ISR_TC, 0)])).1.obj.tx_buff.pos = 2 - 1 :=
  tx_eager_write_not_counted sampleTarget
    { stateWith HAL_UART_STATE_READY with regs := { resetState.regs with ISR := USART_ISR_TXE } }
    0x20000000 2 8 0x08002000 SERIAL_EVENT_TX_COMPLETE 0 [(USART_ISR_TXE, 0)] (USART_ISR_TC, 0)
    (by decide) (by decide) (by decide) (by decide) rfl rfl (by decide) (by decide)

/-! ### What an asynchronous transmit writes -/

theorem readBuffer_congr (mem mem' : Nat → Nat) (a n : Nat)
    (h : ∀ x, a ≤ x → x < a + n → mem' x = mem x) :
    readBuffer mem' a n = readBuffer mem a n := by
  induction n generalizing a with
  | zero => rfl
  | succ n ih =>
    simp only [readBuffer]
    rw [h a (Nat.le_refl _) (by omega), ih (a + 1) (fun x h1 h2 => h x (by omega) (by omega))]

theorem readBuffer_snoc (mem : Nat → Nat) (a n : Nat) :
    readBuffer mem a (n + 1) = readBuffer mem a n ++ [mem (a + n)] := by
  induction n generalizing a with
  | zero => rfl
  | succ n ih =>
    show mem a :: readBuffer mem (a + 1) (n + 1) = mem a :: readBuffer mem (a + 1) n ++ _
    rw [ih (a + 1)]
    simp only [List.cons_append, List.cons.injEq, true_and, List.append_cancel_left_eq,
      List.cons.injEq, and_true]
    congr 1
    omega

/-- C23, the wrap of the unguarded decrement: a transmit of 65536 bytes
started while the transmit-empty flag is set writes the first byte and takes
the remaining count from 0 to 65535. -/
theorem tx_async_65536_eager_wraps :
    (serial_tx_asynch sampleTarget (sendingState true)
        0x20000000 65536 8 0x08002000 SERIAL_EVENT_TX_COMPLETE 0).1.handle.TxXferCount = 65535
    ∧ (serial_tx_asynch sampleTarget (sendingState true)
        0x20000000 65536 8 0x08002000 SERIAL_EVENT_TX_COMPLETE 0).1.tdrWrites = [0x48] :=
  ⟨rfl, rfl⟩

/-- C23, why the amended claim keeps a receive in progress out of the buffer:
with the next received byte due at the second byte of the transmit buffer, the
first service writes b[0] and then stores the received byte 0x7F over b[1],
so the second service writes 0x7F where the buffer held 0x69 at the start. -/
theorem tx_async_overlapping_receive_changes_bytes :
    readBuffer (duplexState false).mem 0x20000000 3 = [0x48, 0x69, 0x21]
    ∧ (serviceAll
        (serial_tx_asynch sampleTarget
          { duplexState false with
            handle := { (duplexState false).handle with pRxBuffPtr := 0x20000001 } }
          0x20000000 3 8 0x08002000 SERIAL_EVENT_TX_COMPLETE 0).1
        [(USART_ISR_TXE ||| USART_ISR_RXNE, 0x7F), (USART_ISR_TXE, 0),
          (USART_ISR_TXE, 0)]).1.tdrWrites = [0x48, 0x7F, 0x21] :=
  ⟨rfl, rfl⟩

theorem irq_tx_part_frame_rx (status : Nat) (s : SerialState) (event : Nat) :
    (irq_tx_part status s event).1.obj.rx_buff = s.obj.rx_buff
    ∧ (irq_tx_part status s event).1.regs.CR3 = s.regs.CR3
    ∧ ((status &&& USART_ISR_TC = 0 ∨ s.handle.State &&& 0x10 = 0)
        → (irq_tx_part status s event).1.handle.State = s.handle.State) := by
  unfold irq_tx_part
  dsimp only
  by_cases h1 : status &&& USART_ISR_TC ≠ 0 ∧ s.handle.State &&& 0x10 ≠ 0
      ∧ s.handle.TxXferCount = 0
  · rw [if_pos h1]
    refine ⟨by split_ifs <;> rfl, by split_ifs <;> rfl, ?_⟩
    intro h
    rcases h with h | h
    · exact absurd h h1.1
    · exact absurd h h1.2.1
  · rw [if_neg h1]
    split_ifs <;> exact ⟨rfl, rfl, fun _ => rfl⟩

theorem irq_rx_part_step (status data : Nat) (s : SerialState) (event c : Nat)
    (hrx : status &&& USART_ISR_RXNE ≠ 0) (hc : s.handle.RxXferCount = c + 1) :
    (irq_rx_part status data s event).1.handle.pRxBuffPtr = s.handle.pRxBuffPtr + 1
    ∧ (irq_rx_part status data s event).1.mem
        = (fun a => if a = s.handle.pRxBuffPtr then data % 256 else s.mem a)
    ∧ (irq_rx_part status data s event).1.obj.rx_buff.pos = s.obj.rx_buff.pos + 1
    ∧ (c ≠ 0 → (irq_rx_part status data s event).1.handle.State = s.handle.State
        ∧ (irq_rx_part status data s event).2.testBit 8 = event.testBit 8)
    ∧ (c = 0 →
        (irq_rx_part status data s event).1.handle.State
          = (if s.handle.State = HAL_UART_STATE_BUSY_TX_RX then HAL_UART_STATE_BUSY_TX
             else HAL_UART_STATE_READY)
        ∧ (irq_rx_part status data s event).2.testBit 8 = true
        ∧ (irq_rx_part status data s event).1.regs.CR1
            = clearBits s.regs.CR1 (USART_CR1_RXNEIE ||| USART_CR1_PEIE)
        ∧ (irq_rx_part status data s event).1.regs.CR3
            = clearBits s.regs.CR3 USART_CR3_EIE) := by
  have hcm : ∀ e : Nat, (e ||| SERIAL_EVENT_RX_CHARACTER_MATCH).testBit 8 = e.testBit 8 := by
    intro e
    rw [Nat.testBit_or]
    have : SERIAL_EVENT_RX_CHARACTER_MATCH.testBit 8 = false := by decide
    rw [this, Bool.or_false]
  have hrc : ∀ e : Nat, (e ||| SERIAL_EVENT_RX_COMPLETE).testBit 8 = true := by
    intro e
    rw [Nat.testBit_or]
    have : SERIAL_EVENT_RX_COMPLETE.testBit 8 = true := by decide
    rw [this, Bool.or_true]
  unfold irq_rx_part
  rw [if_pos ⟨hrx, by simp [hc]⟩]
  simp only [hc, Nat.add_sub_cancel]
  by_cases h0 : c = 0
  · simp only [h0, if_true]
    by_cases hs : s.handle.State = HAL_UART_STATE_BUSY_TX_RX <;>
      by_cases hm : s.obj.serial.char_match ≠ SERIAL_RESERVED_CHAR_MATCH
          ∧ data % 256 = s.obj.serial.char_match <;>
      simp only [hs, hm, if_true, if_false] <;>
      exact ⟨trivial, trivial, trivial, fun h => absurd rfl h,
        fun _ => ⟨trivial, hrc _, trivial, trivial⟩⟩
  · simp only [h0, if_false]
    by_cases hm : s.obj.serial.char_match ≠ SERIAL_RESERVED_CHAR_MATCH
        ∧ data % 256 = s.obj.serial.char_match
    · simp only [hm, if_true]
      refine ⟨trivial, trivial, trivial, fun _ => ⟨trivial, ?_⟩, fun h => h.elim⟩
      rw [if_pos ⟨hm.1, trivial⟩]
      exact hcm _
    · simp only [hm, if_false]
      exact ⟨trivial, trivial, trivial, fun _ => ⟨trivial, trivial⟩, fun h => h.elim⟩

/-- One service that stores a received byte, with `c` elements remaining after
it. -/
theorem service_rx_step (s : SerialState) (status data c : Nat)
    (hrx : status &&& USART_ISR_RXNE ≠ 0) (hc : s.handle.RxXferCount = c + 1) :
    (service s status data).1.handle.RxXferCount = c
    ∧ (service s status data).1.obj.serial = s.obj.serial
    ∧ (service s status data).1.handle.pRxBuffPtr = s.handle.pRxBuffPtr + 1
    ∧ (service s status data).1.mem
        = (fun a => if a = s.handle.pRxBuffPtr then data % 256 else s.mem a)
    ∧ (service s status data).1.obj.rx_buff.pos = s.obj.rx_buff.pos + 1
    ∧ (c ≠ 0 → (service s status data).2.testBit 8 = false
        ∧ ((status &&& USART_ISR_TC = 0 ∨ s.handle.State &&& 0x10 = 0)
            → (service s status data).1.handle.State = s.handle.State))
    ∧ (c = 0 → (service s status data).2.testBit 8 = s.obj.serial.event.testBit 8
        ∧ ((service s status data).1.handle.State = HAL_UART_STATE_READY
            ∨ (service s status data).1.handle.State = HAL_UART_STATE_BUSY_TX)
        ∧ ((status &&& USART_ISR_TC = 0 ∨ s.handle.State &&& 0x10 = 0)
            → (service s status data).1.handle.State
                = (if s.handle.State = HAL_UART_STATE_BUSY_TX_RX then HAL_UART_STATE_BUSY_TX
                   else HAL_UART_STATE_READY))
        ∧ (service s status data).1.regs.CR1 &&& USART_CR1_RXNEIE = 0
        ∧ (service s status data).1.regs.CR1 &&& USART_CR1_PEIE = 0
        ∧ (service s status data).1.regs.CR3 &&& USART_CR3_EIE = 0) := by
  obtain ⟨k1, k2, -, -⟩ := service_rx s status data c hrx hc
  obtain ⟨t, ht, et⟩ := irq_tx_part_event status
    { s with regs := { s.regs with ISR := status, RDR := data } } (irq_error_events status)
  obtain ⟨f1, f2, f3, f4⟩ := irq_tx_part_frame status
    { s with regs := { s.regs with ISR := status, RDR := data } } (irq_error_events status)
  obtain ⟨g1, g2, g3⟩ := irq_tx_part_frame_rx status
    { s with regs := { s.regs with ISR := status, RDR := data } } (irq_error_events status)
  obtain ⟨q1, -⟩ := irq_rx_part_event status data
    (irq_tx_part status { s with regs := { s.regs with ISR := status, RDR := data } }
      (irq_error_events status)).1
    (irq_tx_part status { s with regs := { s.regs with ISR := status, RDR := data } }
      (irq_error_events status)).2
  obtain ⟨p1, p2, p3, p4, p5⟩ := irq_rx_part_step status data
    (irq_tx_part status { s with regs := { s.regs with ISR := status, RDR := data } }
      (irq_error_events status)).1
    (irq_tx_part status { s with regs := { s.regs with ISR := status, RDR := data } }
      (irq_error_events status)).2 c hrx (f2.trans hc)
  have e8 : (irq_tx_part status { s with regs := { s.regs with ISR := status, RDR := data } }
      (irq_error_events status)).2.testBit 8 = false := by
    rw [et, Nat.testBit_or, irq_error_events_bit8]
    rcases ht with rfl | rfl <;> decide
  have hres : (service s status data).2
      = (irq_rx_part status data
          (irq_tx_part status { s with regs := { s.regs with ISR := status, RDR := data } }
            (irq_error_events status)).1
          (irq_tx_part status { s with regs := { s.regs with ISR := status, RDR := data } }
            (irq_error_events status)).2).2 &&& s.obj.serial.event := by
    unfold service serial_irq_handler_asynch
    dsimp only
    rw [q1, f1]
  have hst : (service s status data).1
      = (irq_rx_part status data
          (irq_tx_part status { s with regs := { s.regs with ISR := status, RDR := data } }
            (irq_error_events status)).1
          (irq_tx_part status { s with regs := { s.regs with ISR := status, RDR := data } }
            (irq_error_events status)).2).1 := rfl
  refine ⟨k1, k2, ?_, ?_, ?_, ?_, ?_⟩
  · rw [hst, p1, f3]
  · rw [hst, p2, f3, f4]
  · rw [hst, p3, g1]
  · intro h0
    obtain ⟨n1, n2⟩ := p4 h0
    refine ⟨?_, fun hn => ?_⟩
    · rw [hres, Nat.testBit_and, n2, e8, Bool.false_and]
    · rw [hst, n1]
      exact g3 hn
  · intro h0
    obtain ⟨n1, n2, n3, n4⟩ := p5 h0
    refine ⟨?_, ?_, fun hn => ?_, ?_, ?_, ?_⟩
    · rw [hres, Nat.testBit_and, n2, Bool.true_and]
    · rw [hst, n1]
      split_ifs
      · exact Or.inr rfl
      · exact Or.inl rfl
    · rw [hst, n1, g3 hn]
    · rw [hst, n3, clearBits]
      exact (and_and_const _ _ _ 0 (by decide)).trans (Nat.and_zero _)
    · rw [hst, n3, clearBits]
      exact (and_and_const _ _ _ 0 (by decide)).trans (Nat.and_zero _)
    · rw [hst, n4, clearBits]
      exact (and_and_const _ _ _ 0 (by decide)).trans (Nat.and_zero _)

/-- A run of services that each store a received byte, on a receive with more
elements remaining than the run has services: the bytes land in the buffer in
arrival order, the position advances with them, and no service reports
receive-complete. -/
theorem serviceAll_rx (pre : List (Nat × Nat)) (s : SerialState) (c : Nat)
    (hc : s.handle.RxXferCount = pre.length + (c + 1))
    (hpre : ∀ rd ∈ pre, rd.1 &&& USART_ISR_RXNE ≠ 0) :
    (serviceAll s pre).1.handle.RxXferCount = c + 1
    ∧ (serviceAll s pre).1.obj.serial = s.obj.serial
    ∧ (serviceAll s pre).1.handle.pRxBuffPtr = s.handle.pRxBuffPtr + pre.length
    ∧ (serviceAll s pre).1.obj.rx_buff.pos = s.obj.rx_buff.pos + pre.length
    ∧ readBuffer (serviceAll s pre).1.mem s.handle.pRxBuffPtr pre.length
        = pre.map (fun rd => rd.2 % 256)
    ∧ (∀ a, a < s.handle.pRxBuffPtr → (serviceAll s pre).1.mem a = s.mem a)
    ∧ (serviceAll s pre).2.length = pre.length
    ∧ (∀ x ∈ (serviceAll s pre).2, x.testBit 8 = false)
    ∧ (((∀ rd ∈ pre, rd.1 &&& USART_ISR_TC = 0) ∨ s.handle.State &&& 0x10 = 0)
        → (serviceAll s pre).1.handle.State = s.handle.State) := by
  induction pre generalizing s with
  | nil =>
    exact ⟨by simpa using hc, rfl, rfl, rfl, rfl, fun _ _ => rfl, rfl,
      by simp [serviceAll], fun _ => rfl⟩
  | cons rd rest ih =>
    have hrd := hpre rd (List.mem_cons_self _ _)
    have hc1 : s.handle.RxXferCount = (rest.length + (c + 1)) + 1 := by
      rw [hc, List.length_cons]; omega
    obtain ⟨k1, k2, k3, k4, k5, k6, -⟩ :=
      service_rx_step s rd.1 rd.2 (rest.length + (c + 1)) hrd hc1
    obtain ⟨n1, n2⟩ := k6 (by omega)
    obtain ⟨j1, j2, j3, j4, j5, j6, j7, j8, j9⟩ := ih (service s rd.1 rd.2).1 k1
      (fun x hx => hpre x (List.mem_cons_of_mem _ hx))
    refine ⟨j1, j2.trans k2, ?_, ?_, ?_, ?_, ?_, ?_, ?_⟩
    · show (serviceAll (service s rd.1 rd.2).1 rest).1.handle.pRxBuffPtr = _
      rw [j3, k3, List.length_cons]
      omega
    · show (serviceAll (service s rd.1 rd.2).1 rest).1.obj.rx_buff.pos = _
      rw [j4, k5, List.length_cons]
      omega
    · show readBuffer (serviceAll (service s rd.1 rd.2).1 rest).1.mem s.handle.pRxBuffPtr
          (rest.length + 1) = _
      rw [k3] at j5 j6
      simp only [readBuffer, List.map_cons]
      rw [j5, j6 s.handle.pRxBuffPtr (by omega), k4]
      simp
    · intro a ha
      show (serviceAll (service s rd.1 rd.2).1 rest).1.mem a = _
      rw [k3] at j6
      rw [j6 a (by omega), k4]
      simp only [Nat.ne_of_lt ha, if_false]
    · show ((service s rd.1 rd.2).2 :: (serviceAll (service s rd.1 rd.2).1 rest).2).length = _
      rw [List.length_cons, j7, List.length_cons]
    · intro x hx
      have hx' : x ∈ (service s rd.1 rd.2).2 :: (serviceAll (service s rd.1 rd.2).1 rest).2 := hx
      rcases List.mem_cons.1 hx' with h | h
      · rw [h]; exact n1
      · exact j8 x h
    · intro hn
      show (serviceAll (service s rd.1 rd.2).1 rest).1.handle.State = _
      have hstep : (service s rd.1 rd.2).1.handle.State = s.handle.State := by
        apply n2
        rcases hn with hn | hn
        · exact Or.inl (hn rd (List.mem_cons_self _ _))
        · exact Or.inr hn
      rw [j9 ?_, hstep]
      rcases hn with hn | hn
      · exact Or.inl (fun x hx => hn x (List.mem_cons_of_mem _ hx))
      · exact Or.inr (by rw [hstep]; exact hn)

/-- A transmit with `c` elements remaining completes during the services
`r :: rest` exactly when `r` finds transmit-complete set with nothing
remaining, or the transmit, with what `r` leaves of it, completes during
`rest`. -/
theorem tx_done_cons (c : Nat) (r : Nat × Nat) (rest : List (Nat × Nat)) :
    (∃ a x b, r :: rest = a ++ x :: b ∧ x.1 &&& USART_ISR_TC ≠ 0
        ∧ c ≤ a.countP (fun rd => decide (rd.1 &&& USART_ISR_TXE ≠ 0)))
    ↔ ((r.1 &&& USART_ISR_TC ≠ 0 ∧ c = 0)
        ∨ ∃ a x b, rest = a ++ x :: b ∧ x.1 &&& USART_ISR_TC ≠ 0
            ∧ (if r.1 &&& USART_ISR_TXE ≠ 0 ∧ c ≠ 0 then c - 1 else c)
                ≤ a.countP (fun rd => decide (rd.1 &&& USART_ISR_TXE ≠ 0))) := by
  constructor
  · rintro ⟨a, x, b, heq, htc, hle⟩
    rcases a with _ | ⟨r', a'⟩
    · simp only [List.nil_append, List.cons.injEq] at heq
      left
      rw [heq.1]
      simp only [List.countP_nil] at hle
      exact ⟨htc, by omega⟩
    · simp only [List.cons_append, List.cons.injEq] at heq
      right
      refine ⟨a', x, b, heq.2, htc, ?_⟩
      rw [List.countP_cons, ← heq.1] at hle
      by_cases h1 : r.1 &&& USART_ISR_TXE ≠ 0
      · rw [if_pos (decide_eq_true h1)] at hle
        split_ifs <;> omega
      · rw [if_neg (fun h => h1 h.1)]
        rw [if_neg (show ¬ (decide (r.1 &&& USART_ISR_TXE ≠ 0) = true) by simpa using h1)] at hle
        omega
  · rintro (⟨htc, hc⟩ | ⟨a, x, b, heq, htc, hle⟩)
    · exact ⟨[], r, rest, rfl, htc, by omega⟩
    · refine ⟨r :: a, x, b, by rw [heq]; rfl, htc, ?_⟩
      rw [List.countP_cons]
      by_cases h1 : r.1 &&& USART_ISR_TXE ≠ 0
      · rw [if_pos (decide_eq_true h1)]
        split_ifs at hle <;> omega
      · rw [if_neg (fun h => h1 h.1)] at hle
        omega

/-- A receive that runs to its last element with no transmit bit in the state
ends in Ready. -/
theorem rx_run_state_no_tx (rds : List (Nat × Nat)) (s : SerialState)
    (hlen : s.handle.RxXferCount = rds.length) (hpos : 0 < rds.length)
    (hrx : ∀ rd ∈ rds, rd.1 &&& USART_ISR_RXNE ≠ 0)
    (hst : s.handle.State &&& 0x10 = 0) :
    (serviceAll s rds).1.handle.State = HAL_UART_STATE_READY := by
  induction rds generalizing s with
  | nil => simp at hpos
  | cons rd rest ih =>
    have hne : s.handle.RxXferCount ≠ 0 := by rw [hlen]; simp
    have hrd := hrx rd (List.mem_cons_self _ _)
    obtain ⟨r1, -, -, -⟩ := service_rx_side s rd.1 rd.2
    have hs := service_state s rd.1 rd.2
    have hT1 : ¬ (rd.1 &&& USART_ISR_TC ≠ 0 ∧ s.handle.State &&& 0x10 ≠ 0
        ∧ s.handle.TxXferCount = 0) := fun h => h.2.1 hst
    rw [if_neg hT1] at hs
    rw [if_pos ⟨hrd, hne⟩] at r1
    have hnb : s.handle.State ≠ HAL_UART_STATE_BUSY_TX_RX := by
      intro h
      rw [h] at hst
      exact absurd hst (by decide)
    show (serviceAll (service s rd.1 rd.2).1 rest).1.handle.State = _
    rcases rest with _ | ⟨rd2, rest2⟩
    · show (service s rd.1 rd.2).1.handle.State = _
      rw [hs, if_pos ⟨⟨hrd, hne⟩, by rw [hlen]; rfl⟩, if_neg hnb]
    · have hnd : ¬ ((rd.1 &&& USART_ISR_RXNE ≠ 0 ∧ s.handle.RxXferCount ≠ 0)
          ∧ s.handle.RxXferCount - 1 = 0) := by
        rintro ⟨-, h⟩
        rw [hlen] at h
        simp at h
      rw [if_neg hnd] at hs
      exact ih (service s rd.1 rd.2).1 (by rw [r1, hlen]; simp) (by simp)
        (fun x hx => hrx x (List.mem_cons_of_mem _ hx)) (by rw [hs]; exact hst)

/-- A receive that runs to its last element next to a transmit in flight ends
in Busy-Transmit when the transmit has not completed by then, and in Ready
when it has: the transmit completes at the first service that finds
transmit-complete set after as many services with transmit-register-empty set
as elements remained. -/
theorem rx_run_state_with_tx (rds : List (Nat × Nat)) (s : SerialState)
    (hlen : s.handle.RxXferCount = rds.length) (hpos : 0 < rds.length)
    (hrx : ∀ rd ∈ rds, rd.1 &&& USART_ISR_RXNE ≠ 0)
    (hst : s.handle.State = HAL_UART_STATE_BUSY_TX_RX) :
    ((∃ a x b, rds = a ++ x :: b ∧ x.1 &&& USART_ISR_TC ≠ 0
        ∧ s.handle.TxXferCount ≤ a.countP (fun rd => decide (rd.1 &&& USART_ISR_TXE ≠ 0)))
      → (serviceAll s rds).1.handle.State = HAL_UART_STATE_READY)
    ∧ (¬ (∃ a x b, rds = a ++ x :: b ∧ x.1 &&& USART_ISR_TC ≠ 0
        ∧ s.handle.TxXferCount ≤ a.countP (fun rd => decide (rd.1 &&& USART_ISR_TXE ≠ 0)))
      → (serviceAll s rds).1.handle.State = HAL_UART_STATE_BUSY_TX) := by
  induction rds generalizing s with
  | nil => simp at hpos
  | cons rd rest ih =>
    have hne : s.handle.RxXferCount ≠ 0 := by rw [hlen]; simp
    have hrd := hrx rd (List.mem_cons_self _ _)
    have h10 : s.handle.State &&& 0x10 ≠ 0 := by rw [hst]; decide
    obtain ⟨r1, -, -, -⟩ := service_rx_side s rd.1 rd.2
    obtain ⟨t1, -, -, -⟩ := service_tx_side s rd.1 rd.2
    have hs := service_state s rd.1 rd.2
    rw [if_pos ⟨hrd, hne⟩] at r1
    rw [tx_done_cons]
    show (_ → (serviceAll (service s rd.1 rd.2).1 rest).1.handle.State = _)
      ∧ (_ → (serviceAll (service s rd.1 rd.2).1 rest).1.handle.State = _)
    by_cases hT1 : rd.1 &&& USART_ISR_TC ≠ 0 ∧ s.handle.TxXferCount = 0
    · have hT : rd.1 &&& USART_ISR_TC ≠ 0 ∧ s.handle.State &&& 0x10 ≠ 0
          ∧ s.handle.TxXferCount = 0 := ⟨hT1.1, h10, hT1.2⟩
      rw [if_pos hT, if_pos hst] at hs
      refine ⟨fun _ => ?_, fun hn => absurd (Or.inl hT1) hn⟩
      rcases rest with _ | ⟨rd2, rest2⟩
      · show (service s rd.1 rd.2).1.handle.State = _
        rw [hs, if_pos ⟨⟨hrd, hne⟩, by rw [hlen]; rfl⟩, if_neg (by decide)]
      · have hnd : ¬ ((rd.1 &&& USART_ISR_RXNE ≠ 0 ∧ s.handle.RxXferCount ≠ 0)
            ∧ s.handle.RxXferCount - 1 = 0) := by
          rintro ⟨-, h⟩
          rw [hlen] at h
          simp at h
        rw [if_neg hnd] at hs
        exact rx_run_state_no_tx _ (service s rd.1 rd.2).1 (by rw [r1, hlen]; simp) (by simp)
          (fun x hx => hrx x (List.mem_cons_of_mem _ hx)) (by rw [hs]; decide)
    · have hT : ¬ (rd.1 &&& USART_ISR_TC ≠ 0 ∧ s.handle.State &&& 0x10 ≠ 0
          ∧ s.handle.TxXferCount = 0) := fun h => hT1 ⟨h.1, h.2.2⟩
      rw [if_neg hT] at hs
      rcases rest with _ | ⟨rd2, rest2⟩
      · have hfin : (service s rd.1 rd.2).1.handle.State = HAL_UART_STATE_BUSY_TX := by
          rw [hs, if_pos ⟨⟨hrd, hne⟩, by rw [hlen]; rfl⟩, if_pos hst]
        refine ⟨fun hd => ?_, fun _ => hfin⟩
        rcases hd with hd | ⟨a, x, b, heq, -, -⟩
        · exact absurd hd hT1
        · rcases a with _ | ⟨_, _⟩ <;> simp at heq
      · have hnd : ¬ ((rd.1 &&& USART_ISR_RXNE ≠ 0 ∧ s.handle.RxXferCount ≠ 0)
            ∧ s.handle.RxXferCount - 1 = 0) := by
          rintro ⟨-, h⟩
          rw [hlen] at h
          simp at h
        rw [if_neg hnd] at hs
        obtain ⟨i1, i2⟩ := ih (service s rd.1 rd.2).1 (by rw [r1, hlen]; simp) (by simp)
          (fun x hx => hrx x (List.mem_cons_of_mem _ hx)) (by rw [hs]; exact hst)
        rw [t1] at i1 i2
        refine ⟨fun hd => ?_, fun hn => ?_⟩
        · rcases hd with hd | hd
          · exact absurd hd hT1
          · exact i1 hd
        · exact i2 (fun hd => hn (Or.inr hd))

/-- C24, as stated, fails: a one-element receive started from Busy-Transmit
puts the state at Busy-Transmit-And-Receive, and the one service that follows,
finding receive-not-empty and transmit-complete set with nothing left to
transmit, completes the transmit and the receive together; the state ends at
Ready, not at Busy-Transmit. -/
theorem rx_async_tx_completes_meanwhile :
    (serial_rx_asynch sampleTarget (stateWith HAL_UART_STATE_BUSY_TX)
        0x20000100 1 8 0x08002000 SERIAL_EVENT_RX_COMPLETE 255 0).handle.State
      = HAL_UART_STATE_BUSY_TX_RX
    ∧ (serviceAll (serial_rx_asynch sampleTarget (stateWith HAL_UART_STATE_BUSY_TX)
          0x20000100 1 8 0x08002000 SERIAL_EVENT_RX_COMPLETE 255 0)
        [(USART_ISR_RXNE ||| USART_ISR_TC, 0x41)]).1.handle.State = HAL_UART_STATE_READY
    ∧ (serviceAll (serial_rx_asynch sampleTarget (stateWith HAL_UART_STATE_BUSY_TX)
          0x20000100 1 8 0x08002000 SERIAL_EVENT_RX_COMPLETE 255 0)
        [(USART_ISR_RXNE ||| USART_ISR_TC, 0x41)]).2 = [SERIAL_EVENT_RX_COMPLETE] :=
  ⟨rfl, rfl, rfl⟩

/-- C24, the 16-bit count: a receive of 65536 elements has the remaining
count 0 from the start, so a service that finds receive-not-empty set stores
nothing and leaves the position at 0. -/
theorem rx_async_65536_stores_nothing :
    (serial_rx_asynch sampleTarget (stateWith HAL_UART_STATE_READY)
        0x20000100 65536 8 0x08002000 SERIAL_EVENT_RX_COMPLETE 255 0).handle.RxXferCount = 0
    ∧ (serviceAll (serial_rx_asynch sampleTarget (stateWith HAL_UART_STATE_READY)
          0x20000100 65536 8 0x08002000 SERIAL_EVENT_RX_COMPLETE 255 0)
        [(USART_ISR_RXNE, 0x41)]).1.obj.rx_buff.pos = 0
    ∧ (serviceAll (serial_rx_asynch sampleTarget (stateWith HAL_UART_STATE_READY)
          0x20000100 65536 8 0x08002000 SERIAL_EVENT_RX_COMPLETE 255 0)
        [(USART_ISR_RXNE, 0x41)]).1.mem 0x20000100 = 0
    ∧ (serviceAll (serial_rx_asynch sampleTarget (stateWith HAL_UART_STATE_READY)
          0x20000100 65536 8 0x08002000 SERIAL_EVENT_RX_COMPLETE 255 0)
        [(USART_ISR_RXNE, 0x41)]).2 = [0] :=
  ⟨rfl, rfl, rfl, rfl⟩

/-- C24, amended: for every N from 1 to 65535 (the remaining count is a 16-bit
value), after `serial_rx_asynch` of an N-element buffer with receive-complete
subscribed, followed by N services that each find receive-not-empty set, the
buffer holds the low 8 bits of the N received data values in arrival order,
the receive position is N, the receive-complete bit is in the result of the
N-th call and of no earlier call, and the receive-not-empty, parity-error and
general-error interrupt enables are clear.  The state has dropped from
Busy-Receive to Ready when the receive was not started from Busy-Transmit.
When it was started from Busy-Transmit, the state has dropped from
Busy-Transmit-And-Receive to Busy-Transmit if that transmit has not completed
during the N calls, and to Ready if it has: the transmit completes at a call
that finds transmit-complete set after at least as many calls with
transmit-register-empty set as elements remained to be transmitted. -/
theorem rx_async_completes (T : Target) (s : SerialState)
    (rx N rx_width handler event char_match hint : Nat)
    (pre : List (Nat × Nat)) (last : Nat × Nat)
    (hrx0 : rx ≠ 0) (hN : pre.length + 1 = N) (h16 : N < 65536)
    (hirq : T.UartIRQs s.obj.serial.module ≠ 0)
    (hev : event &&& SERIAL_EVENT_RX_COMPLETE ≠ 0)
    (hpre : ∀ rd ∈ pre, rd.1 &&& USART_ISR_RXNE ≠ 0)
    (hlast : last.1 &&& USART_ISR_RXNE ≠ 0) :
    readBuffer
        (serviceAll (serial_rx_asynch T s rx N rx_width handler event char_match hint)
          (pre ++ [last])).1.mem rx N
      = (pre ++ [last]).map (fun rd => rd.2 % 256)
    ∧ (serviceAll (serial_rx_asynch T s rx N rx_width handler event char_match hint)
        (pre ++ [last])).1.obj.rx_buff.pos = N
    ∧ (∃ evs e,
        (serviceAll (serial_rx_asynch T s rx N rx_width handler event char_match hint)
          (pre ++ [last])).2 = evs ++ [e]
        ∧ evs.length + 1 = N
        ∧ (∀ x ∈ evs, x &&& SERIAL_EVENT_RX_COMPLETE = 0)
        ∧ e &&& SERIAL_EVENT_RX_COMPLETE ≠ 0)
    ∧ (serviceAll (serial_rx_asynch T s rx N rx_width handler event char_match hint)
        (pre ++ [last])).1.regs.CR1 &&& USART_CR1_RXNEIE = 0
    ∧ (serviceAll (serial_rx_asynch T s rx N rx_width handler event char_match hint)
        (pre ++ [last])).1.regs.CR1 &&& USART_CR1_PEIE = 0
    ∧ (serviceAll (serial_rx_asynch T s rx N rx_width handler event char_match hint)
        (pre ++ [last])).1.regs.CR3 &&& USART_CR3_EIE = 0
    ∧ (s.handle.State ≠ HAL_UART_STATE_BUSY_TX →
        (serial_rx_asynch T s rx N rx_width handler event char_match hint).handle.State
            = HAL_UART_STATE_BUSY_RX
        ∧ (serviceAll (serial_rx_asynch T s rx N rx_width handler event char_match hint)
            (pre ++ [last])).1.handle.State = HAL_UART_STATE_READY)
    ∧ (s.handle.State = HAL_UART_STATE_BUSY_TX →
        (serial_rx_asynch T s rx N rx_width handler event char_match hint).handle.State
            = HAL_UART_STATE_BUSY_TX_RX
        ∧ ((∃ a x b, pre ++ [last] = a ++ x :: b ∧ x.1 &&& USART_ISR_TC ≠ 0
              ∧ s.handle.TxXferCount
                  ≤ a.countP (fun rd => decide (rd.1 &&& USART_ISR_TXE ≠ 0)))
            → (serviceAll (serial_rx_asynch T s rx N rx_width handler event char_match hint)
                (pre ++ [last])).1.handle.State = HAL_UART_STATE_READY)
        ∧ (¬ (∃ a x b, pre ++ [last] = a ++ x :: b ∧ x.1 &&& USART_ISR_TC ≠ 0
              ∧ s.handle.TxXferCount
                  ≤ a.countP (fun rd => decide (rd.1 &&& USART_ISR_TXE ≠ 0)))
            → (serviceAll (serial_rx_asynch T s rx N rx_width handler event char_match hint)
                (pre ++ [last])).1.handle.State = HAL_UART_STATE_BUSY_TX)) := by
  subst hN
  obtain ⟨a1, a2, a3, a4, a5, a6⟩ := rx_asynch_start T s rx (pre.length + 1) rx_width handler
    event char_match hint hrx0 (by omega) hirq
  rw [Nat.mod_eq_of_lt h16] at a2
  have hall : ∀ rd ∈ pre ++ [last], rd.1 &&& USART_ISR_RXNE ≠ 0 := by
    intro rd hrd
    rcases List.mem_append.1 hrd with h | h
    · exact hpre rd h
    · rw [List.mem_singleton.1 h]
      exact hlast
  have hlen : (serial_rx_asynch T s rx (pre.length + 1) rx_width handler event char_match
      hint).handle.RxXferCount = (pre ++ [last]).length := by
    rw [a2, List.length_append, List.length_singleton]
  have hstate1 : s.handle.State ≠ HAL_UART_STATE_BUSY_TX →
      (serial_rx_asynch T s rx (pre.length + 1) rx_width handler event char_match
          hint).handle.State = HAL_UART_STATE_BUSY_RX
      ∧ (serviceAll (serial_rx_asynch T s rx (pre.length + 1) rx_width handler event char_match
          hint) (pre ++ [last])).1.handle.State = HAL_UART_STATE_READY := by
    intro hs
    have hst : (serial_rx_asynch T s rx (pre.length + 1) rx_width handler event char_match
        hint).handle.State = HAL_UART_STATE_BUSY_RX := by rw [a1, if_neg hs]
    exact ⟨hst, rx_run_state_no_tx _ _ hlen (by simp) hall (by rw [hst]; decide)⟩
  have hstate2 : s.handle.State = HAL_UART_STATE_BUSY_TX →
      (serial_rx_asynch T s rx (pre.length + 1) rx_width handler event char_match
          hint).handle.State = HAL_UART_STATE_BUSY_TX_RX
      ∧ ((∃ a x b, pre ++ [last] = a ++ x :: b ∧ x.1 &&& USART_ISR_TC ≠ 0
            ∧ s.handle.TxXferCount
                ≤ a.countP (fun rd => decide (rd.1 &&& USART_ISR_TXE ≠ 0)))
          → (serviceAll (serial_rx_asynch T s rx (pre.length + 1) rx_width handler event
              char_match hint) (pre ++ [last])).1.handle.State = HAL_UART_STATE_READY)
      ∧ (¬ (∃ a x b, pre ++ [last] = a ++ x :: b ∧ x.1 &&& USART_ISR_TC ≠ 0
            ∧ s.handle.TxXferCount
                ≤ a.countP (fun rd => decide (rd.1 &&& USART_ISR_TXE ≠ 0)))
          → (serviceAll (serial_rx_asynch T s rx (pre.length + 1) rx_width handler event
              char_match hint) (pre ++ [last])).1.handle.State = HAL_UART_STATE_BUSY_TX) := by
    intro hs
    have hst : (serial_rx_asynch T s rx (pre.length + 1) rx_width handler event char_match
        hint).handle.State = HAL_UART_STATE_BUSY_TX_RX := by rw [a1, if_pos hs]
    have := rx_run_state_with_tx _ _ hlen (by simp) hall hst
    rw [a6] at this
    exact ⟨hst, this⟩
  obtain ⟨b1, b2, b3, b4, b5, b6, b7, b8, -⟩ := serviceAll_rx pre
    (serial_rx_asynch T s rx (pre.length + 1) rx_width handler event
      char_match hint) 0
    (by rw [a2]) hpre
  obtain ⟨c1, c2, c3, c4, c5, -, c7⟩ := service_rx_step
    (serviceAll (serial_rx_asynch T s rx (pre.length + 1) rx_width handler event
      char_match hint) pre).1
    last.1 last.2 0 hlast b1
  obtain ⟨d1, -, -, d4, d5, d6⟩ := c7 rfl
  have hsub : (serviceAll (serial_rx_asynch T s rx (pre.length + 1) rx_width handler event
      char_match hint)
      pre).1.obj.serial.event.testBit 8 = true := by
    have he : event.testBit 8 = true := (and_two_pow_ne_zero _ 8).1 hev
    rw [b2, a5, Nat.testBit_or, Nat.testBit_and, he]
    simp only [SERIAL_EVENT_RX_MASK, Bool.true_and, Bool.or_eq_true]
    right
    decide
  refine ⟨?_, ?_, ?_, ?_, ?_, ?_, hstate1, hstate2⟩
  · rw [serviceAll_append]
    show readBuffer (service _ last.1 last.2).1.mem rx (pre.length + 1) = _
    rw [readBuffer_snoc, List.map_append, List.map_singleton, c4, b3, a3]
    congr 1
    · rw [← b5, a3]
      apply readBuffer_congr
      intro x _ h2
      simp only [Nat.ne_of_lt h2, if_false]
    · simp
  · rw [serviceAll_append]
    show (service _ last.1 last.2).1.obj.rx_buff.pos = _
    rw [c5, b4, a4]
    simp
  · rw [serviceAll_append]
    refine ⟨_, _, rfl, by rw [b7], ?_, ?_⟩
    · intro x hx
      exact (and_two_pow_eq_zero x 8).2 (b8 x hx)
    · show _ &&& 2 ^ 8 ≠ 0
      rw [and_two_pow_ne_zero]
      show (service _ last.1 last.2).2.testBit 8 = true
      rw [d1, hsub]
  · rw [serviceAll_append]
    exact d4
  · rw [serviceAll_append]
    exact d5
  · rw [serviceAll_append]
    exact d6

theorem rx_async_completes_witness :
    (serviceAll (serial_rx_asynch sampleTarget transmittingState
          0x20000100 3 8 0x08002000 SERIAL_EVENT_RX_COMPLETE 255 0)
        ([(USART_ISR_RXNE ||| USART_ISR_TXE, 0x41), (USART_ISR_RXNE ||| USART_ISR_TXE, 0x142)]
          ++ [(USART_ISR_RXNE ||| USART_ISR_TC, 0x43)])).1.handle.State = HAL_UART_STATE_READY
    ∧ readBuffer
        (serviceAll (serial_rx_asynch sampleTarget transmittingState
            0x20000100 3 8 0x08002000 SERIAL_EVENT_RX_COMPLETE 255 0)
          ([(USART_ISR_RXNE ||| USART_ISR_TXE, 0x41), (USART_ISR_RXNE ||| USART_ISR_TXE, 0x142)]
            ++ [(USART_ISR_RXNE ||| USART_ISR_TC, 0x43)])).1.mem 0x20000100 3
      = ([(USART_ISR_RXNE ||| USART_ISR_TXE, 0x41), (USART_ISR_RXNE ||| USART_ISR_TXE, 0x142)]
          ++ [(USART_ISR_RXNE ||| USART_ISR_TC, 0x43)]).map (fun rd : Nat × Nat => rd.2 % 256)
    ∧ (serviceAll (serial_rx_asynch sampleTarget transmittingState
          0x20000100 3 8 0x08002000 SERIAL_EVENT_RX_COMPLETE 255 0)
        ([(USART_ISR_RXNE ||| USART_ISR_TXE, 0x41), (USART_ISR_RXNE ||| USART_ISR_TXE, 0x142)]
          ++ [(USART_ISR_RXNE ||| USART_ISR_TC, 0x43)])).1.obj.rx_buff.pos = 3
    ∧ (∃ evs e,
        (serviceAll (serial_rx_asynch sampleTarget transmittingState
            0x20000100 3 8 0x08002000 SERIAL_EVENT_RX_COMPLETE 255 0)
          ([(USART_ISR_RXNE ||| USART_ISR_TXE, 0x41), (USART_ISR_RXNE ||| USART_ISR_TXE, 0x142)]
            ++ [(USART_ISR_RXNE ||| USART_ISR_TC, 0x43)])).2 = evs ++ [e]
        ∧ evs.length + 1 = 3
        ∧ (∀ x ∈ evs, x &&& SERIAL_EVENT_RX_COMPLETE = 0)
        ∧ e &&& SERIAL_EVENT_RX_COMPLETE ≠ 0)
    ∧ (serviceAll (serial_rx_asynch sampleTarget transmittingState
          0x20000100 3 8 0x08002000 SERIAL_EVENT_RX_COMPLETE 255 0)
        ([(USART_ISR_RXNE ||| USART_ISR_TXE, 0x41), (USART_ISR_RXNE ||| USART_ISR_TXE, 0x142)]
          ++ [(USART_ISR_RXNE ||| USART_ISR_TC, 0x43)])).1.regs.CR1 &&& USART_CR1_RXNEIE = 0
    ∧ (serviceAll (serial_rx_asynch sampleTarget transmittingState
          0x20000100 3 8 0x08002000 SERIAL_EVENT_RX_COMPLETE 255 0)
        ([(USART_ISR_RXNE ||| USART_ISR_TXE, 0x41), (USART_ISR_RXNE ||| USART_ISR_TXE, 0x142)]
          ++ [(USART_ISR_RXNE ||| USART_ISR_TC, 0x43)])).1.regs.CR1 &&& USART_CR1_PEIE = 0
    ∧ (serviceAll (serial_rx_asynch sampleTarget transmittingState
          0x20000100 3 8 0x08002000 SERIAL_EVENT_RX_COMPLETE 255 0)
        ([(USART_ISR_RXNE ||| USART_ISR_TXE, 0x41), (USART_ISR_RXNE ||| USART_ISR_TXE, 0x142)]
          ++ [(USART_ISR_RXNE ||| USART_ISR_TC, 0x43)])).1.regs.CR3 &&& USART_CR3_EIE = 0
    ∧ (transmittingState.handle.State ≠ HAL_UART_STATE_BUSY_TX →
        (serial_rx_asynch sampleTarget transmittingState
            0x20000100 3 8 0x08002000 SERIAL_EVENT_RX_COMPLETE 255 0).handle.State
            = HAL_UART_STATE_BUSY_RX
        ∧ (serviceAll (serial_rx_asynch sampleTarget transmittingState
              0x20000100 3 8 0x08002000 SERIAL_EVENT_RX_COMPLETE 255 0)
            ([(USART_ISR_RXNE ||| USART_ISR_TXE, 0x41),
                (USART_ISR_RXNE ||| USART_ISR_TXE, 0x142)]
              ++ [(USART_ISR_RXNE ||| USART_ISR_TC, 0x43)])).1.handle.State
            = HAL_UART_STATE_READY)
    ∧ (transmittingState.handle.State = HAL_UART_STATE_BUSY_TX →
        (serial_rx_asynch sampleTarget transmittingState
            0x20000100 3 8 0x08002000 SERIAL_EVENT_RX_COMPLETE 255 0).handle.State
            = HAL_UART_STATE_BUSY_TX_RX
        ∧ ((∃ a x b,
              [(USART_ISR_RXNE ||| USART_ISR_TXE, 0x41),
                  (USART_ISR_RXNE ||| USART_ISR_TXE, 0x142)]
                ++ [(USART_ISR_RXNE ||| USART_ISR_TC, 0x43)] = a ++ x :: b
              ∧ x.1 &&& USART_ISR_TC ≠ 0
              ∧ transmittingState.handle.TxXferCount
                  ≤ a.countP (fun rd => decide (rd.1 &&& USART_ISR_TXE ≠ 0)))
            → (serviceAll (serial_rx_asynch sampleTarget transmittingState
                  0x20000100 3 8 0x08002000 SERIAL_EVENT_RX_COMPLETE 255 0)
                ([(USART_ISR_RXNE ||| USART_ISR_TXE, 0x41),
                    (USART_ISR_RXNE ||| USART_ISR_TXE, 0x142)]
                  ++ [(USART_ISR_RXNE ||| USART_ISR_TC, 0x43)])).1.handle.State
                = HAL_UART_STATE_READY)
        ∧ (¬ (∃ a x b,
              [(USART_ISR_RXNE ||| USART_ISR_TXE, 0x41),
                  (USART_ISR_RXNE ||| USART_ISR_TXE, 0x142)]
                ++ [(USART_ISR_RXNE ||| USART_ISR_TC, 0x43)] = a ++ x :: b
              ∧ x.1 &&& USART_ISR_TC ≠ 0
              ∧ transmittingState.handle.TxXferCount
                  ≤ a.countP (fun rd => decide (rd.1 &&& USART_ISR_TXE ≠ 0)))
            → (serviceAll (serial_rx_asynch sampleTarget transmittingState
                  0x20000100 3 8 0x08002000 SERIAL_EVENT_RX_COMPLETE 255 0)
                ([(USART_ISR_RXNE ||| USART_ISR_TXE, 0x41),
                    (USART_ISR_RXNE ||| USART_ISR_TXE, 0x142)]
                  ++ [(USART_ISR_RXNE ||| USART_ISR_TC, 0x43)])).1.handle.State
                = HAL_UART_STATE_BUSY_TX)) :=
  ⟨rfl,
    rx_async_completes sampleTarget transmittingState
      0x20000100 3 8 0x08002000 SERIAL_EVENT_RX_COMPLETE 255 0
      [(USART_ISR_RXNE ||| USART_ISR_TXE, 0x41), (USART_ISR_RXNE ||| USART_ISR_TXE, 0x142)]
      (USART_ISR_RXNE ||| USART_ISR_TC, 0x43)
      (by decide) (by decide) (by decide) (by decide) (by decide) (by decide) (by decide)⟩

end Serial
